import Mathlib

/-!
# IPS Fulano backend: authentication, role checks and the three repositories

A shallow embedding of the Express handlers of the repository
(`middleware/role.js`, `utils/generateToken.js`, `routes/auth.js`,
`routes/users.js`, `routes/patients.js`, `routes/clinicalHistory.js`) and of
the CORS callback and error middleware of `server.js`, over an explicit model
of the MySQL store declared in `config/database.js`.

Conventions of the embedding:

* a handler is a function from the request and the store to the response and
  the store it leaves behind; a request is taken as the route handlers and
  `authorize` see it, with `req.user` as the authentication middleware left it;
* `db.execute(sql, params)` is `execute`: it records the statement in the
  store's log, lets the statements of other sessions scheduled before it run,
  raises the fault scheduled for it (if any) and otherwise evaluates the
  statement on the tables, constraints included;
* the functions of `express-validator`, `bcryptjs` and `jsonwebtoken` that
  the handlers call are fields of `Lib`;
* text comparison in the store is equality of strings, column widths and
  date syntax are not checked by the store model.
-/

namespace IpsFulano

/-! ## JavaScript values, requests and responses -/

/-- JavaScript values that travel in request bodies, bound parameters and
response bodies. Numbers are the integer-valued ones. -/
inductive Js where
  | undefined
  | null
  | bool (b : Bool)
  | num (n : Int)
  | str (s : String)
  | arr (xs : List Js)
  | obj (fields : List (String × Js))

/-- The test `v !== undefined`, negated. -/
def Js.isUndefined : Js → Bool
  | .undefined => true
  | _ => false

/-- JavaScript truthiness, as used by `if (v)`, `!v` and `v || w`. -/
def Js.truthy : Js → Bool
  | .undefined => false
  | .null => false
  | .bool b => b
  | .num n => n != 0
  | .str s => s != ""
  | .arr _ => true
  | .obj _ => true

/-- The expression `v || null`. -/
def Js.orNull (v : Js) : Js := if v.truthy then v else .null

/-- The result of `typeof v`. -/
def Js.typeOf : Js → String
  | .undefined => "undefined"
  | .null => "object"
  | .bool _ => "boolean"
  | .num _ => "number"
  | .str _ => "string"
  | .arr _ => "object"
  | .obj _ => "object"

/-- The parsed JSON body of a request: `req.body[field]`, `undefined` for a
key that is absent. -/
abbrev Body := String → Js

/-- The part of an Express request the handlers read. `bearer` is the token of
the `Authorization` header; `user` is `req.user.userId`, present once the
authentication middleware has accepted that token; `paramId` is
`req.params.id`, the raw path segment. -/
structure Req where
  bearer : Option String
  user : Option Nat
  paramId : String
  body : Body

/-- Property access `v[key]` on a parsed JSON value: the first field of that
name of an object, `undefined` otherwise. -/
def Js.field (key : String) : Js → Js
  | .obj fields => ((fields.find? (fun kv => kv.1 == key)).map (fun kv => kv.2)).getD .undefined
  | _ => .undefined

/-- What `res.status(s).json(b)` sends; `res.json(b)` alone sends status 200. -/
structure Response where
  status : Nat
  body : Js

/-- The body `{ error: msg }`. -/
def errorBody (msg : String) : Js := .obj [("error", .str msg)]

/-- The body `{ message: msg }`. -/
def messageBody (msg : String) : Js := .obj [("message", .str msg)]

/-- The body `{ error: msg, details: error.message }`. -/
def errorDetails (msg details : String) : Js :=
  .obj [("error", .str msg), ("details", .str details)]

/-- Outcome of a middleware: it either answers the request itself or hands it
on with `next()`. -/
inductive Outcome where
  | respond (r : Response)
  | next

/-! ## The store -/

/-- A row of table `users` (`created_at` left out). `updated_at` is the column
declared `DEFAULT CURRENT_TIMESTAMP ON UPDATE CURRENT_TIMESTAMP`, in seconds. -/
structure User where
  id : Nat
  name : String
  email : String
  password : String
  role : String
  is_active : Bool
  updated_at : Nat
  deriving DecidableEq

/-- A row of table `patients` (timestamps left out). `document_type` is the
column named by the INSERT of `POST /api/patients`. -/
structure Patient where
  id : Nat
  identification : String
  document_type : String
  first_name : String
  last_name : String
  date_of_birth : String
  gender : String
  phone : Option String
  email : Option String
  address : Option String
  emergency_contact : Option String
  emergency_phone : Option String
  blood_type : Option String
  allergies : Option String
  created_by : Option Nat
  deriving DecidableEq

/-- A row of table `clinical_histories` (timestamps and `visit_date` left
out). `vital_signs` holds the JSON text that was bound. -/
structure History where
  id : Nat
  patient_id : Nat
  doctor_id : Nat
  reason_for_visit : String
  symptoms : Option String
  diagnosis : Option String
  treatment : Option String
  prescriptions : Option String
  observations : Option String
  vital_signs : Option String
  next_appointment : Option String
  deriving DecidableEq

/-- An error thrown by `db.execute`: `error.code` and `error.message`. -/
structure DbError where
  code : String
  message : String

/-- The statements the handlers pass to `db.execute`, one constructor per SQL
text, carrying the bound parameters. -/
inductive Stmt where
  /-- `SELECT role FROM users WHERE id = ?` -/
  | selectRoleById (id : Js)
  /-- `SELECT * FROM users WHERE email = ? AND is_active = TRUE` -/
  | selectActiveByEmail (email : Js)
  /-- `SELECT * FROM users WHERE email = ? AND is_active = FALSE` -/
  | selectInactiveByEmail (email : Js)
  /-- `SELECT id FROM users WHERE email = ?` -/
  | selectUserIdByEmail (email : Js)
  /-- `INSERT INTO users (name, email, password, role) VALUES (?, ?, ?, ?)` -/
  | insertUser (name email password role : Js)
  /-- `UPDATE users SET <updates> WHERE id = ?` -/
  | updateUsers (updates : List String) (values : List Js)
  /-- `SELECT id FROM patients WHERE identification = ?` -/
  | selectPatientIdByIdentification (identification : Js)
  /-- `INSERT INTO patients (...) VALUES (?, ..., ?)`, fourteen values -/
  | insertPatient (patientData : List Js)
  /-- `UPDATE patients SET <updates> WHERE id = ?` -/
  | updatePatients (updates : List String) (values : List Js)
  /-- `DELETE FROM patients WHERE id = ?` -/
  | deletePatient (id : Js)
  /-- `UPDATE clinical_histories SET <updates> WHERE id = ?` -/
  | updateHistories (updates : List String) (values : List Js)
  /-- `DELETE FROM clinical_histories WHERE id = ?` -/
  | deleteHistory (id : Js)
  /-- `UPDATE users SET is_active = FALSE WHERE id = ?` -/
  | deactivateUser (id : Js)
  /-- `SELECT id, name, email, role FROM users WHERE id = ?` -/
  | selectUserById (id : Js)
  /-- `SELECT id FROM patients WHERE id = ?` -/
  | selectPatientById (id : Js)
  /-- `INSERT INTO clinical_histories (...) VALUES (?, ..., ?)`, ten values -/
  | insertHistory (values : List Js)
  /-- `SELECT ch.*, p.first_name, ..., u.name as doctor_name FROM
  clinical_histories ch JOIN patients p ... JOIN users u ... WHERE ch.id = ?` -/
  | selectHistoryById (id : Js)

/-- The SQL text of a statement (runs of white space written as one blank). -/
def Stmt.sql : Stmt → String
  | .selectRoleById _ => "SELECT role FROM users WHERE id = ?"
  | .selectActiveByEmail _ => "SELECT * FROM users WHERE email = ? AND is_active = TRUE"
  | .selectInactiveByEmail _ => "SELECT * FROM users WHERE email = ? AND is_active = FALSE"
  | .selectUserIdByEmail _ => "SELECT id FROM users WHERE email = ?"
  | .insertUser _ _ _ _ => "INSERT INTO users (name, email, password, role) VALUES (?, ?, ?, ?)"
  | .updateUsers updates _ =>
      "UPDATE users SET " ++ String.intercalate ", " updates ++ " WHERE id = ?"
  | .selectPatientIdByIdentification _ => "SELECT id FROM patients WHERE identification = ?"
  | .insertPatient _ =>
      "INSERT INTO patients ( identification, document_type, first_name, last_name, " ++
      "date_of_birth, gender, phone, email, address, emergency_contact, emergency_phone, " ++
      "blood_type, allergies, created_by ) VALUES (?, ?, ?, ?, ?, ?, ?, ?, ?, ?, ?, ?, ?, ?)"
  | .updatePatients updates _ =>
      "UPDATE patients SET " ++ String.intercalate ", " updates ++ " WHERE id = ?"
  | .deletePatient _ => "DELETE FROM patients WHERE id = ?"
  | .updateHistories updates _ =>
      "UPDATE clinical_histories SET " ++ String.intercalate ", " updates ++ " WHERE id = ?"
  | .deleteHistory _ => "DELETE FROM clinical_histories WHERE id = ?"
  | .deactivateUser _ => "UPDATE users SET is_active = FALSE WHERE id = ?"
  | .selectUserById _ => "SELECT id, name, email, role FROM users WHERE id = ?"
  | .selectPatientById _ => "SELECT id FROM patients WHERE id = ?"
  | .insertHistory _ =>
      "INSERT INTO clinical_histories ( patient_id, doctor_id, reason_for_visit, symptoms, " ++
      "diagnosis, treatment, prescriptions, observations, vital_signs, next_appointment ) " ++
      "VALUES (?, ?, ?, ?, ?, ?, ?, ?, ?, ?)"
  | .selectHistoryById _ =>
      "SELECT ch.*, p.first_name, p.last_name, p.identification, p.date_of_birth, p.gender, " ++
      "u.name as doctor_name FROM clinical_histories ch JOIN patients p ON ch.patient_id = p.id " ++
      "JOIN users u ON ch.doctor_id = u.id WHERE ch.id = ?"

/-- The array of bound parameters of a statement. -/
def Stmt.params : Stmt → List Js
  | .selectRoleById id => [id]
  | .selectActiveByEmail email => [email]
  | .selectInactiveByEmail email => [email]
  | .selectUserIdByEmail email => [email]
  | .insertUser name email password role => [name, email, password, role]
  | .updateUsers _ values => values
  | .selectPatientIdByIdentification identification => [identification]
  | .insertPatient patientData => patientData
  | .updatePatients _ values => values
  | .deletePatient id => [id]
  | .updateHistories _ values => values
  | .deleteHistory id => [id]
  | .deactivateUser id => [id]
  | .selectUserById id => [id]
  | .selectPatientById id => [id]
  | .insertHistory values => values
  | .selectHistoryById id => [id]

/-- Whether the statement is one of the two hard deletes. -/
def Stmt.isDelete : Stmt → Bool
  | .deletePatient _ => true
  | .deleteHistory _ => true
  | _ => false

/-- Whether the statement is one of the dynamic UPDATEs. -/
def Stmt.isUpdate : Stmt → Bool
  | .updateUsers _ _ => true
  | .updatePatients _ _ => true
  | .updateHistories _ _ => true
  | _ => false

/-- What happens around one `db.execute` call of the handler: the statements
other sessions get executed first, and the failure (lost connection, time-out)
that the call runs into, if any. -/
structure Slot where
  before : List Stmt
  fault : Option DbError

/-- The store: the three tables, their AUTO_INCREMENT counters, whether table
`patients` has the `document_type` column (the CREATE TABLE IF NOT EXISTS of
`createTables` does not declare it and leaves an existing table as it is), the
log of the statements the handlers issued, what is scheduled around the
coming `db.execute` calls (nothing, once the list is used up), and the time
`CURRENT_TIMESTAMP` shows, in seconds (the statements of one request are taken
to run within the same second). -/
structure Db where
  users : List User
  patients : List Patient
  histories : List History
  nextUserId : Nat
  nextPatientId : Nat
  nextHistoryId : Nat
  hasDocumentType : Bool
  log : List Stmt
  sched : List Slot
  clock : Nat

/-- What `db.execute` resolves to: the rows of a SELECT on each table, and
`insertId` / `affectedRows` of the result header of a write. -/
structure Result where
  users : List User
  patients : List Patient
  histories : List History
  insertId : Nat
  affectedRows : Nat

/-- The result of a SELECT on `users`. -/
def Result.ofUsers (rows : List User) : Result := ⟨rows, [], [], 0, 0⟩

/-- The result of a SELECT on `patients`. -/
def Result.ofPatients (rows : List Patient) : Result := ⟨[], rows, [], 0, 0⟩

/-- The result header of a write. -/
def Result.header (insertId affectedRows : Nat) : Result := ⟨[], [], [], insertId, affectedRows⟩

/-- The role ENUM of table `users` in `createTables`. -/
def usersRoleEnum : List String := ["admin", "doctor", "recepcionista"]

/-- The gender ENUM of table `patients` in `createTables`. -/
def patientsGenderEnum : List String := ["M", "F", "Otro"]

/-- Decimal numeral to number, `none` for anything but digits. -/
def parseDigits : List Char → Nat → Option Nat
  | [], acc => some acc
  | c :: cs, acc =>
    if c.isDigit then parseDigits cs (acc * 10 + (c.toNat - 48)) else none

/-- The row identifier a bound value denotes in `WHERE id = ?`: a number
stands for itself, a string for the numeral it spells; anything else matches
no row. -/
def sqlId : Js → Option Nat
  | .num n => if 0 ≤ n then some n.toNat else none
  | .str s => if s = "" then none else parseDigits s.data 0
  | _ => none

/-- The text a bound value stores in a NOT NULL text column; `none` when the
store rejects it. -/
def sqlText : Js → Option String
  | .str s => some s
  | .num n => some (toString n)
  | .bool b => some (if b then "1" else "0")
  | _ => none

/-- The text a bound value stores in a nullable text column (`null` is SQL
NULL); `none` when the store rejects it. -/
def sqlTextN : Js → Option (Option String)
  | .null => some none
  | v => (sqlText v).map some

/-- The value a bound value stores in a BOOLEAN (TINYINT) column; `none` when
the store rejects it. -/
def sqlBool : Js → Option Bool
  | .bool b => some b
  | .num n => if -128 ≤ n ∧ n ≤ 127 then some (n != 0) else none
  | .str s => if s = "1" then some true else if s = "0" then some false else none
  | _ => none

/-- The value a bound value stores in a nullable INT reference column. -/
def sqlIdN : Js → Option (Option Nat)
  | .null => some none
  | v => (sqlId v).map some

def errDuplicate (key : String) : DbError :=
  ⟨"ER_DUP_ENTRY", "Duplicate entry for key " ++ key⟩

def errBadValue (column : String) : DbError :=
  ⟨"ER_TRUNCATED_WRONG_VALUE", "Incorrect value for column " ++ column⟩

def errBadField (column : String) : DbError :=
  ⟨"ER_BAD_FIELD_ERROR", "Unknown column " ++ column ++ " in field list"⟩

def errNoReferenced : DbError :=
  ⟨"ER_NO_REFERENCED_ROW_2", "Cannot add or update a child row: a foreign key constraint fails"⟩

def errBadStatement : DbError :=
  ⟨"ER_WRONG_ARGUMENTS", "Incorrect arguments to mysqld_stmt_execute"⟩

/-- One assignment `<column> = ?` of an UPDATE on `users`. -/
def setUserCol (clause : String) (v : Js) (u : User) : Option User :=
  if clause = "name = ?" then (sqlText v).map (fun s => { u with name := s })
  else if clause = "email = ?" then (sqlText v).map (fun s => { u with email := s })
  else if clause = "role = ?" then
    (sqlText v).bind (fun s => if usersRoleEnum.contains s then some { u with role := s } else none)
  else if clause = "is_active = ?" then (sqlBool v).map (fun b => { u with is_active := b })
  else none

/-- One assignment `<column> = ?` of an UPDATE on `patients`. -/
def setPatientCol (clause : String) (v : Js) (p : Patient) : Option Patient :=
  if clause = "identification = ?" then (sqlText v).map (fun s => { p with identification := s })
  else if clause = "first_name = ?" then (sqlText v).map (fun s => { p with first_name := s })
  else if clause = "last_name = ?" then (sqlText v).map (fun s => { p with last_name := s })
  else if clause = "date_of_birth = ?" then (sqlText v).map (fun s => { p with date_of_birth := s })
  else if clause = "gender = ?" then
    (sqlText v).bind
      (fun s => if patientsGenderEnum.contains s then some { p with gender := s } else none)
  else if clause = "phone = ?" then (sqlTextN v).map (fun s => { p with phone := s })
  else if clause = "email = ?" then (sqlTextN v).map (fun s => { p with email := s })
  else if clause = "address = ?" then (sqlTextN v).map (fun s => { p with address := s })
  else if clause = "emergency_contact = ?" then
    (sqlTextN v).map (fun s => { p with emergency_contact := s })
  else if clause = "emergency_phone = ?" then
    (sqlTextN v).map (fun s => { p with emergency_phone := s })
  else if clause = "blood_type = ?" then (sqlTextN v).map (fun s => { p with blood_type := s })
  else if clause = "allergies = ?" then (sqlTextN v).map (fun s => { p with allergies := s })
  else none

/-- One assignment `<column> = ?` of an UPDATE on `clinical_histories`. -/
def setHistoryCol (clause : String) (v : Js) (h : History) : Option History :=
  if clause = "reason_for_visit = ?" then
    (sqlText v).map (fun s => { h with reason_for_visit := s })
  else if clause = "symptoms = ?" then (sqlTextN v).map (fun s => { h with symptoms := s })
  else if clause = "diagnosis = ?" then (sqlTextN v).map (fun s => { h with diagnosis := s })
  else if clause = "treatment = ?" then (sqlTextN v).map (fun s => { h with treatment := s })
  else if clause = "prescriptions = ?" then
    (sqlTextN v).map (fun s => { h with prescriptions := s })
  else if clause = "observations = ?" then
    (sqlTextN v).map (fun s => { h with observations := s })
  else if clause = "vital_signs = ?" then (sqlTextN v).map (fun s => { h with vital_signs := s })
  else if clause = "next_appointment = ?" then
    (sqlTextN v).map (fun s => { h with next_appointment := s })
  else none

/-- All assignments of a SET clause applied to one row, left to right. -/
def setCols {α : Type} (setCol : String → Js → α → Option α) :
    List (String × Js) → α → Option α
  | [], row => some row
  | (clause, v) :: rest, row => (setCol clause v row).bind (setCols setCol rest)

/-- The rows of a table after `UPDATE ... SET <assigns> WHERE id = <id>`;
`none` when an assignment is rejected on a matching row. -/
def updateRows {α : Type} (idOf : α → Nat) (setCol : String → Js → α → Option α)
    (assigns : List (String × Js)) (id : Option Nat) : List α → Option (List α)
  | [] => some []
  | row :: rest =>
    if some (idOf row) = id then
      (setCols setCol assigns row).bind
        (fun row1 => (updateRows idOf setCol assigns id rest).map (fun rest1 => row1 :: rest1))
    else (updateRows idOf setCol assigns id rest).map (fun rest1 => row :: rest1)

/-- The parameter array of a dynamic UPDATE split into the values of the SET
clause and the trailing row identifier. -/
def splitValues (values : List Js) : Option (List Js × Js) :=
  match values.reverse with
  | [] => none
  | id :: rest => some (rest.reverse, id)

/-- No two rows of the list carry the same key. -/
def distinctKeys {α : Type} (key : α → String) : List α → Bool
  | [] => true
  | row :: rest => !(rest.any (fun r => key r == key row)) && distinctKeys key rest

/-- The row an INSERT on `users` stores at time `now`, `none` when a value is
rejected. -/
def newUser (id now : Nat) (name email password role : Js) : Option User :=
  (sqlText name).bind fun n =>
  (sqlText email).bind fun e =>
  (sqlText password).bind fun p =>
  (sqlText role).bind fun r =>
  some ⟨id, n, e, p, r, true, now⟩

/-- The clause `ON UPDATE CURRENT_TIMESTAMP` of `users.updated_at`: a row that
an UPDATE changed carries the time of the clock, a row whose columns all kept
their values keeps its own. -/
def stamp (clock : Nat) (old new : User) : User :=
  if new = old then old else { new with updated_at := clock }

/-- The row an INSERT on `patients` stores, `none` when the number of values
is wrong or a value is rejected. -/
def newPatient (id : Nat) : List Js → Option Patient
  | [ident, dt, fn, ln, dob, g, ph, em, ad, ec, ep, bt, al, cb] =>
    (sqlText ident).bind fun ident =>
    (sqlText dt).bind fun dt =>
    (sqlText fn).bind fun fn =>
    (sqlText ln).bind fun ln =>
    (sqlText dob).bind fun dob =>
    (sqlText g).bind fun g =>
    (sqlTextN ph).bind fun ph =>
    (sqlTextN em).bind fun em =>
    (sqlTextN ad).bind fun ad =>
    (sqlTextN ec).bind fun ec =>
    (sqlTextN ep).bind fun ep =>
    (sqlTextN bt).bind fun bt =>
    (sqlTextN al).bind fun al =>
    (sqlIdN cb).bind fun cb =>
    some ⟨id, ident, dt, fn, ln, dob, g, ph, em, ad, ec, ep, bt, al, cb⟩
  | _ => none

/-- The row an INSERT on `clinical_histories` stores, `none` when the number
of values is wrong or a value is rejected. -/
def newHistory (id : Nat) : List Js → Option History
  | [pid, did, reason, sy, dx, tr, pr, ob, vs, na] =>
    (sqlId pid).bind fun pid =>
    (sqlId did).bind fun did =>
    (sqlText reason).bind fun reason =>
    (sqlTextN sy).bind fun sy =>
    (sqlTextN dx).bind fun dx =>
    (sqlTextN tr).bind fun tr =>
    (sqlTextN pr).bind fun pr =>
    (sqlTextN ob).bind fun ob =>
    (sqlTextN vs).bind fun vs =>
    (sqlTextN na).bind fun na =>
    some ⟨id, pid, did, reason, sy, dx, tr, pr, ob, vs, na⟩
  | _ => none

/-- The row `UPDATE users SET is_active = FALSE WHERE id = ?` leaves in place
of a row at the time of the clock: the active flag cleared, and `updated_at`
rewritten if that changed the row, where the id matches; the row itself
otherwise. -/
def deactivate (clock : Nat) (id : Option Nat) (u : User) : User :=
  if some u.id = id then stamp clock u { u with is_active := false } else u

/-- The rows of the join `clinical_histories JOIN patients JOIN users` for a
history id: each history with that id that has its patient and its author,
with them. -/
def joinHistory (db : Db) (id : Option Nat) : List (History × Patient × User) :=
  (db.histories.filter (fun h => some h.id == id)).filterMap (fun h =>
    (db.patients.find? (fun p => p.id == h.patient_id)).bind (fun p =>
      (db.users.find? (fun u => u.id == h.doctor_id)).map (fun u => (h, p, u))))

/-- The effect of one statement on the tables, constraints of
`createTables` included: PRIMARY KEY AUTO_INCREMENT, UNIQUE (`users.email`,
`patients.identification`), the two ENUMs, the foreign keys
`patients.created_by`, `clinical_histories.patient_id` and
`clinical_histories.doctor_id`, ON DELETE CASCADE from patients to their
histories, and ON UPDATE CURRENT_TIMESTAMP of `users.updated_at`. -/
def Stmt.run (q : Stmt) (db : Db) : Except DbError (Result × Db) :=
  match q with
  | .selectRoleById id =>
    .ok (Result.ofUsers (db.users.filter (fun u => some u.id == sqlId id)), db)
  | .selectActiveByEmail email =>
    .ok (Result.ofUsers
      (db.users.filter (fun u => some u.email == sqlText email && u.is_active)), db)
  | .selectInactiveByEmail email =>
    .ok (Result.ofUsers
      (db.users.filter (fun u => some u.email == sqlText email && !u.is_active)), db)
  | .selectUserIdByEmail email =>
    .ok (Result.ofUsers (db.users.filter (fun u => some u.email == sqlText email)), db)
  | .insertUser name email password role =>
    match newUser db.nextUserId db.clock name email password role with
    | none => .error (errBadValue "users")
    | some row =>
      if db.users.any (fun u => u.email == row.email) then .error (errDuplicate "users.email")
      else if !(usersRoleEnum.contains row.role) then .error (errBadValue "role")
      else .ok (Result.header db.nextUserId 1,
        { db with users := db.users ++ [row], nextUserId := db.nextUserId + 1 })
  | .updateUsers updates values =>
    match splitValues values with
    | none => .error errBadStatement
    | some (vals, id) =>
      if updates.length ≠ vals.length then .error errBadStatement
      else
        match updateRows User.id setUserCol (updates.zip vals) (sqlId id) db.users with
        | none => .error (errBadValue "users")
        | some rows =>
          if distinctKeys User.email db.users && !(distinctKeys User.email rows) then
            .error (errDuplicate "users.email")
          else
            .ok (Result.header 0 (db.users.filter (fun u => some u.id == sqlId id)).length,
              { db with users := List.zipWith (stamp db.clock) db.users rows })
  | .selectPatientIdByIdentification identification =>
    .ok (Result.ofPatients
      (db.patients.filter (fun p => some p.identification == sqlText identification)), db)
  | .insertPatient patientData =>
    if !db.hasDocumentType then .error (errBadField "document_type")
    else
      match newPatient db.nextPatientId patientData with
      | none => .error (errBadValue "patients")
      | some row =>
        if db.patients.any (fun p => p.identification == row.identification) then
          .error (errDuplicate "patients.identification")
        else if !(patientsGenderEnum.contains row.gender) then .error (errBadValue "gender")
        else if !(match row.created_by with
            | none => true
            | some uid => db.users.any (fun u => u.id == uid)) then .error errNoReferenced
        else .ok (Result.header db.nextPatientId 1,
          { db with patients := db.patients ++ [row], nextPatientId := db.nextPatientId + 1 })
  | .updatePatients updates values =>
    match splitValues values with
    | none => .error errBadStatement
    | some (vals, id) =>
      if updates.length ≠ vals.length then .error errBadStatement
      else
        match updateRows Patient.id setPatientCol (updates.zip vals) (sqlId id) db.patients with
        | none => .error (errBadValue "patients")
        | some rows =>
          if distinctKeys Patient.identification db.patients &&
              !(distinctKeys Patient.identification rows) then
            .error (errDuplicate "patients.identification")
          else
            .ok (Result.header 0 (db.patients.filter (fun p => some p.id == sqlId id)).length,
              { db with patients := rows })
  | .deletePatient id =>
    .ok (Result.header 0 (db.patients.filter (fun p => some p.id == sqlId id)).length,
      { db with
        patients := db.patients.filter (fun p => !(some p.id == sqlId id))
        histories := db.histories.filter (fun h => !(some h.patient_id == sqlId id)) })
  | .updateHistories updates values =>
    match splitValues values with
    | none => .error errBadStatement
    | some (vals, id) =>
      if updates.length ≠ vals.length then .error errBadStatement
      else
        match updateRows History.id setHistoryCol (updates.zip vals) (sqlId id) db.histories with
        | none => .error (errBadValue "clinical_histories")
        | some rows =>
          .ok (Result.header 0 (db.histories.filter (fun h => some h.id == sqlId id)).length,
            { db with histories := rows })
  | .deleteHistory id =>
    .ok (Result.header 0 (db.histories.filter (fun h => some h.id == sqlId id)).length,
      { db with histories := db.histories.filter (fun h => !(some h.id == sqlId id)) })
  | .deactivateUser id =>
    .ok (Result.header 0 (db.users.filter (fun u => some u.id == sqlId id)).length,
      { db with users := db.users.map (deactivate db.clock (sqlId id)) })
  | .selectUserById id =>
    .ok (Result.ofUsers (db.users.filter (fun u => some u.id == sqlId id)), db)
  | .selectPatientById id =>
    .ok (Result.ofPatients (db.patients.filter (fun p => some p.id == sqlId id)), db)
  | .insertHistory values =>
    match newHistory db.nextHistoryId values with
    | none => .error (errBadValue "clinical_histories")
    | some row =>
      if !(db.patients.any (fun p => p.id == row.patient_id)) then .error errNoReferenced
      else if !(db.users.any (fun u => u.id == row.doctor_id)) then .error errNoReferenced
      else .ok (Result.header db.nextHistoryId 1,
        { db with histories := db.histories ++ [row], nextHistoryId := db.nextHistoryId + 1 })
  | .selectHistoryById id =>
    .ok (⟨(joinHistory db (sqlId id)).map (fun r => r.2.2),
      (joinHistory db (sqlId id)).map (fun r => r.2.1),
      (joinHistory db (sqlId id)).map (fun r => r.1), 0, 0⟩, db)

/-- The statements of other sessions, executed in order; one that the store
rejects leaves the tables as they are. -/
def interfere : List Stmt → Db → Db
  | [], db => db
  | q :: rest, db =>
    match q.run db with
    | .ok (_, db1) => interfere rest db1
    | .error _ => interfere rest db

/-- The slot of the coming `db.execute` call; a quiet one when nothing is
scheduled. -/
def Db.slot (db : Db) : Slot := db.sched.head?.getD ⟨[], none⟩

/-- The store as the coming statement finds it: the statements other sessions
had scheduled before it have run, the slot is used up. -/
def Db.arrive (db : Db) : Db :=
  { interfere db.slot.before db with sched := db.sched.tail }

/-- The store once the statement has reached it: other sessions have had
their turn and the statement is in the log. -/
def Db.sent (db : Db) (q : Stmt) : Db :=
  { db.arrive with log := db.log ++ [q] }

/-- The store with one more statement in its log and nothing else changed:
what `Db.sent` amounts to when no other session is scheduled. -/
def Db.logged (db : Db) (q : Stmt) : Db :=
  { db with log := db.log ++ [q] }

/-- The call `await db.execute(sql, params)`: mysql2 refuses a parameter array
holding `undefined` before anything is sent; otherwise the statement reaches
the store (and is logged), fails with the scheduled fault or is run. The
result is the resolved value or the thrown error, and the store afterwards. -/
def execute (q : Stmt) (db : Db) : Except DbError Result × Db :=
  if q.params.any Js.isUndefined then
    (.error ⟨"TypeError",
      "Bind parameters must not contain undefined. To pass SQL NULL specify JS null"⟩, db)
  else
    match db.slot.fault with
    | some e => (.error e, db.sent q)
    | none =>
      match q.run (db.sent q) with
      | .error e => (.error e, db.sent q)
      | .ok (r, db2) => (.ok r, db2)

/-- The statements issued between two states of the store: what the log
gained. -/
def issued (before after : Db) : List Stmt := after.log.drop before.log.length

/-- The rows of `users` with the given id, in table order: what
`SELECT role FROM users WHERE id = ?` returns. -/
def Db.rowsOf (db : Db) (userId : Nat) : List User :=
  db.users.filter (fun u => u.id == userId)

/-- The role stored for a user id: the role of the first row with that id,
`none` when there is no such row. -/
def Db.storedRole (db : Db) (userId : Nat) : Option String :=
  (db.rowsOf userId).head?.map (fun u => u.role)

/-! ## middleware/role.js -/

/-- The middleware `authorize(...roles)` of `middleware/role.js`. Reading
`req.user.userId` when `req.user` is not set throws inside the `try`, which
the `catch` turns into the 500 answer. -/
def authorize (roles : List String) (req : Req) (db : Db) : Outcome × Db :=
  match req.user with
  | none => (.respond ⟨500, errorBody "Error verificando permisos"⟩, db)
  | some userId =>
    match execute (.selectRoleById (.num userId)) db with
    | (.error _, db1) => (.respond ⟨500, errorBody "Error verificando permisos"⟩, db1)
    | (.ok res, db1) =>
      match res.users with
      | [] => (.respond ⟨404, errorBody "Usuario no encontrado"⟩, db1)
      | user :: _ =>
        if !(roles.contains user.role) then
          (.respond ⟨403, errorBody "No tienes permisos para esta acción"⟩, db1)
        else (.next, db1)

/-- A guarded route: the middleware `authorize(...roles)` runs first and the
rest of the chain only after its `next()`. -/
def guarded (roles : List String) (handler : Req → Db → Response × Db)
    (req : Req) (db : Db) : Response × Db :=
  match authorize roles req db with
  | (.respond r, db1) => (r, db1)
  | (.next, db1) => handler req db1

/-! ## The libraries the handlers call -/

/-- The payload `jwt.verify` returns for a token made by `generateToken`. -/
structure Claims where
  userId : Nat
  iat : Nat
  exp : Nat

/-- The functions of `express-validator` (validator.js), `bcryptjs` and
`jsonwebtoken` the handlers rely on, and `JSON.stringify`. `scientific n` is
the significand and the exponent with which `String(n)` writes a number of
magnitude 10^21 or more, as in `1.5e+21`. `jwtSign userId secret expiresIn
now` is `jwt.sign({ userId }, secret, { expiresIn })` evaluated at clock time
`now` (seconds); `jwtVerify token secret now` is `jwt.verify(token, secret)`.
For both an error stands for the exception, its text for `error.message`:
`jsonwebtoken` refuses to sign with an empty secret. -/
structure Lib where
  isEmail : String → Bool
  normalizeEmail : String → String
  isDate : String → Bool
  trim : String → String
  objToString : Js → String
  scientific : Int → String × String
  jsonStringify : Js → String
  bcryptHash : String → String
  bcryptCompare : String → String → Bool
  jwtSign : Nat → String → Nat → Nat → Except String String
  jwtVerify : String → String → Nat → Except String Claims

/-- What `jsonwebtoken` promises for a secret that is not empty: signing
succeeds, and the token verifies under the secret it was signed with, as long
as the clock has not reached its expiry, to the payload that was signed.
Nothing is promised for the empty secret. -/
def Lib.JwtSound (lib : Lib) : Prop :=
  ∀ userId secret expiresIn now, secret ≠ "" →
    ∃ token, lib.jwtSign userId secret expiresIn now = .ok token ∧
      ∀ later, later < now + expiresIn →
        lib.jwtVerify token secret later = .ok ⟨userId, now, now + expiresIn⟩

/-- The string a validator or sanitizer of express-validator works on. -/
def Lib.toStr (lib : Lib) : Js → String
  | .undefined => ""
  | .null => ""
  | .bool b => if b then "true" else "false"
  | .num n =>
    if n.natAbs < 10 ^ 21 then toString n
    else (lib.scientific n).1 ++ "e+" ++ (lib.scientific n).2
  | .str s => s
  | v => lib.objToString v

/-- The values a standard validator is run on: the elements of an array, the
value itself otherwise. -/
def fieldItems : Js → List Js
  | .arr xs => xs
  | v => [v]

/-- A standard validator on a field value. -/
def Lib.passes (lib : Lib) (p : String → Bool) (v : Js) : Bool :=
  (fieldItems v).all (fun x => p (lib.toStr x))

/-- A standard validator behind `.optional()`: skipped for `undefined`. -/
def Lib.passesOptional (lib : Lib) (p : String → Bool) (v : Js) : Bool :=
  v.isUndefined || lib.passes p v

/-- A standard sanitizer on a field value. -/
def Lib.sanitize (lib : Lib) (f : String → String) (v : Js) : Js :=
  match v with
  | .arr xs => .arr (xs.map (fun x => .str (f (lib.toStr x))))
  | v => .str (f (lib.toStr v))

/-- A sanitizer behind `.optional()`: skipped for `undefined`. -/
def Lib.sanitizeOptional (lib : Lib) (f : String → String) (v : Js) : Js :=
  if v.isUndefined then v else lib.sanitize f v

/-- Validator `notEmpty()`. -/
def notEmpty (s : String) : Bool := s != ""

/-- Validator `isIn(options)`. -/
def isIn (options : List String) (s : String) : Bool := options.contains s

/-- Whether the character is one of the variation selectors U+FE0E and
U+FE0F, which `isLength` leaves out of the count. -/
def isVariationSelector (c : Char) : Bool := c.toNat == 0xFE0E || c.toNat == 0xFE0F

/-- Validator `isLength({ min: 6 })`: the length is the number of code points
of the string that are not variation selectors. -/
def isLength6 (s : String) : Bool :=
  decide (6 ≤ (s.data.filter (fun c => !isVariationSelector c)).length)

/-- Validator `isBoolean()`. -/
def isBoolean (s : String) : Bool := ["true", "false", "1", "0"].contains s

/-- One entry of `errors.array()`. -/
def fieldError (path : String) (value : Js) : Js :=
  .obj [("type", .str "field"), ("value", value), ("msg", .str "Invalid value"),
    ("path", .str path), ("location", .str "body")]

/-- The array `errors.array()` for the recorded errors, in chain order. -/
def errorsArray (errs : List (String × Js)) : Js :=
  .arr (errs.map (fun e => fieldError e.1 e.2))

/-- The errors a standard validator records for a field: one for each of the
values it is run on that fails, with that value. -/
def Lib.failing (lib : Lib) (p : String → Bool) (path : String) (v : Js) :
    List (String × Js) :=
  ((fieldItems v).filter (fun x => !p (lib.toStr x))).map (fun x => (path, x))

/-- The errors a standard validator behind `.optional()` records: none for
`undefined`. -/
def Lib.failingOptional (lib : Lib) (p : String → Bool) (path : String) (v : Js) :
    List (String × Js) :=
  if v.isUndefined then [] else lib.failing p path v

/-! ## utils/generateToken.js -/

/-- The environment variables the code reads. -/
structure Env where
  JWT_SECRET : Option String
  NODE_ENV : Option String

/-- The expression `process.env.JWT_SECRET || 'ips_fulano_secret_key_2024'`. -/
def jwtSecret (env : Env) : String :=
  match env.JWT_SECRET with
  | some s => if s = "" then "ips_fulano_secret_key_2024" else s
  | none => "ips_fulano_secret_key_2024"

/-- The option `expiresIn: '30d'`, in seconds. -/
def thirtyDays : Nat := 30 * 24 * 60 * 60

/-- `generateToken(userId)`, evaluated at clock time `now`: the token, or the
error `jwt.sign` throws. -/
def generateToken (lib : Lib) (env : Env) (now : Nat) (userId : Nat) : Except String String :=
  lib.jwtSign userId (jwtSecret env) thirtyDays now

/-- `verifyToken(token)`, evaluated at clock time `now`. -/
def verifyToken (lib : Lib) (env : Env) (now : Nat) (token : String) : Except String Claims :=
  lib.jwtVerify token (jwtSecret env) now

/-! ## routes/auth.js -/

/-- The 401 answer for a deactivated account. -/
def deactivated : Response := ⟨401, errorBody "Usuario desactivado"⟩

/-- The generic 401 answer of login. -/
def invalidCredentials : Response := ⟨401, errorBody "Credenciales inválidas"⟩

/-- The 200 answer of a successful login. -/
def loginOk (token : String) (user : User) : Response :=
  ⟨200, .obj [("message", .str "Login exitoso"), ("token", .str token),
    ("user", .obj [("id", .num user.id), ("name", .str user.name),
      ("email", .str user.email), ("role", .str user.role)])]⟩

/-- The errors of the validation chains of `POST /api/auth/login`. -/
def loginErrors (lib : Lib) (body : Body) : List (String × Js) :=
  lib.failing lib.isEmail "email" (body "email") ++
  lib.failing notEmpty "password" (body "password")

/-- The end of the login handler, once the active user is found: compare the
password, then sign the token. `bcrypt.compare` rejects a password that is not
a string with `Illegal arguments: <typeof password>, string`, which lands in
the `catch`, as does an error thrown by `generateToken`. -/
def passwordAnswer (lib : Lib) (env : Env) (now : Nat) (password : Js) (user : User) :
    Response :=
  match password with
  | .str pw =>
    if !(lib.bcryptCompare pw user.password) then invalidCredentials
    else
      match generateToken lib env now user.id with
      | .ok token => loginOk token user
      | .error msg => ⟨500, errorDetails "Error interno del servidor" msg⟩
  | other =>
    ⟨500, errorDetails "Error interno del servidor"
      ("Illegal arguments: " ++ other.typeOf ++ ", string")⟩

/-- The handler of `POST /api/auth/login`, evaluated at clock time `now`. -/
def login (lib : Lib) (env : Env) (now : Nat) (req : Req) (db : Db) : Response × Db :=
  let errs := loginErrors lib req.body
  let email := lib.sanitize lib.normalizeEmail (req.body "email")
  let password := req.body "password"
  if !errs.isEmpty then
    (⟨400, .obj [("error", .str "Datos inválidos"), ("details", errorsArray errs)]⟩, db)
  else if !email.truthy || !password.truthy then
    (⟨400, errorBody "Email y password son requeridos"⟩, db)
  else
    match execute (.selectActiveByEmail email) db with
    | (.error e, db1) => (⟨500, errorDetails "Error interno del servidor" e.message⟩, db1)
    | (.ok res, db1) =>
      match res.users with
      | [] =>
        match execute (.selectInactiveByEmail email) db1 with
        | (.error e, db2) => (⟨500, errorDetails "Error interno del servidor" e.message⟩, db2)
        | (.ok inactive, db2) =>
          if inactive.users.length > 0 then (deactivated, db2)
          else (invalidCredentials, db2)
      | user :: _ => (passwordAnswer lib env now password user, db1)

/-- The user summary `GET /api/auth/verify` returns: the columns `id`, `name`,
`email`, `role` of the row. -/
def userSummary (user : User) : Js :=
  .obj [("id", .num user.id), ("name", .str user.name), ("email", .str user.email),
    ("role", .str user.role)]

/-- The handler of `GET /api/auth/verify`, evaluated at clock time `now`.
`req.bearer` is `req.header('Authorization')?.replace('Bearer ', '')`. One
`try` holds both the verification of the token and the query, and its `catch`
answers 401 whatever was thrown. -/
def verify (lib : Lib) (env : Env) (now : Nat) (req : Req) (db : Db) : Response × Db :=
  match req.bearer with
  | none => (⟨401, errorBody "Token requerido"⟩, db)
  | some token =>
    if token = "" then (⟨401, errorBody "Token requerido"⟩, db)
    else
      match verifyToken lib env now token with
      | .error _ => (⟨401, errorBody "Token inválido"⟩, db)
      | .ok decoded =>
        match execute (.selectUserById (.num decoded.userId)) db with
        | (.error _, db1) => (⟨401, errorBody "Token inválido"⟩, db1)
        | (.ok res, db1) =>
          match res.users with
          | [] => (⟨404, errorBody "Usuario no encontrado"⟩, db1)
          | user :: _ => (⟨200, .obj [("user", userSummary user)]⟩, db1)

/-! ## routes/users.js -/

/-- The 201 answer of both user-creation routes. -/
def userCreated (insertId : Nat) : Response :=
  ⟨201, .obj [("message", .str "Usuario creado exitosamente"), ("userId", .num insertId)]⟩

/-- The errors of the validation chains shared by the two user-creation
routes, which differ in the role list. -/
def userCreateErrors (lib : Lib) (roles : List String) (body : Body) : List (String × Js) :=
  lib.failing notEmpty "name" (body "name") ++
  lib.failing lib.isEmail "email" (body "email") ++
  lib.failing isLength6 "password" (body "password") ++
  lib.failing (isIn roles) "role" (body "role")

/-- The pre-check, hash and INSERT both user-creation routes perform; `fail`
builds the 500 answer of the route from the message of the caught error.
`bcrypt.hash` rejects a password that is not a string. -/
def insertNewUser (lib : Lib) (fail : String → Response) (req : Req) (db : Db) :
    Response × Db :=
  let name := lib.sanitize lib.trim (req.body "name")
  let email := lib.sanitize lib.normalizeEmail (req.body "email")
  let password := req.body "password"
  let role := req.body "role"
  match execute (.selectUserIdByEmail email) db with
  | (.error e, db1) => (fail e.message, db1)
  | (.ok existingUsers, db1) =>
    if existingUsers.users.length > 0 then
      (⟨400, errorBody "El email ya está registrado"⟩, db1)
    else
      match password with
      | .str pw =>
        match execute (.insertUser name email (.str (lib.bcryptHash pw)) role) db1 with
        | (.error e, db2) => (fail e.message, db2)
        | (.ok result, db2) => (userCreated result.insertId, db2)
      | other => (fail ("Illegal arguments: " ++ other.typeOf ++ ", number"), db1)

/-- The handler of the public `POST /api/users/create-initial`. -/
def createInitial (lib : Lib) (req : Req) (db : Db) : Response × Db :=
  let errs := userCreateErrors lib ["admin", "doctor", "nurse", "recepcionista"] req.body
  if !errs.isEmpty then
    (⟨400, .obj [("error", .str "Datos inválidos"), ("details", errorsArray errs)]⟩, db)
  else
    insertNewUser lib (fun msg => ⟨500, errorDetails "Error creando usuario" msg⟩) req db

/-- The handler of `POST /api/users` behind its validation chains. -/
def createUserHandler (lib : Lib) (req : Req) (db : Db) : Response × Db :=
  let errs := userCreateErrors lib ["admin", "doctor", "recepcionista"] req.body
  if !errs.isEmpty then (⟨400, .obj [("errors", errorsArray errs)]⟩, db)
  else insertNewUser lib (fun _ => ⟨500, errorBody "Error creando usuario"⟩) req db

/-- The route `POST /api/users`. -/
def createUser (lib : Lib) : Req → Db → Response × Db :=
  guarded ["admin"] (createUserHandler lib)

/-- The errors of the validation chains of `PUT /api/users/:id`. -/
def userUpdateErrors (lib : Lib) (body : Body) : List (String × Js) :=
  lib.failingOptional notEmpty "name" (body "name") ++
  lib.failingOptional lib.isEmail "email" (body "email") ++
  lib.failingOptional (isIn ["admin", "doctor", "recepcionista"]) "role" (body "role") ++
  lib.failingOptional isBoolean "is_active" (body "is_active")

/-- One step of the dynamic query construction: `if (cond) { updates.push(clause);
values.push(v) }`. -/
def pushIf (cond : Bool) (clause : String) (v : Js) (acc : List String × List Js) :
    List String × List Js :=
  if cond then (acc.1 ++ [clause], acc.2 ++ [v]) else acc

/-- The `updates` and `values` arrays `PUT /api/users/:id` builds from the
sanitized body. -/
def userUpdateSet (name email role is_active : Js) : List String × List Js :=
  pushIf (!is_active.isUndefined) "is_active = ?" is_active
    (pushIf role.truthy "role = ?" role
      (pushIf email.truthy "email = ?" email
        (pushIf name.truthy "name = ?" name ([], []))))

/-- The handler of `PUT /api/users/:id` behind its validation chains. -/
def updateUserHandler (lib : Lib) (req : Req) (db : Db) : Response × Db :=
  let errs := userUpdateErrors lib req.body
  if !errs.isEmpty then (⟨400, .obj [("errors", errorsArray errs)]⟩, db)
  else
    let userId := req.paramId
    let name := lib.sanitizeOptional lib.trim (req.body "name")
    let email := lib.sanitizeOptional lib.normalizeEmail (req.body "email")
    let set := userUpdateSet name email (req.body "role") (req.body "is_active")
    if set.1.length = 0 then (⟨400, errorBody "No hay campos para actualizar"⟩, db)
    else
      match execute (.updateUsers set.1 (set.2 ++ [.str userId])) db with
      | (.error _, db1) => (⟨500, errorBody "Error actualizando usuario"⟩, db1)
      | (.ok _, db1) => (⟨200, messageBody "Usuario actualizado exitosamente"⟩, db1)

/-- The route `PUT /api/users/:id`. -/
def updateUser (lib : Lib) : Req → Db → Response × Db :=
  guarded ["admin"] (updateUserHandler lib)

/-- The handler of `DELETE /api/users/:id`, the soft delete. -/
def deleteUserHandler (req : Req) (db : Db) : Response × Db :=
  match execute (.deactivateUser (.str req.paramId)) db with
  | (.error _, db1) => (⟨500, errorBody "Error eliminando usuario"⟩, db1)
  | (.ok _, db1) => (⟨200, messageBody "Usuario desactivado exitosamente"⟩, db1)

/-- The route `DELETE /api/users/:id`. -/
def deleteUser : Req → Db → Response × Db :=
  guarded ["admin"] deleteUserHandler

/-- The role list of the validation chain of `POST /api/users/create-initial`. -/
def initialRoles : List String := ["admin", "doctor", "nurse", "recepcionista"]

/-- The role list of the validation chains of `POST /api/users` and
`PUT /api/users/:id`. -/
def adminRoles : List String := ["admin", "doctor", "recepcionista"]

/-! ## routes/patients.js -/

/-- The errors of the validation chains of `POST /api/patients`. -/
def patientCreateErrors (lib : Lib) (body : Body) : List (String × Js) :=
  lib.failing notEmpty "identification" (body "identification") ++
  lib.failing (isIn ["CC", "CE", "TI", "PASAPORTE", "OTRO"]) "document_type"
    (body "document_type") ++
  lib.failing notEmpty "first_name" (body "first_name") ++
  lib.failing notEmpty "last_name" (body "last_name") ++
  lib.failing lib.isDate "date_of_birth" (body "date_of_birth") ++
  lib.failing (isIn ["M", "F", "Otro"]) "gender" (body "gender")

/-- The array `patientData` of `POST /api/patients`; `creator` is
`req.user.userId`. -/
def patientData (body : Body) (creator : Js) : List Js :=
  [ body "identification",
    (if (body "document_type").isUndefined then .str "CC" else body "document_type"),
    body "first_name",
    body "last_name",
    body "date_of_birth",
    body "gender",
    (body "phone").orNull,
    (body "email").orNull,
    (body "address").orNull,
    (body "emergency_contact").orNull,
    (body "emergency_phone").orNull,
    (body "blood_type").orNull,
    (body "allergies").orNull,
    creator ]

/-- The 400 answer for an identification that is already registered. -/
def identificationTaken : Response := ⟨400, errorBody "La identificación ya está registrada"⟩

/-- The 201 answer of `POST /api/patients`. -/
def patientCreated (insertId : Nat) : Response :=
  ⟨201, .obj [("message", .str "Paciente creado exitosamente"), ("patientId", .num insertId)]⟩

/-- The handler of `POST /api/patients` behind its validation chains. -/
def createPatientHandler (lib : Lib) (req : Req) (db : Db) : Response × Db :=
  let errs := patientCreateErrors lib req.body
  if !errs.isEmpty then (⟨400, .obj [("errors", errorsArray errs)]⟩, db)
  else
    match execute (.selectPatientIdByIdentification (req.body "identification")) db with
    | (.error e, db1) => (⟨500, errorDetails "Error creando paciente" e.message⟩, db1)
    | (.ok existingPatients, db1) =>
      if existingPatients.patients.length > 0 then (identificationTaken, db1)
      else
        match req.user with
        | none =>
          (⟨500, errorDetails "Error creando paciente"
            "Cannot read properties of undefined (reading userId)"⟩, db1)
        | some userId =>
          match execute (.insertPatient (patientData req.body (.num userId))) db1 with
          | (.error e, db2) => (⟨500, errorDetails "Error creando paciente" e.message⟩, db2)
          | (.ok result, db2) => (patientCreated result.insertId, db2)

/-- The roles `routes/patients.js` lets read, create and update. -/
def staffRoles : List String := ["admin", "doctor", "recepcionista"]

/-- The route `POST /api/patients`. -/
def createPatient (lib : Lib) : Req → Db → Response × Db :=
  guarded staffRoles (createPatientHandler lib)

/-- The errors of the validation chains of `PUT /api/patients/:id`. -/
def patientUpdateErrors (lib : Lib) (body : Body) : List (String × Js) :=
  lib.failingOptional notEmpty "first_name" (body "first_name") ++
  lib.failingOptional notEmpty "last_name" (body "last_name") ++
  lib.failingOptional lib.isDate "date_of_birth" (body "date_of_birth") ++
  lib.failingOptional (isIn ["M", "F", "Otro"]) "gender" (body "gender")

/-- The constant `allowedFields` of `PUT /api/patients/:id`. -/
def patientAllowedFields : List String :=
  ["identification", "first_name", "last_name", "date_of_birth", "gender",
   "phone", "email", "address", "emergency_contact", "emergency_phone",
   "blood_type", "allergies"]

/-- The loop `allowedFields.forEach(field => ...)` of the two dynamic updates:
for each field the body defines, the clause goes to `updates` and `value field`
to `values`. -/
def collectFields (body : Body) (value : String → Js) :
    List String → List String × List Js → List String × List Js
  | [], acc => acc
  | field :: rest, acc =>
    collectFields body value rest
      (pushIf (!(body field).isUndefined) (field ++ " = ?") (value field) acc)

/-- The handler of `PUT /api/patients/:id` behind its validation chains. -/
def updatePatientHandler (lib : Lib) (req : Req) (db : Db) : Response × Db :=
  let errs := patientUpdateErrors lib req.body
  if !errs.isEmpty then (⟨400, .obj [("errors", errorsArray errs)]⟩, db)
  else
    let patientId := req.paramId
    let set := collectFields req.body req.body patientAllowedFields ([], [])
    if set.1.length = 0 then (⟨400, errorBody "No hay campos para actualizar"⟩, db)
    else
      match execute (.updatePatients set.1 (set.2 ++ [.str patientId])) db with
      | (.error _, db1) => (⟨500, errorBody "Error actualizando paciente"⟩, db1)
      | (.ok result, db1) =>
        if result.affectedRows = 0 then (⟨404, errorBody "Paciente no encontrado"⟩, db1)
        else (⟨200, messageBody "Paciente actualizado exitosamente"⟩, db1)

/-- The route `PUT /api/patients/:id`. -/
def updatePatient (lib : Lib) : Req → Db → Response × Db :=
  guarded staffRoles (updatePatientHandler lib)

/-- The handler of `DELETE /api/patients/:id`. -/
def deletePatientHandler (req : Req) (db : Db) : Response × Db :=
  match execute (.deletePatient (.str req.paramId)) db with
  | (.error _, db1) => (⟨500, errorBody "Error eliminando paciente"⟩, db1)
  | (.ok result, db1) =>
    if result.affectedRows = 0 then (⟨404, errorBody "Paciente no encontrado"⟩, db1)
    else (⟨200, messageBody "Paciente eliminado exitosamente"⟩, db1)

/-- The route `DELETE /api/patients/:id`. -/
def deletePatient : Req → Db → Response × Db :=
  guarded ["admin"] deletePatientHandler

/-! ## routes/clinicalHistory.js -/

/-- The constant `allowedFields` of `PUT /api/clinical-history/:id`. -/
def historyAllowedFields : List String :=
  ["reason_for_visit", "symptoms", "diagnosis", "treatment",
   "prescriptions", "observations", "vital_signs", "next_appointment"]

/-- The value `PUT /api/clinical-history/:id` binds for a field:
`JSON.stringify(req.body[field])` for `vital_signs`, `req.body[field]`
otherwise. -/
def historyValue (lib : Lib) (body : Body) (field : String) : Js :=
  if field = "vital_signs" then .str (lib.jsonStringify (body field)) else body field

/-- The errors of the validation chain of `PUT /api/clinical-history/:id`. -/
def historyUpdateErrors (lib : Lib) (body : Body) : List (String × Js) :=
  lib.failingOptional notEmpty "reason_for_visit" (body "reason_for_visit")

/-- The route `PUT /api/clinical-history/:id`, which carries no `authorize`. -/
def updateHistory (lib : Lib) (req : Req) (db : Db) : Response × Db :=
  let errs := historyUpdateErrors lib req.body
  if !errs.isEmpty then (⟨400, .obj [("errors", errorsArray errs)]⟩, db)
  else
    let historyId := req.paramId
    let set := collectFields req.body (historyValue lib req.body) historyAllowedFields ([], [])
    if set.1.length = 0 then (⟨400, errorBody "No hay campos para actualizar"⟩, db)
    else
      match execute (.updateHistories set.1 (set.2 ++ [.str historyId])) db with
      | (.error _, db1) => (⟨500, errorBody "Error actualizando historia clínica"⟩, db1)
      | (.ok result, db1) =>
        if result.affectedRows = 0 then
          (⟨404, errorBody "Historia clínica no encontrada"⟩, db1)
        else (⟨200, messageBody "Historia clínica actualizada exitosamente"⟩, db1)

/-- The handler of `DELETE /api/clinical-history/:id`. -/
def deleteHistoryHandler (req : Req) (db : Db) : Response × Db :=
  match execute (.deleteHistory (.str req.paramId)) db with
  | (.error _, db1) => (⟨500, errorBody "Error eliminando historia clínica"⟩, db1)
  | (.ok result, db1) =>
    if result.affectedRows = 0 then (⟨404, errorBody "Historia clínica no encontrada"⟩, db1)
    else (⟨200, messageBody "Historia clínica eliminada exitosamente"⟩, db1)

/-- The route `DELETE /api/clinical-history/:id`. -/
def deleteHistory : Req → Db → Response × Db :=
  guarded ["admin"] deleteHistoryHandler

/-- Validator `isInt()` with its default options: an optional sign, then one
or more digits, leading zeroes allowed. -/
def isInt (s : String) : Bool :=
  let digits :=
    match s.data with
    | '-' :: ds => ds
    | '+' :: ds => ds
    | ds => ds
  !digits.isEmpty && digits.all Char.isDigit

/-- The errors of the validation chains of `POST /api/clinical-history`; the
chains of the free-text fields and of `vital_signs` are `.optional()` alone
and record nothing. -/
def historyCreateErrors (lib : Lib) (body : Body) : List (String × Js) :=
  lib.failing isInt "patient_id" (body "patient_id") ++
  lib.failing notEmpty "reason_for_visit" (body "reason_for_visit") ++
  lib.failingOptional lib.isDate "next_appointment" (body "next_appointment")

/-- The expression `vital_signs ? JSON.stringify(vital_signs) : null` of
`POST /api/clinical-history`. -/
def vitalSignsOnCreate (lib : Lib) (vitalSigns : Js) : Js :=
  if vitalSigns.truthy then .str (lib.jsonStringify vitalSigns) else .null

/-- The parameter array of the INSERT of `POST /api/clinical-history`;
`author` is `req.user.userId`. -/
def historyData (lib : Lib) (body : Body) (author : Js) : List Js :=
  [ body "patient_id",
    author,
    body "reason_for_visit",
    body "symptoms",
    body "diagnosis",
    body "treatment",
    body "prescriptions",
    body "observations",
    vitalSignsOnCreate lib (body "vital_signs"),
    body "next_appointment" ]

/-- The 201 answer of `POST /api/clinical-history`. -/
def historyCreated (insertId : Nat) : Response :=
  ⟨201, .obj [("message", .str "Historia clínica creada exitosamente"),
    ("historyId", .num insertId)]⟩

/-- The route `POST /api/clinical-history`, which carries no `authorize`. -/
def createHistory (lib : Lib) (req : Req) (db : Db) : Response × Db :=
  let errs := historyCreateErrors lib req.body
  if !errs.isEmpty then (⟨400, .obj [("errors", errorsArray errs)]⟩, db)
  else
    match execute (.selectPatientById (req.body "patient_id")) db with
    | (.error _, db1) => (⟨500, errorBody "Error creando historia clínica"⟩, db1)
    | (.ok patients, db1) =>
      if patients.patients.length = 0 then (⟨404, errorBody "Paciente no encontrado"⟩, db1)
      else
        match req.user with
        | none => (⟨500, errorBody "Error creando historia clínica"⟩, db1)
        | some userId =>
          match execute (.insertHistory (historyData lib req.body (.num userId))) db1 with
          | (.error _, db2) => (⟨500, errorBody "Error creando historia clínica"⟩, db2)
          | (.ok result, db2) => (historyCreated result.insertId, db2)

/-- A nullable text column as the driver returns it. -/
def textOrNull : Option String → Js
  | none => .null
  | some s => .str s

/-- The row of `GET /api/clinical-history/:id` as the driver returns it (columns
of the model only): the columns of the history, those of its patient that the
SELECT names, and the author's name. The JSON column `vital_signs` comes back
decoded by `jsonParse`, SQL NULL as `null`. -/
def historyRow (jsonParse : String → Js) (h : History) (p : Patient) (u : User) : Js :=
  .obj [("id", .num h.id), ("patient_id", .num h.patient_id), ("doctor_id", .num h.doctor_id),
    ("reason_for_visit", .str h.reason_for_visit), ("symptoms", textOrNull h.symptoms),
    ("diagnosis", textOrNull h.diagnosis), ("treatment", textOrNull h.treatment),
    ("prescriptions", textOrNull h.prescriptions), ("observations", textOrNull h.observations),
    ("vital_signs", match h.vital_signs with
      | none => .null
      | some text => jsonParse text),
    ("next_appointment", textOrNull h.next_appointment),
    ("first_name", .str p.first_name), ("last_name", .str p.last_name),
    ("identification", .str p.identification), ("date_of_birth", .str p.date_of_birth),
    ("gender", .str p.gender), ("doctor_name", .str u.name)]

/-- The route `GET /api/clinical-history/:id`; `jsonParse` is the decoding the
driver applies to a JSON column. -/
def getHistory (jsonParse : String → Js) (req : Req) (db : Db) : Response × Db :=
  match execute (.selectHistoryById (.str req.paramId)) db with
  | (.error _, db1) => (⟨500, errorBody "Error obteniendo historia clínica"⟩, db1)
  | (.ok res, db1) =>
    match res.histories, res.patients, res.users with
    | h :: _, p :: _, u :: _ => (⟨200, historyRow jsonParse h p u⟩, db1)
    | _, _, _ => (⟨404, errorBody "Historia clínica no encontrada"⟩, db1)

/-! ## server.js -/

/-- The test `s.includes(t)` on the characters of two strings. -/
def includesChars : List Char → List Char → Bool
  | [], t => t.isEmpty
  | c :: cs, t => t.isPrefixOf (c :: cs) || includesChars cs t

/-- The test `s.includes(t)`. -/
def includes (s t : String) : Bool := includesChars s.data t.data

/-- The characters of `s.replace('*', '')`: the first `*` dropped. -/
def dropFirstStar : List Char → List Char
  | [] => []
  | c :: cs => if c = '*' then cs else c :: dropFirstStar cs

/-- The array `allowedOrigins` of the CORS callback, `.filter(Boolean)`
applied; `corsOrigin` is `process.env.CORS_ORIGIN`. -/
def allowedOrigins (corsOrigin : Option String) : List String :=
  ["http://localhost:4200", "http://localhost:3000", "https://*.railway.app"] ++
    (match corsOrigin with
    | some s => if s = "" then [] else [s]
    | none => [])

/-- The test of `allowedOrigins.some(...)` for one entry. -/
def originMatches (origin allowed : String) : Bool :=
  origin == allowed ||
    (includes allowed "*" && includes origin (String.mk (dropFirstStar allowed.data)))

/-- The `origin` callback of the CORS middleware: `true` for
`callback(null, true)`, `false` for `callback(new Error(...))`. `origin` is the
`Origin` header, `none` when the request has none. -/
def corsAllows (env : Env) (corsOrigin : Option String) (origin : Option String) : Bool :=
  match origin with
  | none => true
  | some o =>
    if o = "" then true
    else if env.NODE_ENV = some "production" then
      (allowedOrigins corsOrigin).any (originMatches o) ||
        includes o "ngrok-free.app" || includes o "ngrok.io"
    else true

/-- The error middleware at the end of `server.js`, for an error with the
given message. -/
def errorMiddleware (env : Env) (message : String) : Response :=
  if includes message "CORS" then
    ⟨403, .obj [("error", .str "Origen no permitido"),
      ("message", .str "Tu dominio no está autorizado para acceder a esta API")]⟩
  else
    ⟨500, .obj [("error", .str "Error interno del servidor"),
      ("message", .str (if env.NODE_ENV = some "production" then "Contacta al administrador"
        else message))]⟩

/-! ## Notions the statements below are phrased in -/

/-- The fields of an allow-list the body defines, in allow-list order. -/
def definedFields (body : Body) (allowed : List String) : List String :=
  allowed.filter (fun f => !(body f).isUndefined)

/-- The UPDATE that `PUT /api/patients/:id` hands to `db.execute`: one clause
per defined field of the allow-list, the bound values in the same order, then
the patient id. -/
def patientUpdateStmt (req : Req) : Stmt :=
  .updatePatients ((definedFields req.body patientAllowedFields).map (fun f => f ++ " = ?"))
    ((definedFields req.body patientAllowedFields).map req.body ++ [.str req.paramId])

/-- The 400 answer of the three dynamic updates for an empty field set. -/
def noFields : Response := ⟨400, errorBody "No hay campos para actualizar"⟩

/-- The pre-check of `POST /api/patients`. -/
def patientPrecheck (req : Req) : Stmt :=
  .selectPatientIdByIdentification (req.body "identification")

/-- The INSERT of `POST /api/patients` for the authenticated user. -/
def patientInsert (req : Req) (userId : Nat) : Stmt :=
  .insertPatient (patientData req.body (.num userId))

/-- The email the user-creation routes look up and store: the sanitized one. -/
def userEmail (lib : Lib) (req : Req) : Js :=
  lib.sanitize lib.normalizeEmail (req.body "email")

/-- The pre-check of the user-creation routes. -/
def userPrecheck (lib : Lib) (req : Req) : Stmt :=
  .selectUserIdByEmail (userEmail lib req)

/-- The INSERT of the user-creation routes for the submitted password `pw`. -/
def userInsert (lib : Lib) (req : Req) (pw : String) : Stmt :=
  .insertUser (lib.sanitize lib.trim (req.body "name")) (userEmail lib req)
    (.str (lib.bcryptHash pw)) (req.body "role")

/-- The row a user-creation route asks the store to add. -/
def userRow (lib : Lib) (req : Req) (pw : String) (id now : Nat) : Option User :=
  newUser id now (lib.sanitize lib.trim (req.body "name")) (userEmail lib req)
    (.str (lib.bcryptHash pw)) (req.body "role")

/-- Rewriting the role of the rows with a given id. -/
def promote (userId : Nat) (role : String) (u : User) : User :=
  if u.id = userId then { u with role := role } else u

/-- The UPDATE that `PUT /api/clinical-history/:id` hands to `db.execute`: one
clause per defined field of the allow-list, the bound values in the same
order, then the history id. -/
def historyUpdateStmt (lib : Lib) (req : Req) : Stmt :=
  .updateHistories ((definedFields req.body historyAllowedFields).map (fun f => f ++ " = ?"))
    ((definedFields req.body historyAllowedFields).map (historyValue lib req.body) ++
      [.str req.paramId])

/-- The `updates` and `values` arrays `PUT /api/users/:id` builds for a
request, before the user id is pushed. -/
def userUpdateOf (lib : Lib) (req : Req) : List String × List Js :=
  userUpdateSet (lib.sanitizeOptional lib.trim (req.body "name"))
    (lib.sanitizeOptional lib.normalizeEmail (req.body "email"))
    (req.body "role") (req.body "is_active")

/-! ## A small clinic, for the examples -/

/-- A stand-in for the libraries. On the inputs of the examples below, none of
which holds a number as large as 10^21, its validators, sanitizers and
`bcrypt` functions answer as the real ones do; its tokens spell the payload in
unary and are not signed. -/
def demoLib : Lib where
  isEmail := fun s => s.data.contains '@'
  normalizeEmail := fun s => s
  isDate := fun s => s.length == 10
  trim := fun s => s
  objToString := fun _ => "[object Object]"
  scientific := fun _ => ("1", "21")
  jsonStringify := fun v =>
    match v with
    | .num n => toString n
    | .bool true => "true"
    | .bool false => "false"
    | _ => "null"
  bcryptHash := fun s => "$2a$10$" ++ s
  bcryptCompare := fun s h => h == "$2a$10$" ++ s
  jwtSign := fun userId secret expiresIn now =>
    if secret = "" then .error "secretOrPrivateKey must have a value"
    else .ok (String.mk (List.replicate userId 'u' ++ List.replicate now 'i' ++
      List.replicate (now + expiresIn) 'e'))
  jwtVerify := fun token _ later =>
    if later < token.data.count 'e' then
      .ok ⟨token.data.count 'u', token.data.count 'i', token.data.count 'e'⟩
    else .error "jwt expired"

/-- No environment variable set. -/
def demoEnv : Env := ⟨none, none⟩

/-- An administrator. -/
def ana : User := ⟨1, "Ana", "ana@ips.co", "$2a$10$secreto", "admin", true, 100⟩

/-- A receptionist. -/
def luis : User := ⟨2, "Luis", "luis@ips.co", "$2a$10$clave123", "recepcionista", true, 200⟩

/-- A doctor whose account was deactivated. -/
def marta : User := ⟨3, "Marta", "marta@ips.co", "$2a$10$medico99", "doctor", false, 300⟩

/-- A patient on file. -/
def rosa : Patient :=
  ⟨1, "1001", "CC", "Rosa", "Paz", "1980-02-03", "F", none, none, none, none, none, none, none,
    some 1⟩

/-- A visit of that patient. -/
def visit : History :=
  ⟨1, 1, 1, "Control", none, none, none, none, none, none, none⟩

/-- The clinic's store, with no other session at work, at time 1000. -/
def clinic : Db := ⟨[ana, luis, marta], [rosa], [visit], 4, 2, 2, true, [], [], 1000⟩

/-- A request body given by its fields. -/
def bodyOf (fields : List (String × Js)) : Body :=
  fun key => ((fields.find? (fun kv => kv.1 == key)).map (fun kv => kv.2)).getD .undefined

/-- A request of an authenticated user. -/
def requestOf (userId : Nat) (paramId : String) (fields : List (String × Js)) : Req :=
  ⟨some "token", some userId, paramId, bodyOf fields⟩

/-- A request without authentication, as the public routes receive it. -/
def publicRequest (fields : List (String × Js)) : Req :=
  ⟨none, none, "", bodyOf fields⟩

/-- The fields of a well-formed patient with the given identification. -/
def patientFields (identification : String) : List (String × Js) :=
  [("identification", .str identification), ("document_type", .str "CC"),
   ("first_name", .str "Juan"), ("last_name", .str "Mora"),
   ("date_of_birth", .str "1990-05-06"), ("gender", .str "M")]

/-- The fields of a well-formed user with the given email. -/
def userFields (email : String) : List (String × Js) :=
  [("name", .str "Eva"), ("email", .str email), ("password", .str "segura1"),
   ("role", .str "doctor")]

/-- The clinic while another session registers patient 2002: its INSERT is
executed after the second statement of the request at hand and before the
third. -/
def racingPatients : Db :=
  { clinic with
    sched := [⟨[], none⟩, ⟨[], none⟩,
      ⟨[.insertPatient (patientData (bodyOf (patientFields "2002")) (.num 2))], none⟩] }

/-- The clinic while another session registers the user eva@ips.co: its INSERT
is executed after the first statement of the request at hand and before the
second. -/
def racingUsers : Db :=
  { clinic with
    sched := [⟨[], none⟩,
      ⟨[.insertUser (.str "Eva") (.str "eva@ips.co") (.str "$2a$10$otra") (.str "doctor")],
        none⟩] }

/-- The clinic with its connection lost. -/
def offline : Db :=
  { clinic with sched := [⟨[], some ⟨"ECONNRESET", "read ECONNRESET"⟩⟩] }

/-- The environment of a production deployment. -/
def production : Env := ⟨none, some "production"⟩

/-- The clinic whose connection is lost after the first statement of the
request at hand. -/
def flaky : Db :=
  { clinic with sched := [⟨[], none⟩, ⟨[], some ⟨"ECONNRESET", "read ECONNRESET"⟩⟩] }

/-- A stand-in for the decoding of a JSON column, right on the texts
`demoLib.jsonStringify` produces for numbers that are not negative, booleans
and `null`. -/
def demoParse (text : String) : Js :=
  if text = "true" then .bool true
  else if text = "false" then .bool false
  else
    match parseDigits text.data 0 with
    | some n => .num n
    | none => .null

/-- The smallest body the validation chains of `POST /api/clinical-history`
accept: the two required fields. -/
def minimalVisit : List (String × Js) :=
  [("patient_id", .num 1), ("reason_for_visit", .str "Fiebre")]

/-- A body for `POST /api/clinical-history` that defines every field the
handler binds, with the given `vital_signs`, and names a `doctor_id` besides. -/
def visitFields (vitalSigns : Js) : List (String × Js) :=
  [("patient_id", .num 1), ("doctor_id", .num 1), ("reason_for_visit", .str "Fiebre"),
   ("symptoms", .str "Tos"), ("diagnosis", .null), ("treatment", .null),
   ("prescriptions", .null), ("observations", .null), ("vital_signs", vitalSigns),
   ("next_appointment", .str "2025-03-01")]

/-- The fields of a user whose role is `nurse`. -/
def nurseFields : List (String × Js) :=
  [("name", .str "Eva"), ("email", .str "eva@ips.co"), ("password", .str "segura1"),
   ("role", .str "nurse")]

/-- The fields of a well-formed patient but for the gender, which is as given. -/
def patientOfGender (gender : String) : List (String × Js) :=
  [("identification", .str "3003"), ("document_type", .str "TI"),
   ("first_name", .str "Sol"), ("last_name", .str "Rey"),
   ("date_of_birth", .str "2012-07-08"), ("gender", .str gender)]

/-- The characters of a string without the blanks at its ends. -/
def trimChars (cs : List Char) : List Char :=
  ((cs.dropWhile Char.isWhitespace).reverse.dropWhile Char.isWhitespace).reverse

/-- The stand-in libraries with a `trim` that removes the blanks around a
string, as the sanitizer does. -/
def tidyLib : Lib := { demoLib with trim := fun s => String.mk (trimChars s.data) }

/-! ## Lemmas: the store -/

theorem sqlId_num (n : Nat) : sqlId (.num n) = some n := by
  simp [sqlId]

theorem slot_of_quiet (db : Db) (h : db.sched = []) : db.slot = ⟨[], none⟩ := by
  simp [Db.slot, h]

theorem arrive_of_quiet (db : Db) (h : db.sched = []) : db.arrive = db := by
  cases db
  simp_all [Db.arrive, Db.slot, interfere]

theorem sent_of_quiet (db : Db) (q : Stmt) (h : db.sched = []) : db.sent q = db.logged q := by
  simp [Db.sent, Db.logged, arrive_of_quiet db h]

theorem sent_log (db : Db) (q : Stmt) : (db.sent q).log = db.log ++ [q] := rfl

theorem sent_users (db : Db) (q : Stmt) : (db.sent q).users = db.arrive.users := rfl

@[simp] theorem logged_sched (db : Db) (q : Stmt) : (db.logged q).sched = db.sched := rfl

@[simp] theorem logged_users (db : Db) (q : Stmt) : (db.logged q).users = db.users := rfl

@[simp] theorem logged_patients (db : Db) (q : Stmt) : (db.logged q).patients = db.patients := rfl

@[simp] theorem logged_histories (db : Db) (q : Stmt) :
    (db.logged q).histories = db.histories := rfl

@[simp] theorem logged_log (db : Db) (q : Stmt) : (db.logged q).log = db.log ++ [q] := rfl

@[simp] theorem logged_hasDocumentType (db : Db) (q : Stmt) :
    (db.logged q).hasDocumentType = db.hasDocumentType := rfl

@[simp] theorem logged_nextUserId (db : Db) (q : Stmt) :
    (db.logged q).nextUserId = db.nextUserId := rfl

@[simp] theorem logged_nextPatientId (db : Db) (q : Stmt) :
    (db.logged q).nextPatientId = db.nextPatientId := rfl

theorem execute_of_defined (q : Stmt) (db : Db) (h : q.params.any Js.isUndefined = false) :
    execute q db =
      match db.slot.fault with
      | some e => (.error e, db.sent q)
      | none =>
        match q.run (db.sent q) with
        | .error e => (.error e, db.sent q)
        | .ok (r, db2) => (.ok r, db2) := by
  simp only [execute, h, Bool.false_eq_true, if_false]

theorem execute_quiet_ok (q : Stmt) (db db2 : Db) (r : Result) (hquiet : db.sched = [])
    (h : q.params.any Js.isUndefined = false) (hrun : q.run (db.logged q) = .ok (r, db2)) :
    execute q db = (.ok r, db2) := by
  rw [execute_of_defined q db h, slot_of_quiet db hquiet, sent_of_quiet db q hquiet]
  simp [hrun]

theorem execute_selectRole (userId : Nat) (db : Db) :
    execute (.selectRoleById (.num userId)) db =
      match db.slot.fault with
      | some e => (.error e, db.sent (.selectRoleById (.num userId)))
      | none => (.ok (Result.ofUsers (db.arrive.rowsOf userId)),
          db.sent (.selectRoleById (.num userId))) := by
  rw [execute_of_defined _ _ (by simp [Stmt.params, Js.isUndefined])]
  cases h : db.slot.fault with
  | some e => simp
  | none => simp [Stmt.run, sqlId_num, Db.rowsOf, sent_users]

theorem issued_self (db : Db) : issued db db = [] := by
  simp [issued]

theorem issued_sent (db : Db) (q : Stmt) : issued db (db.sent q) = [q] := by
  simp [issued, sent_log]

/-! ## Lemmas: validators -/

theorem passesOptional_undefined (lib : Lib) (p : String → Bool) :
    lib.passesOptional p .undefined = true := by
  simp [Lib.passesOptional, Js.isUndefined]

theorem passes_str (lib : Lib) (p : String → Bool) (s : String) :
    lib.passes p (.str s) = p s := by
  simp [Lib.passes, fieldItems, Lib.toStr]

theorem passesOptional_str (lib : Lib) (p : String → Bool) (s : String) :
    lib.passesOptional p (.str s) = p s := by
  simp [Lib.passesOptional, Js.isUndefined, passes_str]

theorem failing_eq_nil (lib : Lib) (p : String → Bool) (path : String) (v : Js) :
    lib.failing p path v = [] ↔ lib.passes p v = true := by
  simp [Lib.failing, Lib.passes, List.filter_eq_nil_iff]

theorem failingOptional_eq_nil (lib : Lib) (p : String → Bool) (path : String) (v : Js) :
    lib.failingOptional p path v = [] ↔ lib.passesOptional p v = true := by
  unfold Lib.failingOptional Lib.passesOptional
  cases h : v.isUndefined
  · simp [failing_eq_nil]
  · simp

/-! ## Lemmas: the role guard -/

/-- What `authorize` does, by the fault scheduled for its query and the role
the store holds when the query arrives. -/
theorem authorize_eq (roles : List String) (req : Req) (db : Db) :
    authorize roles req db =
      match req.user with
      | none => (.respond ⟨500, errorBody "Error verificando permisos"⟩, db)
      | some userId =>
        match db.slot.fault with
        | some _ => (.respond ⟨500, errorBody "Error verificando permisos"⟩,
            db.sent (.selectRoleById (.num userId)))
        | none =>
          match db.arrive.storedRole userId with
          | none => (.respond ⟨404, errorBody "Usuario no encontrado"⟩,
              db.sent (.selectRoleById (.num userId)))
          | some role =>
            if roles.contains role then (.next, db.sent (.selectRoleById (.num userId)))
            else (.respond ⟨403, errorBody "No tienes permisos para esta acción"⟩,
              db.sent (.selectRoleById (.num userId))) := by
  cases hu : req.user with
  | none => simp [authorize, hu]
  | some userId =>
    simp only [authorize, hu, execute_selectRole]
    cases hf : db.slot.fault with
    | some e => simp
    | none =>
      simp only [Db.storedRole]
      cases hr : db.arrive.rowsOf userId with
      | nil => simp [Result.ofUsers]
      | cons row rest =>
        by_cases hm : row.role ∈ roles <;> simp [Result.ofUsers, hm]

theorem guarded_next (roles : List String) (handler : Req → Db → Response × Db)
    (req : Req) (db db1 : Db) (h : authorize roles req db = (.next, db1)) :
    guarded roles handler req db = handler req db1 := by
  simp [guarded, h]

theorem authorize_pass_of_quiet (roles : List String) (req : Req) (db : Db) (userId : Nat)
    (role : String) (hquiet : db.sched = []) (huser : req.user = some userId)
    (hrole : db.storedRole userId = some role) (hmem : role ∈ roles) :
    authorize roles req db = (.next, db.logged (.selectRoleById (.num userId))) := by
  simp [authorize_eq, huser, slot_of_quiet db hquiet, arrive_of_quiet db hquiet, hrole, hmem,
    sent_of_quiet db _ hquiet]

/-! ## Lemmas: login, updates and creation -/

/-- Login on a store no other session touches, for a well-formed email and a
password that passes `notEmpty()` and is truthy: the answer by the rows the
two queries find. -/
theorem login_of_quiet (lib : Lib) (env : Env) (now : Nat) (req : Req) (db : Db)
    (e : String) (hquiet : db.sched = [])
    (hemail : req.body "email" = .str e) (hwell : lib.isEmail e = true)
    (hnorm : lib.normalizeEmail e ≠ "")
    (hpass : lib.passes notEmpty (req.body "password") = true)
    (htruthy : (req.body "password").truthy = true) :
    (login lib env now req db).1 =
      match db.users.filter (fun u => u.email == lib.normalizeEmail e && u.is_active) with
      | [] =>
        if (db.users.filter (fun u => u.email == lib.normalizeEmail e && !u.is_active)).length > 0
        then deactivated else invalidCredentials
      | user :: _ => passwordAnswer lib env now (req.body "password") user := by
  have herr : loginErrors lib req.body = [] := by
    simp [loginErrors, hemail, hpass, passes_str, hwell, failing_eq_nil]
  have hsan : lib.sanitize lib.normalizeEmail (req.body "email") = .str (lib.normalizeEmail e) := by
    simp [hemail, Lib.sanitize, Lib.toStr]
  have hgate : (!(Js.str (lib.normalizeEmail e)).truthy || !(req.body "password").truthy)
      = false := by
    rw [htruthy]
    simp [Js.truthy, hnorm]
  simp only [login, herr, hsan, hgate, List.isEmpty_nil, Bool.not_true, Bool.false_eq_true,
    if_false]
  rw [execute_quiet_ok (.selectActiveByEmail (.str (lib.normalizeEmail e))) db _ _ hquiet
    (by simp [Stmt.params, Js.isUndefined]) rfl]
  have hfil : ∀ (c : User → Bool),
      db.users.filter (fun u => some u.email == sqlText (.str (lib.normalizeEmail e)) && c u) =
      db.users.filter (fun u => u.email == lib.normalizeEmail e && c u) := by
    intro c
    simp [sqlText]
  simp only [Result.ofUsers, logged_users, hfil (fun u => u.is_active)]
  cases hact : db.users.filter (fun u => u.email == lib.normalizeEmail e && u.is_active) with
  | nil =>
    rw [execute_quiet_ok (.selectInactiveByEmail (.str (lib.normalizeEmail e))) _ _ _
      (by simpa using hquiet) (by simp [Stmt.params, Js.isUndefined]) rfl]
    simp only [Result.ofUsers, logged_users, hfil (fun u => !u.is_active)]
    split <;> rfl
  | cons user rest => rfl

theorem passes_notEmpty_str (lib : Lib) (pw : String) (h : pw ≠ "") :
    lib.passes notEmpty (.str pw) = true := by
  simp [passes_str, notEmpty, h]

theorem truthy_str (pw : String) (h : pw ≠ "") : (Js.str pw).truthy = true := by
  simp [Js.truthy, h]

theorem run_log (q : Stmt) (db db2 : Db) (r : Result) (h : q.run db = .ok (r, db2)) :
    db2.log = db.log := by
  cases q <;> simp only [Stmt.run] at h
  all_goals repeat' split at h
  all_goals first
    | contradiction
    | (cases h; rfl)

theorem execute_log (q : Stmt) (db : Db) (h : q.params.any Js.isUndefined = false) :
    (execute q db).2.log = db.log ++ [q] := by
  rw [execute_of_defined q db h]
  cases db.slot.fault with
  | some e => rfl
  | none =>
    simp only []
    cases hr : q.run (db.sent q) with
    | error e => rfl
    | ok p =>
      obtain ⟨r, db2⟩ := p
      simpa [sent_log] using run_log q _ db2 r hr

theorem collectFields_eq (body : Body) (value : String → Js) (fields : List String)
    (acc : List String × List Js) :
    collectFields body value fields acc =
      (acc.1 ++ (fields.filter (fun f => !(body f).isUndefined)).map (fun f => f ++ " = ?"),
       acc.2 ++ (fields.filter (fun f => !(body f).isUndefined)).map value) := by
  induction fields generalizing acc with
  | nil => simp [collectFields]
  | cons f rest ih =>
    by_cases h : (body f).isUndefined = true
    · simp [collectFields, ih, pushIf, h]
    · simp [collectFields, ih, pushIf, h]

theorem issued_of_log (db db2 : Db) (l : List Stmt) (h : db2.log = db.log ++ l) :
    issued db db2 = l := by
  simp [issued, h]

theorem authorize_log (roles : List String) (req : Req) (db : Db) :
    (authorize roles req db).2.log = db.log ∨
      ∃ id, (authorize roles req db).2.log = db.log ++ [.selectRoleById id] := by
  rw [authorize_eq]
  cases req.user with
  | none => exact Or.inl rfl
  | some userId =>
    refine Or.inr ⟨.num userId, ?_⟩
    cases db.slot.fault with
    | some e => rfl
    | none =>
      simp only []
      cases db.arrive.storedRole userId with
      | none => rfl
      | some role =>
        simp only []
        split <;> rfl

/-- What a guarded route issues: at most the role query, then what the
handler issues. -/
theorem guarded_issued (roles : List String) (handler : Req → Db → Response × Db)
    (req : Req) (db : Db) (P : Stmt → Prop) (hsel : ∀ id, P (.selectRoleById id))
    (hlog : ∀ db1, ∃ l, (handler req db1).2.log = db1.log ++ l ∧ ∀ q ∈ l, P q) :
    ∀ q ∈ issued db (guarded roles handler req db).2, P q := by
  have key : ∃ l, (guarded roles handler req db).2.log = db.log ++ l ∧ ∀ q ∈ l, P q := by
    unfold guarded
    rcases hauth : authorize roles req db with ⟨o, db1⟩
    have hl := authorize_log roles req db
    rw [hauth] at hl
    have hl1 : ∃ l1, db1.log = db.log ++ l1 ∧ ∀ q ∈ l1, P q := by
      rcases hl with h | ⟨id, h⟩
      · exact ⟨[], by simpa using h, by simp⟩
      · exact ⟨[.selectRoleById id], h, by simpa using hsel id⟩
    obtain ⟨l1, hl1, hP1⟩ := hl1
    cases o with
    | respond r => exact ⟨l1, hl1, hP1⟩
    | next =>
      obtain ⟨l2, hl2, hP2⟩ := hlog db1
      refine ⟨l1 ++ l2, by simp [hl2, hl1], ?_⟩
      intro q hq
      rcases List.mem_append.mp hq with h | h
      · exact hP1 q h
      · exact hP2 q h
  obtain ⟨l, hl, hP⟩ := key
  rw [issued_of_log db _ l hl]
  exact hP

theorem defined_values (body : Body) (value : String → Js) (fields : List String) (id : String)
    (hvalue : ∀ f, (body f).isUndefined = false → (value f).isUndefined = false) :
    (((fields.filter (fun f => !(body f).isUndefined)).map value ++ [Js.str id]).any
      Js.isUndefined) = false := by
  rw [List.any_eq_false]
  intro v hv
  rcases List.mem_append.mp hv with h | h
  · obtain ⟨f, hf, rfl⟩ := List.mem_map.mp h
    have := (List.mem_filter.mp hf).2
    simp at this
    simp [hvalue f this]
  · simp at h
    simp [h, Js.isUndefined]

theorem String.append_right_cancel (a b c : String) (h : a ++ c = b ++ c) : a = b := by
  have h2 := congrArg String.data h
  simp only [String.data_append] at h2
  exact String.ext (List.append_cancel_right h2)

theorem patientUpdateStmt_defined (req : Req) :
    (patientUpdateStmt req).params.any Js.isUndefined = false :=
  defined_values req.body req.body patientAllowedFields req.paramId (fun _ h => h)

/-- The store the patient-update handler leaves: the one its UPDATE leaves,
when validation passes and the body defines a field; the one it found,
otherwise. -/
theorem updatePatientHandler_store (lib : Lib) (req : Req) (db : Db) :
    (updatePatientHandler lib req db).2 =
      if (patientUpdateErrors lib req.body).isEmpty &&
          !(definedFields req.body patientAllowedFields).isEmpty
      then (execute (patientUpdateStmt req) db).2 else db := by
  unfold updatePatientHandler
  simp only [collectFields_eq, List.nil_append]
  cases herr : (patientUpdateErrors lib req.body).isEmpty with
  | false => simp
  | true =>
    cases hf : (definedFields req.body patientAllowedFields).isEmpty with
    | true =>
      have hf2 := hf
      unfold definedFields at hf2
      simp only [List.isEmpty_iff] at hf2
      simp [hf2]
    | false =>
      have hf2 := hf
      unfold definedFields at hf2
      have hf3 : ¬ List.filter (fun f => !(req.body f).isUndefined) patientAllowedFields = [] := by
        intro h
        simp [h] at hf2
      simp only [Bool.not_true, Bool.false_eq_true, if_false, List.length_map,
        List.length_eq_zero, hf3, Bool.not_false, Bool.and_self, if_true]
      show (match execute (patientUpdateStmt req) db with
        | (.error _, db1) => ((⟨500, errorBody "Error actualizando paciente"⟩ : Response), db1)
        | (.ok result, db1) =>
          if result.affectedRows = 0 then (⟨404, errorBody "Paciente no encontrado"⟩, db1)
          else (⟨200, messageBody "Paciente actualizado exitosamente"⟩, db1)).2 = _
      rcases execute (patientUpdateStmt req) db with ⟨res, db1⟩
      cases res with
      | error e => rfl
      | ok result =>
        simp only []
        split <;> rfl

/-- What the patient-update handler adds to the log. -/
theorem updatePatientHandler_log (lib : Lib) (req : Req) (db : Db) :
    (updatePatientHandler lib req db).2.log =
      if (patientUpdateErrors lib req.body).isEmpty &&
          !(definedFields req.body patientAllowedFields).isEmpty
      then db.log ++ [patientUpdateStmt req] else db.log := by
  rw [updatePatientHandler_store]
  split
  · exact execute_log _ db (patientUpdateStmt_defined req)
  · rfl

theorem sqlText_defined (v : Js) (s : String) (h : sqlText v = some s) :
    v.isUndefined = false := by
  cases v <;> simp_all [sqlText, Js.isUndefined]

theorem sqlTextN_defined (v : Js) (s : Option String) (h : sqlTextN v = some s) :
    v.isUndefined = false := by
  cases v <;> simp_all [sqlTextN, sqlText, Js.isUndefined]

theorem orNull_defined (v : Js) : v.orNull.isUndefined = false := by
  unfold Js.orNull
  split
  · cases v <;> simp_all [Js.truthy, Js.isUndefined]
  · rfl

/-- A value that passes `isIn(options)` and that the store takes as text is
stored as one of the options. -/
theorem isIn_sqlText (lib : Lib) (options : List String) (v : Js) (s : String)
    (hbool : "true" ∉ options ∧ "false" ∉ options)
    (hplus : ∀ o ∈ options, '+' ∉ o.data)
    (hpass : lib.passes (isIn options) v = true) (htext : sqlText v = some s) :
    options.contains s = true := by
  cases v with
  | str t =>
    simp only [sqlText, Option.some.injEq] at htext
    rw [passes_str] at hpass
    rw [← htext]
    exact hpass
  | num n =>
    simp only [sqlText, Option.some.injEq] at htext
    rw [← htext]
    by_cases hsmall : n.natAbs < 1000000000000000000000
    · simpa [Lib.passes, fieldItems, Lib.toStr, isIn, hsmall] using hpass
    · simp [Lib.passes, fieldItems, Lib.toStr, isIn, hsmall] at hpass
      refine absurd ?_ (hplus _ hpass)
      have hdata : ("e+" : String).data = ['e', '+'] := rfl
      simp [String.data_append, hdata]
  | bool b =>
    cases b <;> simp [Lib.passes, fieldItems, Lib.toStr, isIn, hbool.1, hbool.2] at hpass
  | undefined => simp [sqlText] at htext
  | null => simp [sqlText] at htext
  | arr xs => simp [sqlText] at htext
  | obj fs => simp [sqlText] at htext

theorem exists_of_storedRole (db : Db) (userId : Nat) (role : String)
    (h : db.storedRole userId = some role) : ∃ u ∈ db.users, u.id = userId := by
  unfold Db.storedRole Db.rowsOf at h
  cases hl : db.users.filter (fun u => u.id == userId) with
  | nil => simp [hl] at h
  | cons u rest =>
    have hmem : u ∈ db.users.filter (fun u => u.id == userId) := by simp [hl]
    rw [List.mem_filter] at hmem
    exact ⟨u, hmem.1, by simpa using hmem.2⟩

/-- What a stored patient row says about the values it was built from. -/
theorem newPatient_facts (id : Nat) (body : Body) (creator : Nat) (row : Patient)
    (h : newPatient id (patientData body (.num creator)) = some row) :
    sqlText (body "identification") = some row.identification ∧
    sqlText (body "gender") = some row.gender ∧
    row.created_by = some creator ∧
    row.id = id ∧
    (patientData body (.num creator)).any Js.isUndefined = false := by
  simp only [newPatient, patientData] at h
  obtain ⟨ident, h1, h⟩ := Option.bind_eq_some.mp h
  obtain ⟨dt, h2, h⟩ := Option.bind_eq_some.mp h
  obtain ⟨fn, h3, h⟩ := Option.bind_eq_some.mp h
  obtain ⟨ln, h4, h⟩ := Option.bind_eq_some.mp h
  obtain ⟨dob, h5, h⟩ := Option.bind_eq_some.mp h
  obtain ⟨g, h6, h⟩ := Option.bind_eq_some.mp h
  obtain ⟨ph, h7, h⟩ := Option.bind_eq_some.mp h
  obtain ⟨em, h8, h⟩ := Option.bind_eq_some.mp h
  obtain ⟨ad, h9, h⟩ := Option.bind_eq_some.mp h
  obtain ⟨ec, h10, h⟩ := Option.bind_eq_some.mp h
  obtain ⟨ep, h11, h⟩ := Option.bind_eq_some.mp h
  obtain ⟨bt, h12, h⟩ := Option.bind_eq_some.mp h
  obtain ⟨al, h13, h⟩ := Option.bind_eq_some.mp h
  obtain ⟨cb, h14, hrow⟩ := Option.bind_eq_some.mp h
  simp only [Option.some.injEq] at hrow
  subst hrow
  have hcb : cb = some creator := by
    simp [sqlIdN, sqlId_num] at h14
    exact h14.symm
  refine ⟨h1, h6, hcb, rfl, ?_⟩
  simp only [patientData, List.any_cons, List.any_nil, Bool.or_false, Bool.or_eq_false_iff]
  refine ⟨sqlText_defined _ _ h1, sqlText_defined _ _ h2, sqlText_defined _ _ h3,
    sqlText_defined _ _ h4, sqlText_defined _ _ h5, sqlText_defined _ _ h6,
    orNull_defined _, orNull_defined _, orNull_defined _, orNull_defined _,
    orNull_defined _, orNull_defined _, orNull_defined _, rfl⟩

theorem notEmpty_defined (lib : Lib) (v : Js) (h : lib.passes notEmpty v = true) :
    v.isUndefined = false := by
  cases v <;> simp_all [Lib.passes, fieldItems, Lib.toStr, notEmpty, Js.isUndefined]

theorem patientCreateErrors_nil (lib : Lib) (body : Body)
    (h : patientCreateErrors lib body = []) :
    lib.passes notEmpty (body "identification") = true ∧
    lib.passes (isIn ["M", "F", "Otro"]) (body "gender") = true := by
  simp only [patientCreateErrors, List.append_eq_nil, failing_eq_nil, failingOptional_eq_nil] at h
  exact ⟨h.1.1.1.1.1, h.2⟩

theorem userCreateErrors_nil (lib : Lib) (roles : List String) (body : Body)
    (h : userCreateErrors lib roles body = []) :
    lib.passes (isIn roles) (body "role") = true := by
  simp only [userCreateErrors, List.append_eq_nil, failing_eq_nil, failingOptional_eq_nil] at h
  exact h.2

theorem createPatient_taken (lib : Lib) (req : Req) (db : Db) (userId : Nat) (role : String)
    (hquiet : db.sched = []) (huser : req.user = some userId)
    (hrole : db.storedRole userId = some role) (hstaff : role ∈ staffRoles)
    (hvalid : patientCreateErrors lib req.body = [])
    (htaken : ∃ p ∈ db.patients, some p.identification = sqlText (req.body "identification")) :
    createPatient lib req db =
      (identificationTaken, (db.logged (.selectRoleById (.num userId))).logged
        (.selectPatientIdByIdentification (req.body "identification"))) := by
  rw [createPatient, guarded_next _ _ _ _ _
    (authorize_pass_of_quiet staffRoles req db userId role hquiet huser hrole hstaff)]
  unfold createPatientHandler
  simp only [hvalid, List.isEmpty_nil, Bool.not_true, Bool.false_eq_true, if_false]
  rw [execute_quiet_ok (.selectPatientIdByIdentification (req.body "identification")) _ _ _
    (by simpa using hquiet)
    (by simpa [Stmt.params] using notEmpty_defined lib _ (patientCreateErrors_nil lib _ hvalid).1)
    rfl]
  obtain ⟨p, hp, hpe⟩ := htaken
  have hlen : (List.filter
      (fun p => some p.identification == sqlText (req.body "identification"))
      db.patients).length > 0 := by
    apply List.length_pos_of_mem (a := p)
    simp [List.mem_filter, hp, hpe]
  simp only [Result.ofPatients, logged_patients, hlen, if_true]

theorem createPatient_fresh (lib : Lib) (req : Req) (db : Db) (userId : Nat) (role : String)
    (row : Patient)
    (hquiet : db.sched = []) (huser : req.user = some userId)
    (hrole : db.storedRole userId = some role) (hstaff : role ∈ staffRoles)
    (hvalid : patientCreateErrors lib req.body = [])
    (hfresh : ∀ p ∈ db.patients, some p.identification ≠ sqlText (req.body "identification"))
    (hcolumn : db.hasDocumentType = true)
    (hrow : newPatient db.nextPatientId (patientData req.body (.num userId)) = some row) :
    (createPatient lib req db).1 = patientCreated db.nextPatientId ∧
    (createPatient lib req db).2.patients = db.patients ++ [row] := by
  obtain ⟨hident, hgender, hcreator, _, hdefined⟩ :=
    newPatient_facts db.nextPatientId req.body userId row hrow
  rw [createPatient, guarded_next _ _ _ _ _
    (authorize_pass_of_quiet staffRoles req db userId role hquiet huser hrole hstaff)]
  unfold createPatientHandler
  simp only [hvalid, List.isEmpty_nil, Bool.not_true, Bool.false_eq_true, if_false]
  rw [execute_quiet_ok (.selectPatientIdByIdentification (req.body "identification")) _ _ _
    (by simpa using hquiet)
    (by simpa [Stmt.params] using notEmpty_defined lib _ (patientCreateErrors_nil lib _ hvalid).1)
    rfl]
  have hnone : (List.filter
      (fun p => some p.identification == sqlText (req.body "identification"))
      db.patients) = [] := by
    rw [List.filter_eq_nil_iff]
    intro p hp
    simpa using hfresh p hp
  have henum : patientsGenderEnum.contains row.gender = true :=
    isIn_sqlText lib ["M", "F", "Otro"] (req.body "gender") row.gender (by decide) (by decide)
      (patientCreateErrors_nil lib _ hvalid).2 hgender
  have hdup : db.patients.any (fun p => p.identification == row.identification) = false := by
    rw [List.any_eq_false]
    intro p hp hcontra
    apply hfresh p hp
    rw [hident]
    simpa using hcontra
  have hfk : db.users.any (fun u => u.id == userId) = true := by
    obtain ⟨u, hu, hid⟩ := exists_of_storedRole db userId role hrole
    rw [List.any_eq_true]
    exact ⟨u, hu, by simpa using hid⟩
  have henum2 : row.gender ∈ patientsGenderEnum := by simpa using henum
  simp only [Result.ofPatients, logged_patients, hnone, List.length_nil, gt_iff_lt,
    lt_self_iff_false, if_false, huser]
  rw [execute_quiet_ok (.insertPatient (patientData req.body (.num userId))) _
    { db with
      patients := db.patients ++ [row]
      nextPatientId := db.nextPatientId + 1
      log := db.log ++ [.selectRoleById (.num userId),
        .selectPatientIdByIdentification (req.body "identification"),
        .insertPatient (patientData req.body (.num userId))] }
    (Result.header db.nextPatientId 1) (by simpa using hquiet) hdefined
    (by simp [Stmt.run, hcolumn, hrow, hdup, henum2, hcreator, hfk, Db.logged])]
  exact ⟨rfl, rfl⟩

theorem sanitize_defined (lib : Lib) (f : String → String) (v : Js) :
    (lib.sanitize f v).isUndefined = false := by
  cases v <;> rfl

/-- What a stored user row says about the values it was built from. -/
theorem newUser_facts (id now : Nat) (name email password role : Js) (row : User)
    (h : newUser id now name email password role = some row) :
    sqlText email = some row.email ∧ sqlText password = some row.password ∧
    sqlText role = some row.role ∧ row.id = id ∧ row.is_active = true ∧
    [name, email, password, role].any Js.isUndefined = false := by
  simp only [newUser] at h
  obtain ⟨n, h1, h⟩ := Option.bind_eq_some.mp h
  obtain ⟨e, h2, h⟩ := Option.bind_eq_some.mp h
  obtain ⟨p, h3, h⟩ := Option.bind_eq_some.mp h
  obtain ⟨r, h4, hrow⟩ := Option.bind_eq_some.mp h
  simp only [Option.some.injEq] at hrow
  subst hrow
  refine ⟨h2, h3, h4, rfl, rfl, ?_⟩
  simp only [List.any_cons, List.any_nil, Bool.or_false, Bool.or_eq_false_iff]
  exact ⟨sqlText_defined _ _ h1, sqlText_defined _ _ h2, sqlText_defined _ _ h3,
    sqlText_defined _ _ h4⟩

theorem insertNewUser_taken (lib : Lib) (fail : String → Response) (req : Req) (db : Db)
    (hquiet : db.sched = [])
    (htaken : ∃ u ∈ db.users,
      some u.email = sqlText (lib.sanitize lib.normalizeEmail (req.body "email"))) :
    insertNewUser lib fail req db =
      (⟨400, errorBody "El email ya está registrado"⟩,
        db.logged (.selectUserIdByEmail (lib.sanitize lib.normalizeEmail (req.body "email")))) := by
  unfold insertNewUser
  simp only []
  rw [execute_quiet_ok (.selectUserIdByEmail _) _ _ _ hquiet
    (by simpa [Stmt.params] using sanitize_defined lib _ _) rfl]
  obtain ⟨u, hu, hue⟩ := htaken
  have hlen : (List.filter
      (fun u => some u.email == sqlText (lib.sanitize lib.normalizeEmail (req.body "email")))
      db.users).length > 0 := by
    apply List.length_pos_of_mem (a := u)
    simp [List.mem_filter, hu, hue]
  simp only [Result.ofUsers, logged_users, hlen, if_true]

theorem insertNewUser_fresh (lib : Lib) (fail : String → Response) (req : Req) (db : Db)
    (pw : String) (row : User) (hquiet : db.sched = [])
    (hfresh : ∀ u ∈ db.users,
      some u.email ≠ sqlText (lib.sanitize lib.normalizeEmail (req.body "email")))
    (hpass : req.body "password" = .str pw)
    (hrow : newUser db.nextUserId db.clock (lib.sanitize lib.trim (req.body "name"))
      (lib.sanitize lib.normalizeEmail (req.body "email")) (.str (lib.bcryptHash pw))
      (req.body "role") = some row)
    (henum : row.role ∈ usersRoleEnum) :
    insertNewUser lib fail req db =
      (userCreated db.nextUserId,
        { db with
          users := db.users ++ [row]
          nextUserId := db.nextUserId + 1
          log := db.log ++
            [.selectUserIdByEmail (lib.sanitize lib.normalizeEmail (req.body "email")),
             .insertUser (lib.sanitize lib.trim (req.body "name"))
              (lib.sanitize lib.normalizeEmail (req.body "email")) (.str (lib.bcryptHash pw))
              (req.body "role")] }) := by
  obtain ⟨hemail, _, _, _, _, hdefined⟩ := newUser_facts _ _ _ _ _ _ row hrow
  unfold insertNewUser
  simp only []
  rw [execute_quiet_ok (.selectUserIdByEmail _) _ _ _ hquiet
    (by simpa [Stmt.params] using sanitize_defined lib _ _) rfl]
  have hnone : (List.filter
      (fun u => some u.email == sqlText (lib.sanitize lib.normalizeEmail (req.body "email")))
      db.users) = [] := by
    rw [List.filter_eq_nil_iff]
    intro u hu
    simpa using hfresh u hu
  have hdup : db.users.any (fun u => u.email == row.email) = false := by
    rw [List.any_eq_false]
    intro u hu hcontra
    apply hfresh u hu
    rw [hemail]
    simpa using hcontra
  simp only [Result.ofUsers, logged_users, hnone, List.length_nil, gt_iff_lt,
    lt_self_iff_false, if_false, hpass]
  rw [execute_quiet_ok (.insertUser _ _ _ _) _
    { db with
      users := db.users ++ [row]
      nextUserId := db.nextUserId + 1
      log := db.log ++
        [.selectUserIdByEmail (lib.sanitize lib.normalizeEmail (req.body "email")),
         .insertUser (lib.sanitize lib.trim (req.body "name"))
          (lib.sanitize lib.normalizeEmail (req.body "email")) (.str (lib.bcryptHash pw))
          (req.body "role")] }
    (Result.header db.nextUserId 1) (by simpa using hquiet) hdefined
    (by simp [Stmt.run, hrow, hdup, henum, Db.logged])]
  rfl

theorem execute_ok_of_run (q : Stmt) (db db2 : Db) (r : Result)
    (hfault : db.slot.fault = none) (h : q.params.any Js.isUndefined = false)
    (hrun : q.run (db.sent q) = .ok (r, db2)) :
    execute q db = (.ok r, db2) := by
  rw [execute_of_defined q db h, hfault]
  simp [hrun]

theorem execute_error_of_run (q : Stmt) (db : Db) (e : DbError)
    (hfault : db.slot.fault = none) (h : q.params.any Js.isUndefined = false)
    (hrun : q.run (db.sent q) = .error e) :
    execute q db = (.error e, db.sent q) := by
  rw [execute_of_defined q db h, hfault]
  simp [hrun]

theorem insertNewUser_conflict (lib : Lib) (fail : String → Response) (req : Req) (db : Db)
    (pw : String) (row : User)
    (hfault1 : db.slot.fault = none)
    (hnone : ∀ u ∈ db.arrive.users,
      some u.email ≠ sqlText (lib.sanitize lib.normalizeEmail (req.body "email")))
    (hpass : req.body "password" = .str pw)
    (hfault2 : (db.sent (.selectUserIdByEmail
      (lib.sanitize lib.normalizeEmail (req.body "email")))).slot.fault = none)
    (hrow : newUser (db.sent (.selectUserIdByEmail
        (lib.sanitize lib.normalizeEmail (req.body "email")))).arrive.nextUserId
      (db.sent (.selectUserIdByEmail
        (lib.sanitize lib.normalizeEmail (req.body "email")))).arrive.clock
      (lib.sanitize lib.trim (req.body "name"))
      (lib.sanitize lib.normalizeEmail (req.body "email")) (.str (lib.bcryptHash pw))
      (req.body "role") = some row)
    (hdup : ∃ u ∈ (db.sent (.selectUserIdByEmail
        (lib.sanitize lib.normalizeEmail (req.body "email")))).arrive.users,
      u.email = row.email) :
    insertNewUser lib fail req db =
      (fail (errDuplicate "users.email").message,
        (db.sent (.selectUserIdByEmail
          (lib.sanitize lib.normalizeEmail (req.body "email")))).sent
          (.insertUser (lib.sanitize lib.trim (req.body "name"))
            (lib.sanitize lib.normalizeEmail (req.body "email")) (.str (lib.bcryptHash pw))
            (req.body "role"))) := by
  obtain ⟨_, _, _, _, _, hdefined⟩ := newUser_facts _ _ _ _ _ _ row hrow
  unfold insertNewUser
  simp only []
  rw [execute_ok_of_run (.selectUserIdByEmail _) db _ _ hfault1
    (by simpa [Stmt.params] using sanitize_defined lib _ _) rfl]
  have hnone2 : (List.filter
      (fun u => some u.email == sqlText (lib.sanitize lib.normalizeEmail (req.body "email")))
      db.arrive.users) = [] := by
    rw [List.filter_eq_nil_iff]
    intro u hu
    simpa using hnone u hu
  have hany : (db.sent (.selectUserIdByEmail
      (lib.sanitize lib.normalizeEmail (req.body "email")))).arrive.users.any
      (fun u => u.email == row.email) = true := by
    obtain ⟨u, hu, hue⟩ := hdup
    rw [List.any_eq_true]
    exact ⟨u, hu, by simpa using hue⟩
  simp only [Result.ofUsers, sent_users, hnone2, List.length_nil, gt_iff_lt,
    lt_self_iff_false, if_false, hpass]
  rw [execute_error_of_run (.insertUser _ _ _ _) _ (errDuplicate "users.email") hfault2 hdefined
    (by
      have hrow2 : newUser
          (Db.sent (db.sent (.selectUserIdByEmail
            (lib.sanitize lib.normalizeEmail (req.body "email"))))
            (.insertUser (lib.sanitize lib.trim (req.body "name"))
              (lib.sanitize lib.normalizeEmail (req.body "email")) (.str (lib.bcryptHash pw))
              (req.body "role"))).nextUserId
          (Db.sent (db.sent (.selectUserIdByEmail
            (lib.sanitize lib.normalizeEmail (req.body "email"))))
            (.insertUser (lib.sanitize lib.trim (req.body "name"))
              (lib.sanitize lib.normalizeEmail (req.body "email")) (.str (lib.bcryptHash pw))
              (req.body "role"))).clock
          (lib.sanitize lib.trim (req.body "name"))
          (lib.sanitize lib.normalizeEmail (req.body "email")) (.str (lib.bcryptHash pw))
          (req.body "role") = some row := hrow
      simp only [Stmt.run, hrow2, sent_users, hany, if_true])]


theorem stamp_self (clock : Nat) (u : User) : stamp clock u u = u := by
  simp [stamp]

theorem zipWith_stamp_self (clock : Nat) (users : List User) :
    List.zipWith (stamp clock) users users = users := by
  induction users with
  | nil => rfl
  | cons u rest ih => simp [stamp_self, ih]

theorem zipWith_stamp_map (clock : Nat) (f : User → User) (users : List User) :
    List.zipWith (stamp clock) users (users.map f) = users.map (fun u => stamp clock u (f u)) := by
  induction users with
  | nil => rfl
  | cons u rest ih => simp [ih]

theorem stamp_email (clock : Nat) (old new : User) (h : new.email = old.email) :
    (stamp clock old new).email = old.email := by
  unfold stamp
  split
  · rfl
  · exact h

theorem stamp_id (clock : Nat) (old new : User) (h : new.id = old.id) :
    (stamp clock old new).id = old.id := by
  unfold stamp
  split
  · rfl
  · exact h

theorem stamp_role (clock : Nat) (old new : User) : (stamp clock old new).role = new.role := by
  unfold stamp
  split
  · rename_i h
    rw [h]
  · rfl

theorem updateRows_role (userId : Nat) (users : List User) :
    updateRows User.id setUserCol [("role = ?", .str "admin")] (some userId) users =
      some (users.map (promote userId "admin")) := by
  induction users with
  | nil => rfl
  | cons u rest ih =>
    by_cases h : u.id = userId
    · simp [updateRows, ih, h, promote, setCols, setUserCol, sqlText, usersRoleEnum]
    · simp [updateRows, ih, h, promote]

theorem distinctKeys_map_email (f : User → User) (hf : ∀ u, (f u).email = u.email)
    (users : List User) :
    distinctKeys User.email (users.map f) = distinctKeys User.email users := by
  induction users with
  | nil => rfl
  | cons u rest ih => simp [distinctKeys, ih, hf, List.any_map, Function.comp_def]

theorem promote_email (userId : Nat) (role : String) (u : User) :
    (promote userId role u).email = u.email := by
  unfold promote
  split <;> rfl

theorem rowsOf_head_promote (userId : Nat) (role : String) (users : List User)
    (h : ∃ u ∈ users, u.id = userId) :
    ((users.map (promote userId role)).filter (fun u => u.id == userId)).head?.map
      (fun u => u.role) = some role := by
  induction users with
  | nil => simp at h
  | cons u rest ih =>
    by_cases hu : u.id = userId
    · simp [promote, hu, List.filter_cons]
    · have h2 : ∃ v ∈ rest, v.id = userId := by
        obtain ⟨v, hv, hid⟩ := h
        rcases List.mem_cons.mp hv with rfl | hv
        · exact absurd hid hu
        · exact ⟨v, hv, hid⟩
      simp [promote, hu, List.filter_cons]
      simpa [promote] using ih h2

theorem rowsOf_head_map (userId : Nat) (role : String) (f : User → User)
    (hid : ∀ u, (f u).id = u.id) (hrole : ∀ u, u.id = userId → (f u).role = role)
    (users : List User) (h : ∃ u ∈ users, u.id = userId) :
    ((users.map f).filter (fun u => u.id == userId)).head?.map (fun u => u.role) =
      some role := by
  induction users with
  | nil => simp at h
  | cons u rest ih =>
    by_cases hu : u.id = userId
    · simp [List.filter_cons, hid, hu, hrole u hu]
    · have h2 : ∃ v ∈ rest, v.id = userId := by
        obtain ⟨v, hv, hv2⟩ := h
        rcases List.mem_cons.mp hv with rfl | hv
        · exact absurd hv2 hu
        · exact ⟨v, hv, hv2⟩
      simp only [List.map_cons, List.filter_cons, hid, beq_iff_eq, hu, if_false]
      exact ih h2

theorem promote_id (userId : Nat) (role : String) (u : User) :
    (promote userId role u).id = u.id := by
  unfold promote
  split <;> rfl

theorem promote_role (userId : Nat) (role : String) (u : User) (h : u.id = userId) :
    (promote userId role u).role = role := by
  simp [promote, h]

theorem authorize_store (roles : List String) (req : Req) (db : Db) :
    (authorize roles req db).2 = db ∨
      ∃ id, (authorize roles req db).2 = db.sent (.selectRoleById id) := by
  rw [authorize_eq]
  cases req.user with
  | none => exact Or.inl rfl
  | some userId =>
    refine Or.inr ⟨.num userId, ?_⟩
    cases db.slot.fault with
    | some e => rfl
    | none =>
      simp only []
      cases db.arrive.storedRole userId with
      | none => rfl
      | some role =>
        simp only []
        split <;> rfl

/-- A guarded route whose handler answers without touching the store leaves
the store as `authorize` left it. -/
theorem guarded_store_of_idle (roles : List String) (handler : Req → Db → Response × Db)
    (req : Req) (db : Db) (hidle : ∀ db1, (handler req db1).2 = db1) :
    (guarded roles handler req db).2 = (authorize roles req db).2 := by
  unfold guarded
  rcases authorize roles req db with ⟨o, db1⟩
  cases o with
  | respond r => rfl
  | next => exact hidle db1

theorem updatePatientHandler_empty (lib : Lib) (req : Req) (db : Db)
    (h : ∀ f ∈ patientAllowedFields, req.body f = .undefined) :
    updatePatientHandler lib req db = (noFields, db) := by
  have herr : patientUpdateErrors lib req.body = [] := by
    simp [patientUpdateErrors, h, patientAllowedFields, passesOptional_undefined, failingOptional_eq_nil]
  have hset : collectFields req.body req.body patientAllowedFields ([], []) = ([], []) := by
    rw [collectFields_eq]
    have : patientAllowedFields.filter (fun f => !(req.body f).isUndefined) = [] := by
      rw [List.filter_eq_nil_iff]
      intro f hf
      simp [h f hf, Js.isUndefined]
    simp [this]
  simp [updatePatientHandler, herr, hset, noFields]

theorem updateHistory_empty (lib : Lib) (req : Req) (db : Db)
    (h : ∀ f ∈ historyAllowedFields, req.body f = .undefined) :
    updateHistory lib req db = (noFields, db) := by
  have herr : historyUpdateErrors lib req.body = [] := by
    simp [historyUpdateErrors, h, historyAllowedFields, passesOptional_undefined, failingOptional_eq_nil]
  have hset : collectFields req.body (historyValue lib req.body) historyAllowedFields ([], []) =
      ([], []) := by
    rw [collectFields_eq]
    have : historyAllowedFields.filter (fun f => !(req.body f).isUndefined) = [] := by
      rw [List.filter_eq_nil_iff]
      intro f hf
      simp [h f hf, Js.isUndefined]
    simp [this]
  simp [updateHistory, herr, hset, noFields]

theorem updateUserHandler_empty (lib : Lib) (req : Req) (db : Db)
    (h : ∀ f ∈ ["name", "email", "role", "is_active"], req.body f = .undefined) :
    updateUserHandler lib req db = (noFields, db) := by
  have herr : userUpdateErrors lib req.body = [] := by
    simp [userUpdateErrors, h, passesOptional_undefined, failingOptional_eq_nil]
  simp [updateUserHandler, herr, h, userUpdateSet, pushIf, Lib.sanitizeOptional, Js.isUndefined,
    Js.truthy, noFields]

theorem idle_route (roles : List String) (handler : Req → Db → Response × Db) (req : Req)
    (db : Db) (hidle : ∀ db1, handler req db1 = (noFields, db1)) :
    (∀ db1, authorize roles req db = (.next, db1) →
      guarded roles handler req db = (noFields, db1)) ∧
    (∀ q ∈ issued db (guarded roles handler req db).2, q.isUpdate = false) ∧
    (db.sched = [] →
      (guarded roles handler req db).2.users = db.users ∧
      (guarded roles handler req db).2.patients = db.patients ∧
      (guarded roles handler req db).2.histories = db.histories) := by
  have hstore := guarded_store_of_idle roles handler req db (fun db1 => by rw [hidle db1])
  refine ⟨?_, ?_, ?_⟩
  · intro db1 hpass
    rw [guarded_next roles handler req db db1 hpass, hidle db1]
  · rw [hstore]
    rcases authorize_store roles req db with h | ⟨id, h⟩
    · rw [h, issued_self]
      simp
    · rw [h, issued_sent]
      simp [Stmt.isUpdate]
  · intro hquiet
    rw [hstore]
    rcases authorize_store roles req db with h | ⟨id, h⟩
    · rw [h]
      exact ⟨rfl, rfl, rfl⟩
    · rw [h, sent_of_quiet db _ hquiet]
      exact ⟨rfl, rfl, rfl⟩

theorem createPatientHandler_conflict (lib : Lib) (req : Req) (db : Db) (userId : Nat)
    (row : Patient)
    (hvalid : patientCreateErrors lib req.body = []) (huser : req.user = some userId)
    (hfault1 : db.slot.fault = none)
    (hnone : ∀ p ∈ db.arrive.patients,
      some p.identification ≠ sqlText (req.body "identification"))
    (hfault2 : (db.sent (patientPrecheck req)).slot.fault = none)
    (hcolumn : (db.sent (patientPrecheck req)).arrive.hasDocumentType = true)
    (hrow : newPatient (db.sent (patientPrecheck req)).arrive.nextPatientId
      (patientData req.body (.num userId)) = some row)
    (hdup : ∃ p ∈ (db.sent (patientPrecheck req)).arrive.patients,
      p.identification = row.identification) :
    createPatientHandler lib req db =
      (⟨500, errorDetails "Error creando paciente" (errDuplicate "patients.identification").message⟩,
        (db.sent (patientPrecheck req)).sent (patientInsert req userId)) := by
  obtain ⟨_, _, _, _, hdefined⟩ := newPatient_facts _ req.body userId row hrow
  unfold patientPrecheck at hfault2 hcolumn hrow hdup
  unfold patientPrecheck patientInsert
  unfold createPatientHandler
  simp only [hvalid, List.isEmpty_nil, Bool.not_true, Bool.false_eq_true, if_false]
  rw [execute_ok_of_run (.selectPatientIdByIdentification (req.body "identification")) db _ _
    hfault1
    (by simpa [Stmt.params] using notEmpty_defined lib _ (patientCreateErrors_nil lib _ hvalid).1)
    rfl]
  have hnone2 : (List.filter
      (fun p => some p.identification == sqlText (req.body "identification"))
      db.arrive.patients) = [] := by
    rw [List.filter_eq_nil_iff]
    intro p hp
    simpa using hnone p hp
  have hany : (db.sent (.selectPatientIdByIdentification
      (req.body "identification"))).arrive.patients.any
      (fun p => p.identification == row.identification) = true := by
    obtain ⟨p, hp, hpe⟩ := hdup
    rw [List.any_eq_true]
    exact ⟨p, hp, by simpa using hpe⟩
  have hpat : ∀ (d : Db) (q : Stmt), (d.sent q).patients = d.arrive.patients := fun _ _ => rfl
  simp only [Result.ofPatients, hpat, hnone2, List.length_nil, gt_iff_lt,
    lt_self_iff_false, if_false, huser]
  rw [execute_error_of_run (.insertPatient (patientData req.body (.num userId)))
    (db.sent (.selectPatientIdByIdentification (req.body "identification")))
    (errDuplicate "patients.identification")
    hfault2 hdefined
    (by
      simp only [Stmt.run]
      rw [show (Db.sent (db.sent (.selectPatientIdByIdentification (req.body "identification")))
          (.insertPatient (patientData req.body (.num userId)))).nextPatientId =
          (db.sent (.selectPatientIdByIdentification
            (req.body "identification"))).arrive.nextPatientId from rfl,
        show (Db.sent (db.sent (.selectPatientIdByIdentification (req.body "identification")))
          (.insertPatient (patientData req.body (.num userId)))).hasDocumentType =
          (db.sent (.selectPatientIdByIdentification
            (req.body "identification"))).arrive.hasDocumentType from rfl,
        hrow, hcolumn]
      simp only [hpat, hany, if_true, Bool.not_true, Bool.false_eq_true, if_false])]

/-- The store `DELETE /api/patients/:id` leaves once past the guard is the one
its DELETE leaves. -/
theorem deletePatientHandler_store (req : Req) (db : Db) :
    (deletePatientHandler req db).2 = (execute (.deletePatient (.str req.paramId)) db).2 := by
  unfold deletePatientHandler
  rcases execute (.deletePatient (.str req.paramId)) db with ⟨res, db1⟩
  cases res with
  | error e => rfl
  | ok result =>
    simp only []
    split <;> rfl

/-- The store `DELETE /api/clinical-history/:id` leaves once past the guard is
the one its DELETE leaves. -/
theorem deleteHistoryHandler_store (req : Req) (db : Db) :
    (deleteHistoryHandler req db).2 = (execute (.deleteHistory (.str req.paramId)) db).2 := by
  unfold deleteHistoryHandler
  rcases execute (.deleteHistory (.str req.paramId)) db with ⟨res, db1⟩
  cases res with
  | error e => rfl
  | ok result =>
    simp only []
    split <;> rfl

/-- An admin's hard delete on a quiet store issues the role query and then the
DELETE. -/
theorem guarded_delete_issued (handler : Req → Db → Response × Db) (q : Stmt) (req : Req)
    (db : Db) (userId : Nat) (hquiet : db.sched = []) (huser : req.user = some userId)
    (hrole : db.storedRole userId = some "admin")
    (hdefined : q.params.any Js.isUndefined = false)
    (hstore : ∀ db1, (handler req db1).2 = (execute q db1).2) :
    issued db (guarded ["admin"] handler req db).2 = [.selectRoleById (.num userId), q] := by
  rw [guarded_next _ _ _ _ _
    (authorize_pass_of_quiet ["admin"] req db userId "admin" hquiet huser hrole (by simp))]
  apply issued_of_log
  rw [hstore, execute_log q _ hdefined]
  simp

theorem demoLib_jwtSound : demoLib.JwtSound := by
  intro userId secret expiresIn now hsecret
  refine ⟨String.mk (List.replicate userId 'u' ++ List.replicate now 'i' ++
    List.replicate (now + expiresIn) 'e'), ?_, ?_⟩
  · simp [demoLib, hsecret]
  · intro later hlt
    simp [demoLib, List.count_append, List.count_replicate, hlt]

theorem jwtSecret_ne_empty (env : Env) : jwtSecret env ≠ "" := by
  unfold jwtSecret
  split
  · split
    · decide
    · assumption
  · decide

/-- A token `generateToken` makes verifies before its thirty days are over, as
far as `jsonwebtoken` keeps its promise: the secret of the code is never
empty. -/
theorem generateToken_verifies (lib : Lib) (env : Env) (hsound : lib.JwtSound)
    (issuedAt id : Nat) :
    ∃ token, generateToken lib env issuedAt id = .ok token ∧
      ∀ later, later < issuedAt + thirtyDays →
        verifyToken lib env later token = .ok ⟨id, issuedAt, issuedAt + thirtyDays⟩ :=
  hsound id (jwtSecret env) thirtyDays issuedAt (jwtSecret_ne_empty env)

theorem undefined_of_definedFields (body : Body) (allowed : List String)
    (h : definedFields body allowed = []) : ∀ f ∈ allowed, body f = .undefined := by
  intro f hf
  unfold definedFields at h
  rw [List.filter_eq_nil_iff] at h
  have := h f hf
  cases hb : body f <;> simp_all [Js.isUndefined]

/-! ## Lemmas: updating a clinical history -/

theorem updateRows_absent {α : Type} (idOf : α → Nat) (setCol : String → Js → α → Option α)
    (assigns : List (String × Js)) (id : Option Nat) (rows : List α)
    (h : ∀ r ∈ rows, some (idOf r) ≠ id) :
    updateRows idOf setCol assigns id rows = some rows := by
  induction rows with
  | nil => rfl
  | cons r rest ih =>
    have hr : some (idOf r) ≠ id := h r (List.mem_cons_self _ _)
    have hrest := ih (fun x hx => h x (List.mem_cons_of_mem _ hx))
    simp [updateRows, hr, hrest]

theorem splitValues_append (vals : List Js) (id : Js) :
    splitValues (vals ++ [id]) = some (vals, id) := by
  simp [splitValues]

theorem historyValue_defined (lib : Lib) (body : Body) (f : String)
    (h : (body f).isUndefined = false) : (historyValue lib body f).isUndefined = false := by
  unfold historyValue
  split
  · rfl
  · exact h

theorem filter_absent {α : Type} (idOf : α → Nat) (id : Option Nat) (rows : List α)
    (h : ∀ r ∈ rows, some (idOf r) ≠ id) :
    rows.filter (fun r => some (idOf r) == id) = [] := by
  simp only [List.filter_eq_nil_iff, beq_iff_eq]
  exact h

theorem historyUpdateStmt_defined (lib : Lib) (req : Req) :
    (historyUpdateStmt lib req).params.any Js.isUndefined = false :=
  defined_values req.body (historyValue lib req.body) historyAllowedFields req.paramId
    (fun f hf => historyValue_defined lib req.body f hf)

theorem historyUpdateStmt_absent (lib : Lib) (req : Req) (db : Db)
    (habsent : ∀ h ∈ db.histories, some h.id ≠ sqlId (.str req.paramId)) :
    (historyUpdateStmt lib req).run db = .ok (Result.header 0 0, db) := by
  simp only [historyUpdateStmt, Stmt.run, splitValues_append, List.length_map, ne_eq,
    not_true_eq_false, if_false,
    updateRows_absent History.id setHistoryCol _ _ db.histories habsent,
    filter_absent History.id _ db.histories habsent, List.length_nil]

theorem updateHistory_absent (lib : Lib) (req : Req) (db : Db)
    (hquiet : db.sched = []) (hvalid : historyUpdateErrors lib req.body = [])
    (hsome : definedFields req.body historyAllowedFields ≠ [])
    (habsent : ∀ h ∈ db.histories, some h.id ≠ sqlId (.str req.paramId)) :
    updateHistory lib req db =
      (⟨404, errorBody "Historia clínica no encontrada"⟩, db.logged (historyUpdateStmt lib req)) := by
  have hset := collectFields_eq req.body (historyValue lib req.body) historyAllowedFields ([], [])
  have hlen : ((List.filter (fun f => !(req.body f).isUndefined) historyAllowedFields).map
      (fun f => f ++ " = ?")).length ≠ 0 := by
    simpa [definedFields] using hsome
  have hexec : execute (historyUpdateStmt lib req) db =
      (.ok (Result.header 0 0), db.logged (historyUpdateStmt lib req)) :=
    execute_quiet_ok (historyUpdateStmt lib req) db (db.logged (historyUpdateStmt lib req))
      (Result.header 0 0) hquiet (historyUpdateStmt_defined lib req)
      (historyUpdateStmt_absent lib req (db.logged (historyUpdateStmt lib req)) habsent)
  unfold historyUpdateStmt definedFields at hexec
  unfold updateHistory
  simp only [hvalid, List.isEmpty_nil, Bool.not_true, Bool.false_eq_true, if_false, hset,
    List.nil_append, hlen, hexec, Result.header, if_true]
  rfl

/-! ## Lemmas: creating a clinical history, soft delete and patient validation -/

theorem historyCreateErrors_eq_nil (lib : Lib) (body : Body) :
    historyCreateErrors lib body = [] ↔
      (lib.passes isInt (body "patient_id") = true ∧
       lib.passes notEmpty (body "reason_for_visit") = true ∧
       lib.passesOptional lib.isDate (body "next_appointment") = true) := by
  simp only [historyCreateErrors, List.append_eq_nil, failing_eq_nil, failingOptional_eq_nil]
  tauto

theorem isInt_defined (lib : Lib) (v : Js) (h : lib.passes isInt v = true) :
    v.isUndefined = false := by
  cases v <;> first | rfl | (simp [Lib.passes, fieldItems, Lib.toStr, isInt] at h)

/-- The first statement of `POST /api/clinical-history` on a store no other
session touches. -/
theorem selectPatientById_quiet (v : Js) (db : Db) (hquiet : db.sched = [])
    (hdef : v.isUndefined = false) :
    execute (.selectPatientById v) db =
      (.ok (Result.ofPatients (db.patients.filter (fun p => some p.id == sqlId v))),
        db.logged (.selectPatientById v)) :=
  execute_quiet_ok (.selectPatientById v) db _ _ hquiet (by simp [Stmt.params, hdef]) rfl

theorem createHistory_absent (lib : Lib) (req : Req) (db : Db)
    (hquiet : db.sched = []) (hvalid : historyCreateErrors lib req.body = [])
    (hnone : ∀ p ∈ db.patients, some p.id ≠ sqlId (req.body "patient_id")) :
    createHistory lib req db =
      (⟨404, errorBody "Paciente no encontrado"⟩,
        db.logged (.selectPatientById (req.body "patient_id"))) := by
  have hdef := isInt_defined lib _ ((historyCreateErrors_eq_nil lib req.body).mp hvalid).1
  have hfil : db.patients.filter (fun p => some p.id == sqlId (req.body "patient_id")) = [] := by
    simp only [List.filter_eq_nil_iff, beq_iff_eq]
    exact hnone
  simp only [createHistory, hvalid, List.isEmpty_nil, Bool.not_true, Bool.false_eq_true,
    if_false, selectPatientById_quiet _ db hquiet hdef, Result.ofPatients, hfil,
    List.length_nil, if_true]

theorem createHistory_undefined (lib : Lib) (req : Req) (db : Db) (userId : Nat)
    (hquiet : db.sched = []) (hvalid : historyCreateErrors lib req.body = [])
    (huser : req.user = some userId)
    (hpatient : ∃ p ∈ db.patients, some p.id = sqlId (req.body "patient_id"))
    (hundef : (historyData lib req.body (.num userId)).any Js.isUndefined = true) :
    createHistory lib req db =
      (⟨500, errorBody "Error creando historia clínica"⟩,
        db.logged (.selectPatientById (req.body "patient_id"))) := by
  have hdef := isInt_defined lib _ ((historyCreateErrors_eq_nil lib req.body).mp hvalid).1
  have hlen : (db.patients.filter
      (fun p => some p.id == sqlId (req.body "patient_id"))).length ≠ 0 := by
    obtain ⟨p, hp, hid⟩ := hpatient
    apply Nat.pos_iff_ne_zero.mp
    apply List.length_pos_of_mem (a := p)
    simp [List.mem_filter, hp, hid]
  have hexec : execute (.insertHistory (historyData lib req.body (.num userId)))
      (db.logged (.selectPatientById (req.body "patient_id"))) =
      (.error ⟨"TypeError",
        "Bind parameters must not contain undefined. To pass SQL NULL specify JS null"⟩,
        db.logged (.selectPatientById (req.body "patient_id"))) := by
    simp only [execute, Stmt.params, hundef, if_true]
  simp only [createHistory, hvalid, List.isEmpty_nil, Bool.not_true, Bool.false_eq_true,
    if_false, selectPatientById_quiet _ db hquiet hdef, Result.ofPatients, hlen, huser, hexec]

theorem createHistory_inserts (lib : Lib) (req : Req) (db : Db) (userId : Nat) (row : History)
    (hquiet : db.sched = []) (hvalid : historyCreateErrors lib req.body = [])
    (huser : req.user = some userId)
    (hpatient : ∃ p ∈ db.patients, some p.id = sqlId (req.body "patient_id"))
    (hauthor : ∃ u ∈ db.users, u.id = userId)
    (hdefined : (historyData lib req.body (.num userId)).any Js.isUndefined = false)
    (hrow : newHistory db.nextHistoryId (historyData lib req.body (.num userId)) = some row) :
    row.doctor_id = userId ∧ some row.patient_id = sqlId (req.body "patient_id") ∧
    createHistory lib req db =
      (historyCreated db.nextHistoryId,
        { db with
          histories := db.histories ++ [row]
          nextHistoryId := db.nextHistoryId + 1
          log := db.log ++ [.selectPatientById (req.body "patient_id"),
            .insertHistory (historyData lib req.body (.num userId))] }) := by
  have hdef := isInt_defined lib _ ((historyCreateErrors_eq_nil lib req.body).mp hvalid).1
  have hlen : (db.patients.filter
      (fun p => some p.id == sqlId (req.body "patient_id"))).length ≠ 0 := by
    obtain ⟨p, hp, hid⟩ := hpatient
    apply Nat.pos_iff_ne_zero.mp
    apply List.length_pos_of_mem (a := p)
    simp [List.mem_filter, hp, hid]
  have hfacts : row.doctor_id = userId ∧ some row.patient_id = sqlId (req.body "patient_id") := by
    simp only [historyData, newHistory] at hrow
    obtain ⟨pid, hpid, hrow⟩ := Option.bind_eq_some.mp hrow
    obtain ⟨did, hdid, hrow⟩ := Option.bind_eq_some.mp hrow
    obtain ⟨a, _, hrow⟩ := Option.bind_eq_some.mp hrow
    obtain ⟨b, _, hrow⟩ := Option.bind_eq_some.mp hrow
    obtain ⟨c, _, hrow⟩ := Option.bind_eq_some.mp hrow
    obtain ⟨d, _, hrow⟩ := Option.bind_eq_some.mp hrow
    obtain ⟨e, _, hrow⟩ := Option.bind_eq_some.mp hrow
    obtain ⟨f, _, hrow⟩ := Option.bind_eq_some.mp hrow
    obtain ⟨g, _, hrow⟩ := Option.bind_eq_some.mp hrow
    obtain ⟨h, _, hrow⟩ := Option.bind_eq_some.mp hrow
    rw [sqlId_num] at hdid
    cases hrow
    cases hdid
    exact ⟨rfl, hpid.symm⟩
  refine ⟨hfacts.1, hfacts.2, ?_⟩
  have hp : (db.patients.any (fun p => p.id == row.patient_id)) = true := by
    obtain ⟨p, hp, hid⟩ := hpatient
    rw [← hfacts.2] at hid
    simp only [List.any_eq_true, beq_iff_eq]
    exact ⟨p, hp, Option.some.inj hid⟩
  have hu : (db.users.any (fun u => u.id == row.doctor_id)) = true := by
    obtain ⟨u, hu, hid⟩ := hauthor
    simp only [List.any_eq_true, beq_iff_eq]
    exact ⟨u, hu, by rw [hfacts.1, hid]⟩
  have hexec := execute_quiet_ok (.insertHistory (historyData lib req.body (.num userId)))
    (db.logged (.selectPatientById (req.body "patient_id")))
    { db with
      histories := db.histories ++ [row]
      nextHistoryId := db.nextHistoryId + 1
      log := db.log ++ [.selectPatientById (req.body "patient_id"),
        .insertHistory (historyData lib req.body (.num userId))] }
    (Result.header db.nextHistoryId 1) (by simpa using hquiet) hdefined
    (by
      have hrow1 : newHistory
          ((db.logged (.selectPatientById (req.body "patient_id"))).logged
            (.insertHistory (historyData lib req.body (.num userId)))).nextHistoryId
          (historyData lib req.body (.num userId)) = some row := hrow
      simp only [Stmt.run, hrow1]
      simp [Db.logged, hp, hu])
  simp only [createHistory, hvalid, List.isEmpty_nil, Bool.not_true, Bool.false_eq_true,
    if_false, selectPatientById_quiet _ db hquiet hdef, Result.ofPatients, hlen, huser, hexec,
    Result.header]

theorem distinctKeys_unique {α : Type} (key : α → String) (rows : List α)
    (h : distinctKeys key rows = true) (a b : α) (ha : a ∈ rows) (hb : b ∈ rows)
    (hk : key a = key b) : a = b := by
  induction rows with
  | nil => cases ha
  | cons r rest ih =>
    simp only [distinctKeys, Bool.and_eq_true, Bool.not_eq_true', List.any_eq_false,
      beq_iff_eq] at h
    rcases List.mem_cons.mp ha with ha1 | ha1
    · rcases List.mem_cons.mp hb with hb1 | hb1
      · rw [ha1, hb1]
      · exact absurd (by rw [← hk, ha1]) (h.1 b hb1)
    · rcases List.mem_cons.mp hb with hb1 | hb1
      · exact absurd (by rw [hk, hb1]) (h.1 a ha1)
      · exact ih h.2 ha1 hb1

theorem deleteUser_of_quiet (req : Req) (db : Db) (admin : Nat)
    (hquiet : db.sched = []) (huser : req.user = some admin)
    (hrole : db.storedRole admin = some "admin") :
    deleteUser req db =
      (⟨200, messageBody "Usuario desactivado exitosamente"⟩,
        { db with
          users := db.users.map (deactivate db.clock (sqlId (.str req.paramId)))
          log := db.log ++
            [.selectRoleById (.num admin), .deactivateUser (.str req.paramId)] }) := by
  unfold deleteUser
  rw [guarded_next ["admin"] deleteUserHandler req db _
    (authorize_pass_of_quiet ["admin"] req db admin "admin" hquiet huser hrole (by simp))]
  unfold deleteUserHandler
  rw [execute_quiet_ok (.deactivateUser (.str req.paramId))
    (db.logged (.selectRoleById (.num admin))) _ _ (by simpa using hquiet)
    (by simp [Stmt.params, Js.isUndefined]) rfl]
  simp [Db.logged]

theorem patientCreateErrors_eq_nil (lib : Lib) (body : Body) :
    patientCreateErrors lib body = [] ↔
      (lib.passes notEmpty (body "identification") = true ∧
       lib.passes (isIn ["CC", "CE", "TI", "PASAPORTE", "OTRO"]) (body "document_type") = true ∧
       lib.passes notEmpty (body "first_name") = true ∧
       lib.passes notEmpty (body "last_name") = true ∧
       lib.passes lib.isDate (body "date_of_birth") = true ∧
       lib.passes (isIn ["M", "F", "Otro"]) (body "gender") = true) := by
  simp only [patientCreateErrors, List.append_eq_nil, failing_eq_nil, failingOptional_eq_nil]
  tauto

/-! ## Lemmas: user update and soft delete of an absent id -/

theorem truthy_defined (v : Js) (h : v.truthy = true) : v.isUndefined = false := by
  cases v <;> first | rfl | (simp [Js.truthy] at h)

theorem pushIf_length (cond : Bool) (clause : String) (v : Js) (acc : List String × List Js)
    (h : acc.1.length = acc.2.length) :
    (pushIf cond clause v acc).1.length = (pushIf cond clause v acc).2.length := by
  unfold pushIf
  split
  · simp [h]
  · exact h

theorem pushIf_defined (cond : Bool) (clause : String) (v : Js) (acc : List String × List Js)
    (hv : cond = true → v.isUndefined = false) (h : acc.2.any Js.isUndefined = false) :
    (pushIf cond clause v acc).2.any Js.isUndefined = false := by
  unfold pushIf
  split
  · rename_i hc
    simp only [List.any_append, h, List.any_cons, hv hc, List.any_nil, Bool.or_false]
  · exact h

theorem userUpdateSet_length (name email role is_active : Js) :
    (userUpdateSet name email role is_active).1.length =
      (userUpdateSet name email role is_active).2.length :=
  pushIf_length _ _ _ _ (pushIf_length _ _ _ _ (pushIf_length _ _ _ _
    (pushIf_length _ _ _ _ rfl)))

theorem userUpdateSet_defined (name email role is_active : Js) :
    (userUpdateSet name email role is_active).2.any Js.isUndefined = false :=
  pushIf_defined _ _ _ _ (fun h => by simpa using h)
    (pushIf_defined _ _ _ _ (truthy_defined role)
      (pushIf_defined _ _ _ _ (truthy_defined email)
        (pushIf_defined _ _ _ _ (truthy_defined name) rfl)))

theorem userUpdateSet_nil (name email role is_active : Js) :
    (userUpdateSet name email role is_active).1 = [] ↔
      (name.truthy = false ∧ email.truthy = false ∧ role.truthy = false ∧
        is_active.isUndefined = true) := by
  cases hn : name.truthy <;> cases he : email.truthy <;> cases hr : role.truthy <;>
    cases ha : is_active.isUndefined <;> simp [userUpdateSet, pushIf, hn, he, hr, ha]

theorem updateUsers_absent (updates : List String) (vals : List Js) (id : Js) (db : Db)
    (hlen : updates.length = vals.length)
    (habsent : ∀ u ∈ db.users, some u.id ≠ sqlId id) :
    (Stmt.updateUsers updates (vals ++ [id])).run db = .ok (Result.header 0 0, db) := by
  simp only [Stmt.run, splitValues_append, hlen, ne_eq, not_true_eq_false, if_false,
    updateRows_absent User.id setUserCol _ _ db.users habsent,
    filter_absent User.id _ db.users habsent, List.length_nil, Bool.and_not_self,
    Bool.false_eq_true, zipWith_stamp_self]

theorem updateUserHandler_absent (lib : Lib) (req : Req) (db : Db)
    (hquiet : db.sched = []) (hvalid : userUpdateErrors lib req.body = [])
    (hsome : (userUpdateOf lib req).1 ≠ [])
    (habsent : ∀ u ∈ db.users, some u.id ≠ sqlId (.str req.paramId)) :
    updateUserHandler lib req db =
      (⟨200, messageBody "Usuario actualizado exitosamente"⟩,
        db.logged (.updateUsers (userUpdateOf lib req).1
          ((userUpdateOf lib req).2 ++ [.str req.paramId]))) := by
  have hlen : (userUpdateOf lib req).1.length ≠ 0 := by
    simpa using hsome
  have hexec : execute (.updateUsers (userUpdateOf lib req).1
        ((userUpdateOf lib req).2 ++ [Js.str req.paramId])) db =
      (.ok (Result.header 0 0), db.logged (.updateUsers (userUpdateOf lib req).1
        ((userUpdateOf lib req).2 ++ [Js.str req.paramId]))) :=
    execute_quiet_ok
      (.updateUsers (userUpdateOf lib req).1 ((userUpdateOf lib req).2 ++ [Js.str req.paramId]))
      db (db.logged (.updateUsers (userUpdateOf lib req).1
        ((userUpdateOf lib req).2 ++ [Js.str req.paramId]))) (Result.header 0 0) hquiet
      (by
        simp only [Stmt.params, List.any_append, List.any_cons, List.any_nil, Js.isUndefined,
          Bool.or_false]
        exact userUpdateSet_defined _ _ _ _)
      (updateUsers_absent (userUpdateOf lib req).1 (userUpdateOf lib req).2
        (Js.str req.paramId)
        (db.logged (.updateUsers (userUpdateOf lib req).1
          ((userUpdateOf lib req).2 ++ [Js.str req.paramId])))
        (userUpdateSet_length _ _ _ _) habsent)
  unfold userUpdateOf at hlen hexec
  unfold updateUserHandler
  simp only [hvalid, List.isEmpty_nil, Bool.not_true, Bool.false_eq_true, if_false, hlen, hexec]
  rfl

theorem updateUserHandler_status (lib : Lib) (req : Req) (db : Db) :
    (updateUserHandler lib req db).1.status ∈ [200, 400, 500] := by
  unfold updateUserHandler
  simp only []
  split
  · simp
  · split
    · simp
    · split <;> simp

theorem deleteUserHandler_status (req : Req) (db : Db) :
    (deleteUserHandler req db).1.status ∈ [200, 500] := by
  unfold deleteUserHandler
  split <;> simp

theorem deleteUser_absent (req : Req) (db : Db) (admin : Nat)
    (hquiet : db.sched = []) (huser : req.user = some admin)
    (hrole : db.storedRole admin = some "admin")
    (habsent : ∀ u ∈ db.users, some u.id ≠ sqlId (.str req.paramId)) :
    (deleteUser req db).2.users = db.users := by
  rw [deleteUser_of_quiet req db admin hquiet huser hrole]
  show db.users.map (deactivate db.clock (sqlId (.str req.paramId))) = db.users
  conv_rhs => rw [← List.map_id db.users]
  apply List.map_congr_left
  intro u hu
  simp [deactivate, habsent u hu]

/-- The four routes of patients and clinical histories that look at
`affectedRows` answer 404 for an id that is not on file, at the clinic. -/
theorem absent_patient_and_history_answer_404 :
    (updatePatient demoLib (requestOf 1 "99" [("phone", .str "555")]) clinic).1 =
      ⟨404, errorBody "Paciente no encontrado"⟩ ∧
    (deletePatient (requestOf 1 "99" []) clinic).1 = ⟨404, errorBody "Paciente no encontrado"⟩ ∧
    (updateHistory demoLib (requestOf 1 "99" [("symptoms", .str "Tos")]) clinic).1 =
      ⟨404, errorBody "Historia clínica no encontrada"⟩ ∧
    (deleteHistory (requestOf 1 "99" []) clinic).1 =
      ⟨404, errorBody "Historia clínica no encontrada"⟩ :=
  ⟨rfl, rfl, rfl, rfl⟩

/-! ## Lemmas: what the soft delete leaves of a row -/

theorem stamp_is_active (clock : Nat) (old new : User) :
    (stamp clock old new).is_active = new.is_active := by
  unfold stamp
  split
  · rename_i h
    rw [h]
  · rfl

theorem deactivate_email (clock : Nat) (id : Option Nat) (u : User) :
    (deactivate clock id u).email = u.email := by
  unfold deactivate
  split
  · exact stamp_email clock u _ rfl
  · rfl

theorem deactivate_match (clock : Nat) (id : Option Nat) (u : User) (h : some u.id = id) :
    (deactivate clock id u).is_active = false := by
  simp [deactivate, h, stamp_is_active]

theorem deactivate_active (clock : Nat) (id : Option Nat) (u : User) (h : some u.id = id)
    (hactive : u.is_active = true) :
    deactivate clock id u = { u with is_active := false, updated_at := clock } := by
  have hne : ({ u with is_active := false } : User) ≠ u := by
    intro heq
    have := congrArg User.is_active heq
    simp [hactive] at this
  simp [deactivate, h, stamp, hne]

theorem deactivate_inactive (clock : Nat) (id : Option Nat) (u : User)
    (hinactive : u.is_active = false) : deactivate clock id u = u := by
  have heq : ({ u with is_active := false } : User) = u := by
    cases u
    simp_all
  unfold deactivate
  split
  · simp [stamp, heq]
  · rfl

theorem deactivate_other (clock : Nat) (id : Option Nat) (u : User) (h : some u.id ≠ id) :
    deactivate clock id u = u := by
  simp [deactivate, h]

/-- A login without password, or with the empty string as password, is
answered 400 by the validation of `POST /api/auth/login`. -/
theorem login_without_password (lib : Lib) (env : Env) (now : Nat) (req : Req) (db : Db)
    (h : req.body "password" = .undefined ∨ req.body "password" = .str "") :
    (login lib env now req db).1.status = 400 ∧ (login lib env now req db).2 = db := by
  have herr : (loginErrors lib req.body).isEmpty = false := by
    rcases h with h | h <;>
      simp [loginErrors, h, Lib.failing, fieldItems, Lib.toStr, notEmpty]
  simp [login, herr]

/-! ## Claims -/

/-- C1. For every list of allowed roles and every request that carries a user
id, `authorize(...roles)` does exactly one of four things, decided by the
store: 500 when the query throws, 404 when no row has that id, 403 when the
stored role is not in the list, `next()` when it is; and `next()` is called in
no other case. -/
theorem authorize_exactly_one (roles : List String) (req : Req) (userId : Nat) (db : Db)
    (huser : req.user = some userId) :
    (db.slot.fault.isSome = true →
      (authorize roles req db).1 = .respond ⟨500, errorBody "Error verificando permisos"⟩) ∧
    (db.slot.fault = none → db.arrive.storedRole userId = none →
      (authorize roles req db).1 = .respond ⟨404, errorBody "Usuario no encontrado"⟩) ∧
    (db.slot.fault = none → ∀ role, db.arrive.storedRole userId = some role → role ∉ roles →
      (authorize roles req db).1 =
        .respond ⟨403, errorBody "No tienes permisos para esta acción"⟩) ∧
    (db.slot.fault = none → ∀ role, db.arrive.storedRole userId = some role → role ∈ roles →
      (authorize roles req db).1 = .next) ∧
    ((authorize roles req db).1 = .next ↔
      db.slot.fault = none ∧
        ∃ role, db.arrive.storedRole userId = some role ∧ role ∈ roles) := by
  rw [authorize_eq, huser]
  cases hf : db.slot.fault with
  | some e => simp
  | none =>
    cases hr : db.arrive.storedRole userId with
    | none => simp [hr]
    | some role => by_cases hm : role ∈ roles <;> simp [hr, hm]

/-- The four outcomes of C1 at the clinic: the administrator passes the admin
guard, the receptionist is refused, an unknown id is not found, and a lost
connection gives 500. -/
theorem authorize_exactly_one_witness :
    (authorize ["admin"] (requestOf 1 "" []) clinic).1 = .next ∧
    (authorize ["admin"] (requestOf 2 "" []) clinic).1 =
      .respond ⟨403, errorBody "No tienes permisos para esta acción"⟩ ∧
    (authorize ["admin"] (requestOf 9 "" []) clinic).1 =
      .respond ⟨404, errorBody "Usuario no encontrado"⟩ ∧
    (authorize ["admin"] (requestOf 1 "" []) offline).1 =
      .respond ⟨500, errorBody "Error verificando permisos"⟩ :=
  ⟨(authorize_exactly_one ["admin"] (requestOf 1 "" []) 1 clinic rfl).2.2.2.1 rfl "admin" rfl
      (by decide),
   (authorize_exactly_one ["admin"] (requestOf 2 "" []) 2 clinic rfl).2.2.1 rfl "recepcionista"
      rfl (by decide),
   (authorize_exactly_one ["admin"] (requestOf 9 "" []) 9 clinic rfl).2.1 rfl rfl,
   (authorize_exactly_one ["admin"] (requestOf 1 "" []) 1 offline rfl).1 rfl⟩

/-- C2. The outcome of `authorize` is the same for any two requests with the
same user id, whatever token, path or body they carry. On a store no other
session touches, when an administrator's `PUT /api/users/:id` with body
`{ role: 'admin' }` names a user whose stored role is `recepcionista`, that
user is refused by `authorize('admin')` before the update, the update answers
200, and the user's next request passes `authorize('admin')`. -/
theorem role_change_effective (lib : Lib) (db : Db) (admin target : Nat) (upd next : Req)
    (hquiet : db.sched = [])
    (hadmin : upd.user = some admin) (hrole : db.storedRole admin = some "admin")
    (hid : sqlId (.str upd.paramId) = some target)
    (hname : upd.body "name" = .undefined) (hemail : upd.body "email" = .undefined)
    (hactive : upd.body "is_active" = .undefined) (hnew : upd.body "role" = .str "admin")
    (hbefore : db.storedRole target = some "recepcionista")
    (hnext : next.user = some target) :
    (∀ (roles : List String) (r1 r2 : Req) (d : Db), r1.user = r2.user →
      authorize roles r1 d = authorize roles r2 d) ∧
    (authorize ["admin"] next db).1 =
      .respond ⟨403, errorBody "No tienes permisos para esta acción"⟩ ∧
    (updateUser lib upd db).1 = ⟨200, messageBody "Usuario actualizado exitosamente"⟩ ∧
    (authorize ["admin"] next (updateUser lib upd db).2).1 = .next := by
  refine ⟨?_, ?_, ?_⟩
  · intro roles r1 r2 d h
    simp [authorize, h]
  · simp [authorize_eq, hnext, slot_of_quiet db hquiet, arrive_of_quiet db hquiet, hbefore]
  · have hex := exists_of_storedRole db target "recepcionista" hbefore
    have hupd : updateUser lib upd db =
        (⟨200, messageBody "Usuario actualizado exitosamente"⟩,
          { db with
            users := db.users.map (fun u => stamp db.clock u (promote target "admin" u))
            log := db.log ++ [.selectRoleById (.num admin),
              .updateUsers ["role = ?"] [.str "admin", .str upd.paramId]] }) := by
      rw [updateUser, guarded_next _ _ _ _ _
        (authorize_pass_of_quiet ["admin"] upd db admin "admin" hquiet hadmin hrole (by simp))]
      have hset : userUpdateSet (lib.sanitizeOptional lib.trim (upd.body "name"))
          (lib.sanitizeOptional lib.normalizeEmail (upd.body "email")) (upd.body "role")
          (upd.body "is_active") = (["role = ?"], [.str "admin"]) := by
        simp [userUpdateSet, pushIf, hname, hemail, hactive, hnew, Lib.sanitizeOptional,
          Js.isUndefined, Js.truthy]
      have herr : userUpdateErrors lib upd.body = [] := by
        simp [userUpdateErrors, hname, hemail, hactive, hnew, passesOptional_undefined,
          passesOptional_str, failingOptional_eq_nil, isIn]
      simp only [updateUserHandler, hset, herr]
      rw [execute_quiet_ok (.updateUsers ["role = ?"] ([Js.str "admin"] ++ [Js.str upd.paramId]))
        (db.logged (.selectRoleById (.num admin)))
        { db with
          users := db.users.map (fun u => stamp db.clock u (promote target "admin" u))
          log := db.log ++ [.selectRoleById (.num admin),
            .updateUsers ["role = ?"] [.str "admin", .str upd.paramId]] }
        (Result.header 0 (db.users.filter (fun u => some u.id == some target)).length)
        (by simpa using hquiet) (by simp [Stmt.params, Js.isUndefined])
        (by simp [Stmt.run, splitValues, hid, updateRows_role,
          distinctKeys_map_email _ (promote_email target "admin"), Db.logged,
          zipWith_stamp_map])]
      rfl
    rw [hupd]
    refine ⟨rfl, ?_⟩
    have h := authorize_pass_of_quiet ["admin"] next
      { db with
        users := db.users.map (fun u => stamp db.clock u (promote target "admin" u))
        log := db.log ++ [.selectRoleById (.num admin),
          .updateUsers ["role = ?"] [.str "admin", .str upd.paramId]] }
      target "admin" hquiet hnext
      (rowsOf_head_map target "admin" (fun u => stamp db.clock u (promote target "admin" u))
        (fun u => stamp_id db.clock u _ (promote_id target "admin" u))
        (fun u hu => by rw [stamp_role]; exact promote_role target "admin" u hu)
        db.users hex) (by simp)
    exact congrArg Prod.fst h

/-- C2 at the clinic: Ana promotes Luis, whose next request passes the admin
guard that refused him before. -/
theorem role_change_effective_witness :
    (authorize ["admin"] (requestOf 2 "" []) clinic).1 =
      .respond ⟨403, errorBody "No tienes permisos para esta acción"⟩ ∧
    (updateUser demoLib (requestOf 1 "2" [("role", .str "admin")]) clinic).1 =
      ⟨200, messageBody "Usuario actualizado exitosamente"⟩ ∧
    (authorize ["admin"] (requestOf 2 "" [])
      (updateUser demoLib (requestOf 1 "2" [("role", .str "admin")]) clinic).2).1 = .next :=
  (role_change_effective demoLib clinic 1 2 (requestOf 1 "2" [("role", .str "admin")])
    (requestOf 2 "" []) rfl rfl rfl rfl rfl rfl rfl rfl rfl rfl).2

/-- C3. Whatever else goes on at the store, `DELETE /api/patients/:id` and
`DELETE /api/clinical-history/:id` hand a DELETE to the store only if the role
stored for the authenticated user, when the role query arrives, is exactly
`admin`. On a store no other session touches: an admin's request issues the
role query and then the DELETE; for any other stored role, a missing user or
a request without user, the tables of patients and histories stay as they
were. -/
theorem delete_only_for_admin (req : Req) (db : Db) :
    ((∃ q ∈ issued db (deletePatient req db).2, q.isDelete = true) →
      ∃ userId, req.user = some userId ∧ db.arrive.storedRole userId = some "admin") ∧
    ((∃ q ∈ issued db (deleteHistory req db).2, q.isDelete = true) →
      ∃ userId, req.user = some userId ∧ db.arrive.storedRole userId = some "admin") ∧
    (db.sched = [] → ∀ userId, req.user = some userId → db.storedRole userId = some "admin" →
      issued db (deletePatient req db).2 =
        [.selectRoleById (.num userId), .deletePatient (.str req.paramId)] ∧
      issued db (deleteHistory req db).2 =
        [.selectRoleById (.num userId), .deleteHistory (.str req.paramId)]) ∧
    (db.sched = [] → (∀ userId, req.user = some userId → db.storedRole userId ≠ some "admin") →
      (deletePatient req db).2.patients = db.patients ∧
      (deletePatient req db).2.histories = db.histories ∧
      (deleteHistory req db).2.patients = db.patients ∧
      (deleteHistory req db).2.histories = db.histories) := by
  refine ⟨?_, ?_, ?_, ?_⟩
  · simp only [deletePatient, guarded, authorize_eq]
    cases hu : req.user with
    | none => simp [issued_self]
    | some userId =>
      cases hf : db.slot.fault with
      | some e => simp [issued_sent, Stmt.isDelete]
      | none =>
        cases hr : db.arrive.storedRole userId with
        | none => simp [hr, issued_sent, Stmt.isDelete]
        | some role =>
          by_cases hm : role = "admin"
          · simp [hr, hm]
          · simp [hr, hm, issued_sent, Stmt.isDelete]
  · simp only [deleteHistory, guarded, authorize_eq]
    cases hu : req.user with
    | none => simp [issued_self]
    | some userId =>
      cases hf : db.slot.fault with
      | some e => simp [issued_sent, Stmt.isDelete]
      | none =>
        cases hr : db.arrive.storedRole userId with
        | none => simp [hr, issued_sent, Stmt.isDelete]
        | some role =>
          by_cases hm : role = "admin"
          · simp [hr, hm]
          · simp [hr, hm, issued_sent, Stmt.isDelete]
  · intro hquiet userId huser hrole
    exact ⟨guarded_delete_issued deletePatientHandler _ req db userId hquiet huser hrole
        (by simp [Stmt.params, Js.isUndefined]) (deletePatientHandler_store req),
      guarded_delete_issued deleteHistoryHandler _ req db userId hquiet huser hrole
        (by simp [Stmt.params, Js.isUndefined]) (deleteHistoryHandler_store req)⟩
  · intro hq hrole
    simp only [deletePatient, deleteHistory, guarded, authorize_eq]
    cases hu : req.user with
    | none => simp
    | some userId =>
      have hne := hrole userId hu
      simp only [slot_of_quiet db hq, arrive_of_quiet db hq]
      cases hr : db.storedRole userId with
      | none => simp [hr, sent_of_quiet db _ hq, Db.logged]
      | some role =>
        have hm : role ≠ "admin" := by
          intro h
          exact hne (by rw [hr, h])
        simp [hr, hm, sent_of_quiet db _ hq, Db.logged]

/-- C3 at the clinic: the receptionist's DELETE requests leave the patient and
the visit in place, the administrator's reach the store. -/
theorem delete_only_for_admin_witness :
    ((deletePatient (requestOf 2 "1" []) clinic).2.patients = clinic.patients ∧
      (deletePatient (requestOf 2 "1" []) clinic).2.histories = clinic.histories ∧
      (deleteHistory (requestOf 2 "1" []) clinic).2.patients = clinic.patients ∧
      (deleteHistory (requestOf 2 "1" []) clinic).2.histories = clinic.histories) ∧
    (issued clinic (deletePatient (requestOf 1 "1" []) clinic).2 =
        [.selectRoleById (.num 1), .deletePatient (.str "1")] ∧
      issued clinic (deleteHistory (requestOf 1 "1" []) clinic).2 =
        [.selectRoleById (.num 1), .deleteHistory (.str "1")]) :=
  ⟨(delete_only_for_admin (requestOf 2 "1" []) clinic).2.2.2 rfl
      (fun userId h => by cases h; decide),
   (delete_only_for_admin (requestOf 1 "1" []) clinic).2.2.1 rfl 1 rfl rfl⟩

/-- C4. On a store no other session touches, a login with a well-formed email
and a non-empty password (one that passes `notEmpty()` and is truthy), whose
normalized email belongs to a deactivated user and to no active one, is
answered 401 `Usuario desactivado`; that answer is not the generic 401
`Credenciales inválidas`, and its body has no `token`. -/
theorem login_deactivated (lib : Lib) (env : Env) (now : Nat) (req : Req) (db : Db)
    (e : String) (hquiet : db.sched = [])
    (hemail : req.body "email" = .str e) (hwell : lib.isEmail e = true)
    (hnorm : lib.normalizeEmail e ≠ "")
    (hpass : lib.passes notEmpty (req.body "password") = true)
    (htruthy : (req.body "password").truthy = true)
    (hinactive : ∃ u ∈ db.users, u.email = lib.normalizeEmail e ∧ u.is_active = false)
    (hnoactive : ∀ u ∈ db.users, u.email = lib.normalizeEmail e → u.is_active = false) :
    (login lib env now req db).1 = ⟨401, errorBody "Usuario desactivado"⟩ ∧
    (login lib env now req db).1 ≠ ⟨401, errorBody "Credenciales inválidas"⟩ ∧
    (login lib env now req db).1.body.field "token" = .undefined := by
  have hact : db.users.filter (fun u => u.email == lib.normalizeEmail e && u.is_active) = [] := by
    rw [List.filter_eq_nil_iff]
    intro u hu
    by_cases h : u.email = lib.normalizeEmail e
    · simp [h, hnoactive u hu h]
    · simp [h]
  have hin : (db.users.filter
      (fun u => u.email == lib.normalizeEmail e && !u.is_active)).length > 0 := by
    obtain ⟨u, hu, hue, hua⟩ := hinactive
    apply List.length_pos_of_mem (a := u)
    simp [List.mem_filter, hu, hue, hua]
  have h := login_of_quiet lib env now req db e hquiet hemail hwell hnorm hpass htruthy
  simp only [hact, hin, if_true] at h
  rw [h]
  refine ⟨rfl, ?_, rfl⟩
  simp [deactivated, errorBody]

/-- C4 at the clinic: Marta, whose account is deactivated, logs in. -/
theorem login_deactivated_witness :
    (login demoLib demoEnv 0
      (publicRequest [("email", .str "marta@ips.co"), ("password", .str "medico99")]) clinic).1 =
      ⟨401, errorBody "Usuario desactivado"⟩ ∧
    (login demoLib demoEnv 0
      (publicRequest [("email", .str "marta@ips.co"), ("password", .str "medico99")]) clinic).1 ≠
      ⟨401, errorBody "Credenciales inválidas"⟩ ∧
    (login demoLib demoEnv 0
      (publicRequest [("email", .str "marta@ips.co"), ("password", .str "medico99")])
      clinic).1.body.field "token" = .undefined :=
  login_deactivated demoLib demoEnv 0
    (publicRequest [("email", .str "marta@ips.co"), ("password", .str "medico99")]) clinic
    "marta@ips.co" rfl rfl rfl (by decide) rfl rfl ⟨marta, by decide, rfl, rfl⟩ (by decide)

/-- Login does not tell a wrong email from a wrong password as long as the
passwords are strings: on a store no other session touches, a login whose
email belongs to no user and a login whose email belongs to an active user but
whose password matches no stored hash for that email get the same answer, the
401 `Credenciales inválidas`. -/
theorem login_same_answer_for_strings (lib : Lib) (env : Env) (now1 now2 : Nat) (r1 r2 : Req)
    (db : Db) (e1 pw1 e2 pw2 : String) (hquiet : db.sched = [])
    (hemail1 : r1.body "email" = .str e1) (hwell1 : lib.isEmail e1 = true)
    (hnorm1 : lib.normalizeEmail e1 ≠ "")
    (hpass1 : r1.body "password" = .str pw1) (hpw1 : pw1 ≠ "")
    (hemail2 : r2.body "email" = .str e2) (hwell2 : lib.isEmail e2 = true)
    (hnorm2 : lib.normalizeEmail e2 ≠ "")
    (hpass2 : r2.body "password" = .str pw2) (hpw2 : pw2 ≠ "")
    (hunknown : ∀ u ∈ db.users, u.email ≠ lib.normalizeEmail e1)
    (hknown : ∃ u ∈ db.users, u.email = lib.normalizeEmail e2 ∧ u.is_active = true)
    (hwrong : ∀ u ∈ db.users, u.email = lib.normalizeEmail e2 →
      lib.bcryptCompare pw2 u.password = false) :
    (login lib env now1 r1 db).1 = (login lib env now2 r2 db).1 ∧
    (login lib env now1 r1 db).1 = ⟨401, errorBody "Credenciales inválidas"⟩ := by
  have h1 := login_of_quiet lib env now1 r1 db e1 hquiet hemail1 hwell1 hnorm1
    (by rw [hpass1]; exact passes_notEmpty_str lib pw1 hpw1)
    (by rw [hpass1]; exact truthy_str pw1 hpw1)
  have h2 := login_of_quiet lib env now2 r2 db e2 hquiet hemail2 hwell2 hnorm2
    (by rw [hpass2]; exact passes_notEmpty_str lib pw2 hpw2)
    (by rw [hpass2]; exact truthy_str pw2 hpw2)
  have hnone : ∀ c : User → Bool,
      db.users.filter (fun u => u.email == lib.normalizeEmail e1 && c u) = [] := by
    intro c
    rw [List.filter_eq_nil_iff]
    intro u hu
    simp [hunknown u hu]
  rw [hnone, hnone] at h1
  have hr1 : (login lib env now1 r1 db).1 = invalidCredentials := by simpa using h1
  have hr2 : (login lib env now2 r2 db).1 = invalidCredentials := by
    rw [h2]
    cases hf : db.users.filter (fun u => u.email == lib.normalizeEmail e2 && u.is_active) with
    | nil =>
      obtain ⟨u, hu, hue, hua⟩ := hknown
      have : u ∈ db.users.filter (fun u => u.email == lib.normalizeEmail e2 && u.is_active) := by
        simp [List.mem_filter, hu, hue, hua]
      rw [hf] at this
      simp at this
    | cons user rest =>
      have hmem : user ∈ db.users.filter
          (fun u => u.email == lib.normalizeEmail e2 && u.is_active) := by simp [hf]
      rw [List.mem_filter] at hmem
      have hue : user.email = lib.normalizeEmail e2 := by
        have := hmem.2
        simp at this
        exact this.1
      simp [hpass2, passwordAnswer, hwrong user hmem.1 hue]
  exact ⟨hr1.trans hr2.symm, hr1⟩

/-- C5 fails on the code. At the clinic, two logins with the JSON number 12345
as password pass validation; the one with an email of no user is answered 401
`Credenciales inválidas`, the one with Ana's email reaches `bcrypt.compare`,
which rejects a number, and is answered 500: the two answers differ in status
and body, so they tell a registered active email from an unknown one. -/
theorem login_tells_emails_apart :
    loginErrors demoLib (bodyOf [("email", .str "nadie@ips.co"), ("password", .num 12345)]) = [] ∧
    loginErrors demoLib (bodyOf [("email", .str "ana@ips.co"), ("password", .num 12345)]) = [] ∧
    (∀ u ∈ clinic.users, u.email ≠ "nadie@ips.co") ∧
    (∀ u ∈ clinic.users, u.email = "ana@ips.co" → u.is_active = true ∧
      demoLib.bcryptCompare "12345" u.password = false) ∧
    (login demoLib demoEnv 0
      (publicRequest [("email", .str "nadie@ips.co"), ("password", .num 12345)]) clinic).1 =
      ⟨401, errorBody "Credenciales inválidas"⟩ ∧
    (login demoLib demoEnv 0
      (publicRequest [("email", .str "ana@ips.co"), ("password", .num 12345)]) clinic).1 =
      ⟨500, errorDetails "Error interno del servidor" "Illegal arguments: number, string"⟩ ∧
    (login demoLib demoEnv 0
      (publicRequest [("email", .str "nadie@ips.co"), ("password", .num 12345)]) clinic).1.status ≠
    (login demoLib demoEnv 0
      (publicRequest [("email", .str "ana@ips.co"), ("password", .num 12345)]) clinic).1.status :=
  ⟨rfl, rfl, by decide, by decide, rfl, rfl, by decide⟩

/-- C6. Assume `jsonwebtoken` signs with, and verifies what it signed with, a
secret that is not empty (`Lib.JwtSound`); the secret of the code,
`process.env.JWT_SECRET || 'ips_fulano_secret_key_2024'`, never is empty. On a
store no other session touches, a login with the email of an active user (the
only row with that email) and a password that `bcrypt.compare` accepts for the
stored hash is answered 200, and the `token` of the body, given to
`verifyToken` in the same environment before thirty days have passed, yields a
payload whose `userId` is that user's id. For every id, `generateToken(id)`
returns a token, and `verifyToken` of it before expiry yields `userId = id`. -/
theorem login_token_verifies (lib : Lib) (env : Env) (now : Nat) (req : Req) (db : Db)
    (e pw : String) (u : User) (hsound : lib.JwtSound) (hquiet : db.sched = [])
    (hemail : req.body "email" = .str e) (hwell : lib.isEmail e = true)
    (hnorm : lib.normalizeEmail e ≠ "")
    (hpass : req.body "password" = .str pw) (hpw : pw ≠ "")
    (hu : u ∈ db.users) (hue : u.email = lib.normalizeEmail e) (hactive : u.is_active = true)
    (hunique : ∀ v ∈ db.users, v.email = u.email → v = u)
    (hmatch : lib.bcryptCompare pw u.password = true) :
    (login lib env now req db).1.status = 200 ∧
    (∃ token, (login lib env now req db).1.body.field "token" = .str token ∧
      ∀ later, later < now + thirtyDays →
        ∃ claims, verifyToken lib env later token = .ok claims ∧ claims.userId = u.id) ∧
    (∀ id issuedAt, ∃ token, generateToken lib env issuedAt id = .ok token ∧
      ∀ later, later < issuedAt + thirtyDays →
        ∃ claims, verifyToken lib env later token = .ok claims ∧ claims.userId = id) ∧
    jwtSecret env ≠ "" := by
  have hver : ∀ id issuedAt, ∃ token, generateToken lib env issuedAt id = .ok token ∧
      ∀ later, later < issuedAt + thirtyDays →
        ∃ claims, verifyToken lib env later token = .ok claims ∧ claims.userId = id := by
    intro id issuedAt
    obtain ⟨token, hgen, hok⟩ := generateToken_verifies lib env hsound issuedAt id
    exact ⟨token, hgen, fun later hlt => ⟨_, hok later hlt, rfl⟩⟩
  have h := login_of_quiet lib env now req db e hquiet hemail hwell hnorm
    (by rw [hpass]; exact passes_notEmpty_str lib pw hpw)
    (by rw [hpass]; exact truthy_str pw hpw)
  have hhead : ∃ rest, db.users.filter
      (fun v => v.email == lib.normalizeEmail e && v.is_active) = u :: rest := by
    cases hf : db.users.filter (fun v => v.email == lib.normalizeEmail e && v.is_active) with
    | nil =>
      have : u ∈ db.users.filter (fun v => v.email == lib.normalizeEmail e && v.is_active) := by
        simp [List.mem_filter, hu, hue, hactive]
      rw [hf] at this
      simp at this
    | cons v rest =>
      have hmem : v ∈ db.users.filter
          (fun v => v.email == lib.normalizeEmail e && v.is_active) := by simp [hf]
      rw [List.mem_filter] at hmem
      have hve : v.email = lib.normalizeEmail e := by
        have := hmem.2
        simp at this
        exact this.1
      exact ⟨rest, by rw [hunique v hmem.1 (hve.trans hue.symm)]⟩
  obtain ⟨rest, hf⟩ := hhead
  obtain ⟨token, hgen, hok⟩ := hver u.id now
  simp only [hf, hpass, passwordAnswer, hmatch, Bool.not_true, Bool.false_eq_true,
    if_false, hgen] at h
  rw [h]
  refine ⟨rfl, ⟨token, ?_, hok⟩, hver, jwtSecret_ne_empty env⟩
  simp [loginOk, Js.field]

/-- C6 at the clinic: Ana logs in with her password. -/
theorem login_token_verifies_witness :
    (login demoLib demoEnv 5
      (publicRequest [("email", .str "ana@ips.co"), ("password", .str "secreto")])
      clinic).1.status = 200 ∧
    ∃ token,
      (login demoLib demoEnv 5
        (publicRequest [("email", .str "ana@ips.co"), ("password", .str "secreto")])
        clinic).1.body.field "token" = .str token ∧
      ∀ later, later < 5 + thirtyDays →
        ∃ claims, verifyToken demoLib demoEnv later token = .ok claims ∧ claims.userId = 1 :=
  ⟨(login_token_verifies demoLib demoEnv 5
      (publicRequest [("email", .str "ana@ips.co"), ("password", .str "secreto")]) clinic
      "ana@ips.co" "secreto" ana demoLib_jwtSound rfl rfl rfl (by decide) rfl (by decide)
      (by decide) rfl rfl (by decide) rfl).1,
   (login_token_verifies demoLib demoEnv 5
      (publicRequest [("email", .str "ana@ips.co"), ("password", .str "secreto")]) clinic
      "ana@ips.co" "secreto" ana demoLib_jwtSound rfl rfl rfl (by decide) rfl (by decide)
      (by decide) rfl rfl (by decide) rfl).2.1⟩

/-- C7, as stated, fails at the clinic: a well-formed patient with Rosa's
identification and a well-formed user with Ana's email are both answered with
status 400, the status a request failing validation gets, not with a
Conflict. -/
theorem duplicate_create_answers_400 :
    patientCreateErrors demoLib (bodyOf (patientFields "1001")) = [] ∧
    (createPatient demoLib (requestOf 2 "" (patientFields "1001")) clinic).1 =
      ⟨400, errorBody "La identificación ya está registrada"⟩ ∧
    userCreateErrors demoLib ["admin", "doctor", "recepcionista"]
      (bodyOf (userFields "ana@ips.co")) = [] ∧
    (createUser demoLib (requestOf 1 "" (userFields "ana@ips.co")) clinic).1 =
      ⟨400, errorBody "El email ya está registrado"⟩ ∧
    (createPatient demoLib (requestOf 2 "" []) clinic).1.status = 400 ∧
    (createUser demoLib (requestOf 1 "" []) clinic).1.status = 400 :=
  ⟨rfl, rfl, rfl, rfl, rfl, rfl⟩

/-- C7, amended. On a store no other session touches, for a request of a user
whose stored role passes the guard and whose body passes validation: creating
a patient whose identification is already stored, or a user whose email is
already stored, is answered 400 with the `error` message of the route and
leaves the table as it was; otherwise, when the store takes the values (and,
for a patient, table `patients` has the `document_type` column; for a user, the
password is a string), the row is added and 201 returns its new identifier. -/
theorem duplicate_key_is_bad_request (lib : Lib) (req : Req) (db : Db) (userId : Nat)
    (role : String) (hquiet : db.sched = []) (huser : req.user = some userId)
    (hrole : db.storedRole userId = some role) :
    (role ∈ staffRoles → patientCreateErrors lib req.body = [] →
      ((∃ p ∈ db.patients, some p.identification = sqlText (req.body "identification")) →
        (createPatient lib req db).1 = ⟨400, errorBody "La identificación ya está registrada"⟩ ∧
        (createPatient lib req db).2.patients = db.patients) ∧
      (∀ row, (∀ p ∈ db.patients,
          some p.identification ≠ sqlText (req.body "identification")) →
        db.hasDocumentType = true →
        newPatient db.nextPatientId (patientData req.body (.num userId)) = some row →
        (createPatient lib req db).1 =
          ⟨201, .obj [("message", .str "Paciente creado exitosamente"),
            ("patientId", .num db.nextPatientId)]⟩ ∧
        (createPatient lib req db).2.patients = db.patients ++ [row])) ∧
    (role = "admin" → userCreateErrors lib ["admin", "doctor", "recepcionista"] req.body = [] →
      ((∃ u ∈ db.users, some u.email = sqlText (userEmail lib req)) →
        (createUser lib req db).1 = ⟨400, errorBody "El email ya está registrado"⟩ ∧
        (createUser lib req db).2.users = db.users) ∧
      (∀ pw row, (∀ u ∈ db.users, some u.email ≠ sqlText (userEmail lib req)) →
        req.body "password" = .str pw →
        userRow lib req pw db.nextUserId db.clock = some row →
        (createUser lib req db).1 =
          ⟨201, .obj [("message", .str "Usuario creado exitosamente"),
            ("userId", .num db.nextUserId)]⟩ ∧
        (createUser lib req db).2.users = db.users ++ [row])) := by
  refine ⟨?_, ?_⟩
  · intro hstaff hvalid
    refine ⟨?_, ?_⟩
    · intro htaken
      rw [createPatient_taken lib req db userId role hquiet huser hrole hstaff hvalid htaken]
      exact ⟨rfl, rfl⟩
    · intro row hfresh hcolumn hrow
      exact createPatient_fresh lib req db userId role row hquiet huser hrole hstaff hvalid
        hfresh hcolumn hrow
  · intro hadmin hvalid
    have hpass := authorize_pass_of_quiet ["admin"] req db userId role hquiet huser hrole
      (by simp [hadmin])
    have herr : (userCreateErrors lib ["admin", "doctor", "recepcionista"] req.body).isEmpty
        = true := by rw [hvalid]; rfl
    refine ⟨?_, ?_⟩
    · intro htaken
      unfold userEmail at htaken
      rw [createUser, guarded_next _ _ _ _ _ hpass]
      unfold createUserHandler
      simp only [herr, Bool.not_true, Bool.false_eq_true, if_false]
      rw [insertNewUser_taken lib _ req _ (by simpa using hquiet) (by simpa using htaken)]
      exact ⟨rfl, rfl⟩
    · intro pw row hfresh hpw hrow
      unfold userEmail at hfresh
      unfold userRow userEmail at hrow
      have henum : row.role ∈ usersRoleEnum := by
        have := isIn_sqlText lib ["admin", "doctor", "recepcionista"] (req.body "role") row.role
          (by decide) (by decide) (userCreateErrors_nil lib _ _ hvalid)
          (newUser_facts _ _ _ _ _ _ row hrow).2.2.1
        simpa [usersRoleEnum] using this
      rw [createUser, guarded_next _ _ _ _ _ hpass]
      unfold createUserHandler
      simp only [herr, Bool.not_true, Bool.false_eq_true, if_false]
      rw [insertNewUser_fresh lib _ req _ pw row (by simpa using hquiet)
        (by simpa using hfresh) hpw (by simpa using hrow) (by simpa using henum)]
      exact ⟨rfl, rfl⟩

/-- C7 amended, at the clinic: the receptionist registers a patient with Rosa's
identification and a new one; the administrator registers a user with her own
email and a new one. -/
theorem duplicate_key_is_bad_request_witness :
    ((createPatient demoLib (requestOf 2 "" (patientFields "1001")) clinic).1 =
        ⟨400, errorBody "La identificación ya está registrada"⟩ ∧
      (createPatient demoLib (requestOf 2 "" (patientFields "1001")) clinic).2.patients =
        clinic.patients) ∧
    ((createPatient demoLib (requestOf 2 "" (patientFields "2002")) clinic).1 =
        ⟨201, .obj [("message", .str "Paciente creado exitosamente"), ("patientId", .num 2)]⟩ ∧
      (createPatient demoLib (requestOf 2 "" (patientFields "2002")) clinic).2.patients =
        [rosa, ⟨2, "2002", "CC", "Juan", "Mora", "1990-05-06", "M", none, none, none, none, none,
          none, none, some 2⟩]) ∧
    ((createUser demoLib (requestOf 1 "" (userFields "ana@ips.co")) clinic).1 =
        ⟨400, errorBody "El email ya está registrado"⟩ ∧
      (createUser demoLib (requestOf 1 "" (userFields "ana@ips.co")) clinic).2.users =
        clinic.users) ∧
    ((createUser demoLib (requestOf 1 "" (userFields "eva@ips.co")) clinic).1 =
        ⟨201, .obj [("message", .str "Usuario creado exitosamente"), ("userId", .num 4)]⟩ ∧
      (createUser demoLib (requestOf 1 "" (userFields "eva@ips.co")) clinic).2.users =
        [ana, luis, marta, ⟨4, "Eva", "eva@ips.co", "$2a$10$segura1", "doctor", true, 1000⟩]) :=
  ⟨((duplicate_key_is_bad_request demoLib (requestOf 2 "" (patientFields "1001")) clinic 2
      "recepcionista" rfl rfl rfl).1 (by decide) rfl).1 ⟨rosa, by decide, rfl⟩,
   ((duplicate_key_is_bad_request demoLib (requestOf 2 "" (patientFields "2002")) clinic 2
      "recepcionista" rfl rfl rfl).1 (by decide) rfl).2 _ (by decide) rfl rfl,
   ((duplicate_key_is_bad_request demoLib (requestOf 1 "" (userFields "ana@ips.co")) clinic 1
      "admin" rfl rfl rfl).2 rfl rfl).1 ⟨ana, by decide, rfl⟩,
   ((duplicate_key_is_bad_request demoLib (requestOf 1 "" (userFields "eva@ips.co")) clinic 1
      "admin" rfl rfl rfl).2 rfl rfl).2 "segura1" _ (by decide) rfl rfl⟩

/-- C8, as stated, fails: while another session registers the same patient
(or the same user) between the pre-check and the INSERT, the pre-check finds
no row, the INSERT is rejected as a duplicate, and the handler answers 500,
not a Conflict. -/
theorem racing_insert_answers_500 :
    (∀ p ∈ racingPatients.patients, p.identification ≠ "2002") ∧
    (createPatient demoLib (requestOf 2 "" (patientFields "2002")) racingPatients).1 =
      ⟨500, errorDetails "Error creando paciente"
        "Duplicate entry for key patients.identification"⟩ ∧
    (∀ u ∈ racingUsers.users, u.email ≠ "eva@ips.co") ∧
    (createInitial demoLib (publicRequest (userFields "eva@ips.co")) racingUsers).1 =
      ⟨500, errorDetails "Error creando usuario" "Duplicate entry for key users.email"⟩ :=
  ⟨by decide, rfl, by decide, rfl⟩

/-- C8, amended. When the pre-check finds no row for the key (no fault, no
such row in the store as the pre-check finds it) but, by the time the INSERT
arrives, the store holds a row with that key, the INSERT is rejected as a
duplicate and the handler answers 500: `POST /api/patients` and
`POST /api/users/create-initial` with the message of the store in `details`,
`POST /api/users` with the bare error `Error creando usuario`. The handler
adds no row. -/
theorem insert_conflict_is_internal_error (lib : Lib) (req : Req) (db : Db) :
    (∀ userId row, patientCreateErrors lib req.body = [] → req.user = some userId →
      db.slot.fault = none →
      (∀ p ∈ db.arrive.patients,
        some p.identification ≠ sqlText (req.body "identification")) →
      (db.sent (patientPrecheck req)).slot.fault = none →
      (db.sent (patientPrecheck req)).arrive.hasDocumentType = true →
      newPatient (db.sent (patientPrecheck req)).arrive.nextPatientId
        (patientData req.body (.num userId)) = some row →
      (∃ p ∈ (db.sent (patientPrecheck req)).arrive.patients,
        p.identification = row.identification) →
      createPatientHandler lib req db =
        (⟨500, errorDetails "Error creando paciente"
            "Duplicate entry for key patients.identification"⟩,
          (db.sent (patientPrecheck req)).sent (patientInsert req userId))) ∧
    (∀ pw row, req.body "password" = .str pw →
      db.slot.fault = none →
      (∀ u ∈ db.arrive.users, some u.email ≠ sqlText (userEmail lib req)) →
      (db.sent (userPrecheck lib req)).slot.fault = none →
      userRow lib req pw (db.sent (userPrecheck lib req)).arrive.nextUserId
        (db.sent (userPrecheck lib req)).arrive.clock = some row →
      (∃ u ∈ (db.sent (userPrecheck lib req)).arrive.users, u.email = row.email) →
      (userCreateErrors lib ["admin", "doctor", "nurse", "recepcionista"] req.body = [] →
        createInitial lib req db =
          (⟨500, errorDetails "Error creando usuario" "Duplicate entry for key users.email"⟩,
            (db.sent (userPrecheck lib req)).sent (userInsert lib req pw))) ∧
      (userCreateErrors lib ["admin", "doctor", "recepcionista"] req.body = [] →
        createUserHandler lib req db =
          (⟨500, errorBody "Error creando usuario"⟩,
            (db.sent (userPrecheck lib req)).sent (userInsert lib req pw)))) := by
  refine ⟨?_, ?_⟩
  · intro userId row hvalid huser hfault1 hnone hfault2 hcolumn hrow hdup
    exact createPatientHandler_conflict lib req db userId row hvalid huser hfault1 hnone hfault2
      hcolumn hrow hdup
  · intro pw row hpass hfault1 hnone hfault2 hrow hdup
    refine ⟨?_, ?_⟩
    · intro hvalid
      unfold createInitial
      simp only [hvalid, List.isEmpty_nil, Bool.not_true, Bool.false_eq_true, if_false]
      exact insertNewUser_conflict lib _ req db pw row hfault1 hnone hpass hfault2 hrow hdup
    · intro hvalid
      unfold createUserHandler
      simp only [hvalid, List.isEmpty_nil, Bool.not_true, Bool.false_eq_true, if_false]
      exact insertNewUser_conflict lib _ req db pw row hfault1 hnone hpass hfault2 hrow hdup

/-- C8 amended, at the clinic: the racing registrations of patient 2002 and of
eva@ips.co. -/
theorem insert_conflict_is_internal_error_witness :
    (createPatientHandler demoLib (requestOf 2 "" (patientFields "2002"))
      (authorize staffRoles (requestOf 2 "" (patientFields "2002")) racingPatients).2).1 =
      ⟨500, errorDetails "Error creando paciente"
        "Duplicate entry for key patients.identification"⟩ ∧
    (createInitial demoLib (publicRequest (userFields "eva@ips.co")) racingUsers).1 =
      ⟨500, errorDetails "Error creando usuario" "Duplicate entry for key users.email"⟩ :=
  ⟨congrArg Prod.fst
      ((insert_conflict_is_internal_error demoLib (requestOf 2 "" (patientFields "2002"))
        (authorize staffRoles (requestOf 2 "" (patientFields "2002")) racingPatients).2).1 2
        ⟨3, "2002", "CC", "Juan", "Mora", "1990-05-06", "M", none, none, none, none, none,
          none, none, some 2⟩
        rfl rfl rfl (by decide) rfl rfl rfl
        ⟨⟨2, "2002", "CC", "Juan", "Mora", "1990-05-06", "M", none, none, none, none, none,
          none, none, some 2⟩, by decide, rfl⟩),
   congrArg Prod.fst
      (((insert_conflict_is_internal_error demoLib (publicRequest (userFields "eva@ips.co"))
        racingUsers).2 "segura1" ⟨5, "Eva", "eva@ips.co", "$2a$10$segura1", "doctor", true, 1000⟩
        rfl rfl (by decide) rfl rfl
        ⟨⟨4, "Eva", "eva@ips.co", "$2a$10$otra", "doctor", true, 1000⟩, by decide, rfl⟩).1 rfl)⟩

/-- C9. Whatever its validation chains decide, `PUT /api/patients/:id` hands
the store at most one UPDATE, and that UPDATE is `patientUpdateStmt`: its SET
clause has one `field = ?` per field of the allow-list that the body defines
(`!== undefined`), in allow-list order, its parameters are the values of those
fields in the same order followed by the patient id, and no key outside the
allow-list occurs in it. When validation passes and the body defines one of
the fields, the handler issues exactly that statement. -/
theorem patient_update_statement (lib : Lib) (req : Req) (db : Db) :
    (patientUpdateErrors lib req.body = [] → definedFields req.body patientAllowedFields ≠ [] →
      issued db (updatePatientHandler lib req db).2 = [patientUpdateStmt req]) ∧
    (∀ q ∈ issued db (updatePatient lib req db).2, q.isUpdate = true →
      q = patientUpdateStmt req) ∧
    (patientUpdateStmt req).sql =
      "UPDATE patients SET " ++
        String.intercalate ", "
          ((definedFields req.body patientAllowedFields).map (fun f => f ++ " = ?")) ++
        " WHERE id = ?" ∧
    (patientUpdateStmt req).params =
      (definedFields req.body patientAllowedFields).map req.body ++ [.str req.paramId] ∧
    (∀ f, f ∈ definedFields req.body patientAllowedFields ↔
      f ∈ patientAllowedFields ∧ req.body f ≠ .undefined) ∧
    (definedFields req.body patientAllowedFields).Sublist patientAllowedFields ∧
    (∀ key, key ∉ patientAllowedFields →
      key ++ " = ?" ∉ (definedFields req.body patientAllowedFields).map (fun f => f ++ " = ?")) := by
  refine ⟨?_, ?_, rfl, rfl, ?_, List.filter_sublist _, ?_⟩
  · intro herr hf
    have hcond : ((patientUpdateErrors lib req.body).isEmpty &&
        !(definedFields req.body patientAllowedFields).isEmpty) = true := by
      have hne : (definedFields req.body patientAllowedFields).isEmpty = false := by
        cases h : definedFields req.body patientAllowedFields with
        | nil => exact absurd h hf
        | cons a b => rfl
      rw [herr, hne]
      rfl
    apply issued_of_log
    rw [updatePatientHandler_log, if_pos hcond]
  · apply guarded_issued
    · intro id h
      simp [Stmt.isUpdate] at h
    · intro db1
      rw [updatePatientHandler_log]
      split
      · exact ⟨_, rfl, by simp⟩
      · exact ⟨[], by simp, by simp⟩
  · intro f
    unfold definedFields
    rw [List.mem_filter]
    cases hb : req.body f <;> simp [Js.isUndefined]
  · intro key hkey hmem
    obtain ⟨f, hf, heq⟩ := List.mem_map.mp hmem
    have : f = key := String.append_right_cancel f key " = ?" heq
    exact hkey (this ▸ (List.mem_filter.mp hf).1)

/-- C9 at the clinic: a body with `phone`, `first_name` and the foreign keys
`id` and `created_by` updates `first_name` and `phone`, in that order. -/
theorem patient_update_statement_witness :
    issued clinic (updatePatientHandler demoLib
      (requestOf 2 "1" [("id", .num 9), ("phone", .str "555"), ("first_name", .str "Rosa"),
        ("created_by", .num 3)]) clinic).2 =
      [.updatePatients ["first_name = ?", "phone = ?"] [.str "Rosa", .str "555", .str "1"]] :=
  (patient_update_statement demoLib
    (requestOf 2 "1" [("id", .num 9), ("phone", .str "555"), ("first_name", .str "Rosa"),
      ("created_by", .num 3)]) clinic).1 rfl (by decide)

/-- C10. A body that defines none of the updatable fields of the entity is
answered 400 `No hay campos para actualizar` by the handlers of
`PUT /api/patients/:id`, `PUT /api/clinical-history/:id` and
`PUT /api/users/:id`, which leave the store untouched; the guarded routes give
that answer whenever `authorize` lets the request through, issue no UPDATE
whatever `authorize` decides, and on a store no other session touches leave
the table as it was. -/
theorem empty_update_rejected (lib : Lib) (req : Req) (db : Db) :
    (definedFields req.body patientAllowedFields = [] →
      updatePatientHandler lib req db = (noFields, db) ∧
      (∀ db1, authorize staffRoles req db = (.next, db1) →
        updatePatient lib req db = (noFields, db1)) ∧
      (∀ q ∈ issued db (updatePatient lib req db).2, q.isUpdate = false) ∧
      (db.sched = [] → (updatePatient lib req db).2.patients = db.patients)) ∧
    (definedFields req.body historyAllowedFields = [] →
      updateHistory lib req db = (noFields, db)) ∧
    (definedFields req.body ["name", "email", "role", "is_active"] = [] →
      updateUserHandler lib req db = (noFields, db) ∧
      (∀ db1, authorize ["admin"] req db = (.next, db1) →
        updateUser lib req db = (noFields, db1)) ∧
      (∀ q ∈ issued db (updateUser lib req db).2, q.isUpdate = false) ∧
      (db.sched = [] → (updateUser lib req db).2.users = db.users)) ∧
    noFields = ⟨400, errorBody "No hay campos para actualizar"⟩ := by
  refine ⟨?_, ?_, ?_, rfl⟩
  · intro h0
    have h := undefined_of_definedFields _ _ h0
    have hr := idle_route staffRoles (updatePatientHandler lib) req db
      (fun db1 => updatePatientHandler_empty lib req db1 h)
    exact ⟨updatePatientHandler_empty lib req db h, hr.1, hr.2.1, fun hq => (hr.2.2 hq).2.1⟩
  · intro h0
    exact updateHistory_empty lib req db (undefined_of_definedFields _ _ h0)
  · intro h0
    have h := undefined_of_definedFields _ _ h0
    have hr := idle_route ["admin"] (updateUserHandler lib) req db
      (fun db1 => updateUserHandler_empty lib req db1 h)
    exact ⟨updateUserHandler_empty lib req db h, hr.1, hr.2.1, fun hq => (hr.2.2 hq).1⟩

/-- C10 at the clinic: a body whose only key is `id` is refused by the three
updates, the store staying as it is. -/
theorem empty_update_rejected_witness :
    updatePatientHandler demoLib (requestOf 1 "1" [("id", .num 7)]) clinic = (noFields, clinic) ∧
    updateHistory demoLib (requestOf 1 "1" [("id", .num 7)]) clinic = (noFields, clinic) ∧
    updateUserHandler demoLib (requestOf 1 "2" [("id", .num 7)]) clinic = (noFields, clinic) ∧
    (updatePatient demoLib (requestOf 1 "1" [("id", .num 7)]) clinic).2.patients =
      clinic.patients :=
  ⟨((empty_update_rejected demoLib (requestOf 1 "1" [("id", .num 7)]) clinic).1 rfl).1,
   (empty_update_rejected demoLib (requestOf 1 "1" [("id", .num 7)]) clinic).2.1 rfl,
   ((empty_update_rejected demoLib (requestOf 1 "2" [("id", .num 7)]) clinic).2.2.1 rfl).1,
   ((empty_update_rejected demoLib (requestOf 1 "1" [("id", .num 7)]) clinic).1 rfl).2.2.2 rfl⟩

/-- C11, as the code has it: `PUT /api/clinical-history/:id` answers 400 "No hay
campos para actualizar" (and sends nothing to the store) when the body defines
no updatable field, whether or not the history exists; on a quiet store, a
valid request that defines some field and names an id no history has is
answered 404 "Historia clínica no encontrada" and leaves the tables as they
were. -/
theorem history_update_not_found (lib : Lib) (req : Req) (db : Db) :
    (definedFields req.body historyAllowedFields = [] →
      updateHistory lib req db = (noFields, db)) ∧
    (db.sched = [] → historyUpdateErrors lib req.body = [] →
      definedFields req.body historyAllowedFields ≠ [] →
      (∀ h ∈ db.histories, some h.id ≠ sqlId (.str req.paramId)) →
      (updateHistory lib req db).1 = ⟨404, errorBody "Historia clínica no encontrada"⟩ ∧
      (updateHistory lib req db).2.histories = db.histories ∧
      (updateHistory lib req db).2.patients = db.patients ∧
      (updateHistory lib req db).2.users = db.users) := by
  refine ⟨fun h => updateHistory_empty lib req db (undefined_of_definedFields _ _ h), ?_⟩
  intro hquiet hvalid hsome habsent
  rw [updateHistory_absent lib req db hquiet hvalid hsome habsent]
  exact ⟨rfl, rfl, rfl, rfl⟩

/-- C11, counterexample: requests without any updatable field, for the history
on file and for an id that is not, are both answered 400, not 404. -/
theorem history_update_without_fields :
    (updateHistory demoLib (requestOf 1 "1" []) clinic).1.status = 400 ∧
    (updateHistory demoLib (requestOf 1 "99" []) clinic).1.status = 400 := by
  decide

/-- C11, witness: an empty update of history 1 and an update of the absent
history 99 in the clinic. -/
theorem history_update_not_found_witness :
    updateHistory demoLib (requestOf 1 "1" []) clinic = (noFields, clinic) ∧
    (updateHistory demoLib (requestOf 1 "99" [("symptoms", .str "Tos")]) clinic).1 =
      ⟨404, errorBody "Historia clínica no encontrada"⟩ :=
  ⟨(history_update_not_found demoLib (requestOf 1 "1" []) clinic).1 rfl,
   ((history_update_not_found demoLib (requestOf 1 "99" [("symptoms", .str "Tos")]) clinic).2
      rfl rfl (by decide) (by decide)).1⟩

/-- C12, failing input: at the clinic the receptionist (user 2) posts the
smallest clinical history the validation chains accept, `patient_id` 1 (on
file) and `reason_for_visit`. The fields the chains call optional are
`undefined` in the parameter array of the INSERT, `db.execute` throws, and the
answer is 500 with no history inserted. A body that defines every bound field
is inserted with `doctor_id` 2, the requester, although it names `doctor_id`
1; a `patient_id` not on file is answered 404 with nothing inserted. -/
theorem history_create_minimal_request_fails :
    historyCreateErrors demoLib (bodyOf minimalVisit) = [] ∧
    (createHistory demoLib (requestOf 2 "" minimalVisit) clinic).1 =
      ⟨500, errorBody "Error creando historia clínica"⟩ ∧
    (createHistory demoLib (requestOf 2 "" minimalVisit) clinic).2.histories =
      clinic.histories ∧
    (createHistory demoLib (requestOf 2 "" (visitFields .null)) clinic).1 = historyCreated 2 ∧
    (createHistory demoLib (requestOf 2 "" (visitFields .null)) clinic).2.histories =
      clinic.histories ++
        [⟨2, 1, 2, "Fiebre", some "Tos", none, none, none, none, none, some "2025-03-01"⟩] ∧
    (createHistory demoLib
      (requestOf 2 "" [("patient_id", .num 9), ("reason_for_visit", .str "Fiebre")]) clinic).1 =
      ⟨404, errorBody "Paciente no encontrado"⟩ ∧
    (createHistory demoLib
      (requestOf 2 "" [("patient_id", .num 9), ("reason_for_visit", .str "Fiebre")])
      clinic).2.histories = clinic.histories :=
  ⟨rfl, rfl, by decide, rfl, by decide, rfl, by decide⟩

/-- C13, failing input: a clinical history created with `vital_signs` 0,
`false` or the empty string stores SQL NULL, whatever `JSON.stringify` is, so
that reading it back gives `null`; the update route binds the serialized
value for the same payloads, and a read after it gives them back. At the
clinic: history 2 created with `vital_signs` 0 reads `null`, created with 7
reads 7; history 1 updated to 0 or to `false` reads 0 and `false`. -/
theorem falsy_vital_signs_lost_on_create :
    (∀ lib : Lib, vitalSignsOnCreate lib (.num 0) = .null ∧
      vitalSignsOnCreate lib (.bool false) = .null ∧
      vitalSignsOnCreate lib (.str "") = .null ∧
      ∀ body : Body, historyValue lib body "vital_signs" =
        .str (lib.jsonStringify (body "vital_signs"))) ∧
    (createHistory demoLib (requestOf 2 "" (visitFields (.num 0))) clinic).1 =
      historyCreated 2 ∧
    (createHistory demoLib (requestOf 2 "" (visitFields (.num 0))) clinic).2.histories =
      clinic.histories ++
        [⟨2, 1, 2, "Fiebre", some "Tos", none, none, none, none, none, some "2025-03-01"⟩] ∧
    (getHistory demoParse (requestOf 2 "2" [])
      (createHistory demoLib (requestOf 2 "" (visitFields (.num 0))) clinic).2).1.body.field
        "vital_signs" = .null ∧
    (getHistory demoParse (requestOf 2 "2" [])
      (createHistory demoLib (requestOf 2 "" (visitFields (.bool false))) clinic).2).1.body.field
        "vital_signs" = .null ∧
    (getHistory demoParse (requestOf 2 "2" [])
      (createHistory demoLib (requestOf 2 "" (visitFields (.num 7))) clinic).2).1.body.field
        "vital_signs" = .num 7 ∧
    (getHistory demoParse (requestOf 2 "1" [])
      (updateHistory demoLib (requestOf 2 "1" [("vital_signs", .num 0)]) clinic).2).1.body.field
        "vital_signs" = .num 0 ∧
    (getHistory demoParse (requestOf 2 "1" [])
      (updateHistory demoLib (requestOf 2 "1" [("vital_signs", .bool false)])
        clinic).2).1.body.field "vital_signs" = .bool false :=
  ⟨fun _ => ⟨rfl, rfl, rfl, fun _ => rfl⟩, rfl, by decide, rfl, rfl, rfl, rfl, rfl⟩

/-- C14, as the code has it. On a store no other session touches,
`DELETE /api/users/:id` by an administrator answers 200 and leaves in `users`
the same rows in the same order: the row whose id the path names, if it was
active, with its active flag cleared and `updated_at` set to the time of the
statement and no other column changed, and as it was if it was inactive
already; every other row as it was; `patients` and `clinical_histories` are
untouched. If that row exists and emails are unique in the table, a login
right afterwards with an email that normalizes to the row's is answered 401
`Usuario desactivado` for every password that passes `notEmpty()` and is
truthy, and 400 when the password is missing or the empty string. -/
theorem soft_delete_deactivates (lib : Lib) (env : Env) (now : Nat) (del next : Req) (db : Db)
    (admin : Nat) (hquiet : db.sched = []) (huser : del.user = some admin)
    (hrole : db.storedRole admin = some "admin") :
    (deleteUser del db).1 = ⟨200, messageBody "Usuario desactivado exitosamente"⟩ ∧
    (deleteUser del db).2.users =
      db.users.map (deactivate db.clock (sqlId (.str del.paramId))) ∧
    (deleteUser del db).2.users.length = db.users.length ∧
    (∀ u ∈ db.users,
      (some u.id = sqlId (.str del.paramId) → u.is_active = true →
        deactivate db.clock (sqlId (.str del.paramId)) u =
          { u with is_active := false, updated_at := db.clock }) ∧
      (some u.id = sqlId (.str del.paramId) → u.is_active = false →
        deactivate db.clock (sqlId (.str del.paramId)) u = u) ∧
      (some u.id ≠ sqlId (.str del.paramId) →
        deactivate db.clock (sqlId (.str del.paramId)) u = u)) ∧
    (deleteUser del db).2.patients = db.patients ∧
    (deleteUser del db).2.histories = db.histories ∧
    (∀ u ∈ db.users, ∀ e : String, some u.id = sqlId (.str del.paramId) →
      distinctKeys User.email db.users = true →
      next.body "email" = .str e → lib.isEmail e = true → lib.normalizeEmail e = u.email →
      u.email ≠ "" → lib.passes notEmpty (next.body "password") = true →
      (next.body "password").truthy = true →
      (login lib env now next (deleteUser del db).2).1 = ⟨401, errorBody "Usuario desactivado"⟩) ∧
    ((next.body "password" = .undefined ∨ next.body "password" = .str "") →
      (login lib env now next (deleteUser del db).2).1.status = 400) := by
  refine ⟨?_, ?_, ?_, ?_, ?_, ?_, ?_,
    fun h => (login_without_password lib env now next _ h).1⟩
  · rw [deleteUser_of_quiet del db admin hquiet huser hrole]
  · rw [deleteUser_of_quiet del db admin hquiet huser hrole]
  · rw [deleteUser_of_quiet del db admin hquiet huser hrole]
    simp
  · intro u _
    exact ⟨fun h ha => deactivate_active _ _ u h ha, fun _ hi => deactivate_inactive _ _ u hi,
      fun h => deactivate_other _ _ u h⟩
  · rw [deleteUser_of_quiet del db admin hquiet huser hrole]
  · rw [deleteUser_of_quiet del db admin hquiet huser hrole]
  · intro u hu e hid hdistinct hemail hwell hnorm hne hpass htruthy
    rw [deleteUser_of_quiet del db admin hquiet huser hrole]
    have h := login_of_quiet lib env now next
      { db with
        users := db.users.map (deactivate db.clock (sqlId (.str del.paramId)))
        log := db.log ++ [.selectRoleById (.num admin), .deactivateUser (.str del.paramId)] }
      e hquiet hemail hwell (by rw [hnorm]; exact hne) hpass htruthy
    have hact : (db.users.map (deactivate db.clock (sqlId (.str del.paramId)))).filter
        (fun v => v.email == lib.normalizeEmail e && v.is_active) = [] := by
      rw [List.filter_eq_nil_iff]
      intro v hv
      obtain ⟨w, hw, rfl⟩ := List.mem_map.mp hv
      by_cases hwe : w.email = lib.normalizeEmail e
      · have hwu : w = u := distinctKeys_unique User.email db.users hdistinct w u hw hu
          (by rw [hwe, hnorm])
        simp [hwu, deactivate_match _ _ u hid]
      · simp [deactivate_email, hwe]
    have hin : ((db.users.map (deactivate db.clock (sqlId (.str del.paramId)))).filter
        (fun v => v.email == lib.normalizeEmail e && !v.is_active)).length > 0 := by
      apply List.length_pos_of_mem (a := deactivate db.clock (sqlId (.str del.paramId)) u)
      simp only [List.mem_filter, List.mem_map]
      refine ⟨⟨u, hu, rfl⟩, ?_⟩
      simp [deactivate_email, hnorm, deactivate_match _ _ u hid]
    simp only [hact, hin, if_true] at h
    rw [h]
    rfl

/-- C14, counterexample: at the clinic, at time 1000, Ana deactivates Luis,
whose row was last updated at time 200. The row loses its active flag and its
`updated_at` becomes 1000, so a second column of the row has changed; and a
login with Luis's email and an empty password, or none, is answered 400, not
401 `Usuario desactivado`. -/
theorem soft_delete_rewrites_updated_at :
    luis.updated_at = 200 ∧
    (deleteUser (requestOf 1 "2" []) clinic).2.users =
      [ana, { luis with is_active := false, updated_at := 1000 }, marta] ∧
    (login demoLib demoEnv 0
      (publicRequest [("email", .str "luis@ips.co"), ("password", .str "")])
      (deleteUser (requestOf 1 "2" []) clinic).2).1.status = 400 ∧
    (login demoLib demoEnv 0 (publicRequest [("email", .str "luis@ips.co")])
      (deleteUser (requestOf 1 "2" []) clinic).2).1.status = 400 :=
  ⟨rfl, by decide, by decide, by decide⟩

/-- C14 at the clinic: Ana deactivates Luis, who then logs in with his own
password, and with none. -/
theorem soft_delete_deactivates_witness :
    (deleteUser (requestOf 1 "2" []) clinic).1 =
      ⟨200, messageBody "Usuario desactivado exitosamente"⟩ ∧
    (deleteUser (requestOf 1 "2" []) clinic).2.users =
      [ana, { luis with is_active := false, updated_at := 1000 }, marta] ∧
    (login demoLib demoEnv 0
      (publicRequest [("email", .str "luis@ips.co"), ("password", .str "clave123")])
      (deleteUser (requestOf 1 "2" []) clinic).2).1 = ⟨401, errorBody "Usuario desactivado"⟩ ∧
    (login demoLib demoEnv 0 (publicRequest [("email", .str "luis@ips.co")])
      (deleteUser (requestOf 1 "2" []) clinic).2).1.status = 400 :=
  ⟨(soft_delete_deactivates demoLib demoEnv 0 (requestOf 1 "2" [])
      (publicRequest [("email", .str "luis@ips.co"), ("password", .str "clave123")])
      clinic 1 rfl rfl rfl).1,
   (soft_delete_deactivates demoLib demoEnv 0 (requestOf 1 "2" [])
      (publicRequest [("email", .str "luis@ips.co"), ("password", .str "clave123")])
      clinic 1 rfl rfl rfl).2.1,
   (soft_delete_deactivates demoLib demoEnv 0 (requestOf 1 "2" [])
      (publicRequest [("email", .str "luis@ips.co"), ("password", .str "clave123")])
      clinic 1 rfl rfl rfl).2.2.2.2.2.2.1 luis (by decide) "luis@ips.co" (by decide)
      (by decide) rfl rfl rfl (by decide) rfl rfl,
   (soft_delete_deactivates demoLib demoEnv 0 (requestOf 1 "2" [])
      (publicRequest [("email", .str "luis@ips.co")])
      clinic 1 rfl rfl rfl).2.2.2.2.2.2.2 (Or.inl rfl)⟩

/-- C15, failing input: `GET /api/auth/verify` with a token `generateToken`
made less than thirty days before, which `verifyToken` accepts, on a store
whose query fails. The query is sent once and the answer is 401 `Token
inválido`, not 500. -/
theorem verify_store_failure (lib : Lib) (env : Env) (now later userId : Nat) (req : Req)
    (db : Db) (e : DbError) (token : String)
    (hsound : lib.JwtSound) (hlater : later < now + thirtyDays)
    (hgen : generateToken lib env now userId = .ok token)
    (hbearer : req.bearer = some token) (htoken : token ≠ "")
    (hfault : db.slot.fault = some e) :
    verifyToken lib env later token = .ok ⟨userId, now, now + thirtyDays⟩ ∧
    (verify lib env later req db).1 = ⟨401, errorBody "Token inválido"⟩ ∧
    (verify lib env later req db).1.status ≠ 500 ∧
    issued db (verify lib env later req db).2 = [.selectUserById (.num userId)] := by
  have hver : verifyToken lib env later token = .ok ⟨userId, now, now + thirtyDays⟩ := by
    obtain ⟨token1, hgen1, hok⟩ := generateToken_verifies lib env hsound now userId
    rw [hgen] at hgen1
    cases hgen1
    exact hok later hlater
  have hexec : execute (.selectUserById (.num userId)) db =
      (.error e, db.sent (.selectUserById (.num userId))) := by
    rw [execute_of_defined _ _ (by simp [Stmt.params, Js.isUndefined]), hfault]
  have hmain : verify lib env later req db =
      (⟨401, errorBody "Token inválido"⟩, db.sent (.selectUserById (.num userId))) := by
    simp only [verify, hbearer, htoken, if_false, hver, hexec]
  rw [hmain]
  exact ⟨hver, rfl, by show (401 : Nat) ≠ 500; decide, issued_sent db _⟩

/-- C15 at the clinic with its connection lost: the token `generateToken`
makes for user 1 at time 0. -/
theorem verify_store_failure_witness :
    verifyToken demoLib demoEnv 0 (String.mk (List.replicate 1 'u' ++ List.replicate 0 'i' ++
      List.replicate (0 + thirtyDays) 'e')) = .ok ⟨1, 0, 0 + thirtyDays⟩ ∧
    (verify demoLib demoEnv 0
      ⟨some (String.mk (List.replicate 1 'u' ++ List.replicate 0 'i' ++
        List.replicate (0 + thirtyDays) 'e')), none, "", bodyOf []⟩
      offline).1 = ⟨401, errorBody "Token inválido"⟩ ∧
    (verify demoLib demoEnv 0
      ⟨some (String.mk (List.replicate 1 'u' ++ List.replicate 0 'i' ++
        List.replicate (0 + thirtyDays) 'e')), none, "", bodyOf []⟩
      offline).1.status ≠ 500 ∧
    issued offline (verify demoLib demoEnv 0
      ⟨some (String.mk (List.replicate 1 'u' ++ List.replicate 0 'i' ++
        List.replicate (0 + thirtyDays) 'e')), none, "", bodyOf []⟩ offline).2 =
      [.selectUserById (.num 1)] :=
  verify_store_failure demoLib demoEnv 0 0 1
    ⟨some (String.mk (List.replicate 1 'u' ++ List.replicate 0 'i' ++
      List.replicate (0 + thirtyDays) 'e')), none, "", bodyOf []⟩ offline
    ⟨"ECONNRESET", "read ECONNRESET"⟩
    (String.mk (List.replicate 1 'u' ++ List.replicate 0 'i' ++
      List.replicate (0 + thirtyDays) 'e'))
    demoLib_jwtSound (by decide) rfl rfl
    (fun h => by
      have hlen := congrArg String.length h
      simp only [String.length_mk, List.length_append, List.length_replicate,
        String.length_empty] at hlen
      omega)
    rfl

/-- C16, failing input: with `NODE_ENV` set to `production` and the
connection to the store lost, login answers 500 with the message of the
store's error in `details`; so do the two creation routes that put
`error.message` in their answer, which read no environment variable. The
error middleware of `server.js` is the one place that replaces the message in
production. -/
theorem production_answers_carry_store_message :
    production.NODE_ENV = some "production" ∧
    (login demoLib production 0
      (publicRequest [("email", .str "ana@ips.co"), ("password", .str "secreto")]) offline).1 =
      ⟨500, .obj [("error", .str "Error interno del servidor"),
        ("details", .str "read ECONNRESET")]⟩ ∧
    (createInitial demoLib (publicRequest (userFields "eva@ips.co")) offline).1 =
      ⟨500, .obj [("error", .str "Error creando usuario"),
        ("details", .str "read ECONNRESET")]⟩ ∧
    (createPatient demoLib (requestOf 1 "" (patientFields "2002")) flaky).1 =
      ⟨500, .obj [("error", .str "Error creando paciente"),
        ("details", .str "read ECONNRESET")]⟩ ∧
    errorMiddleware production "read ECONNRESET" =
      ⟨500, .obj [("error", .str "Error interno del servidor"),
        ("message", .str "Contacta al administrador")]⟩ :=
  ⟨rfl, rfl, rfl, rfl, rfl⟩

/-- C17, as the code has it: the genders the validation of `POST /api/patients`
accepts are `M`, `F` and `Otro`. For every request, if validation passes then
a string `document_type` is one of `CC`, `CE`, `TI`, `PASAPORTE`, `OTRO` and a
string `gender` is one of `M`, `F`, `Otro`; a request with gender `Otro` whose
other five checks pass passes validation; a request whose gender is a string
outside `M`, `F`, `Otro` is answered 400 by the handler with the validation
errors, the store untouched. -/
theorem patient_enums_validated (lib : Lib) (req : Req) (db : Db) :
    (patientCreateErrors lib req.body = [] →
      (∀ dt, req.body "document_type" = .str dt → dt ∈ ["CC", "CE", "TI", "PASAPORTE", "OTRO"]) ∧
      (∀ g, req.body "gender" = .str g → g ∈ ["M", "F", "Otro"])) ∧
    (req.body "gender" = .str "Otro" →
      lib.passes notEmpty (req.body "identification") = true →
      lib.passes (isIn ["CC", "CE", "TI", "PASAPORTE", "OTRO"]) (req.body "document_type") = true →
      lib.passes notEmpty (req.body "first_name") = true →
      lib.passes notEmpty (req.body "last_name") = true →
      lib.passes lib.isDate (req.body "date_of_birth") = true →
      patientCreateErrors lib req.body = []) ∧
    (∀ g, req.body "gender" = .str g → g ∉ ["M", "F", "Otro"] →
      patientCreateErrors lib req.body ≠ [] ∧
      createPatientHandler lib req db =
        (⟨400, .obj [("errors", errorsArray (patientCreateErrors lib req.body))]⟩, db)) := by
  refine ⟨?_, ?_, ?_⟩
  · intro h
    obtain ⟨_, hdt, _, _, _, hg⟩ := (patientCreateErrors_eq_nil lib req.body).mp h
    constructor
    · intro dt hbody
      rw [hbody, passes_str] at hdt
      simpa [isIn] using hdt
    · intro g hbody
      rw [hbody, passes_str] at hg
      simpa [isIn] using hg
  · intro hg h1 h2 h3 h4 h5
    refine (patientCreateErrors_eq_nil lib req.body).mpr ⟨h1, h2, h3, h4, h5, ?_⟩
    rw [hg, passes_str]
    decide
  · intro g hbody hout
    have hne : patientCreateErrors lib req.body ≠ [] := by
      intro h
      obtain ⟨_, _, _, _, _, hg⟩ := (patientCreateErrors_eq_nil lib req.body).mp h
      rw [hbody, passes_str] at hg
      exact hout (by simpa [isIn] using hg)
    refine ⟨hne, ?_⟩
    have hemp : (patientCreateErrors lib req.body).isEmpty = false := by
      cases h : patientCreateErrors lib req.body with
      | nil => exact absurd h hne
      | cons _ _ => rfl
    simp only [createPatientHandler, hemp, Bool.not_false, if_true]

/-- C17, counterexample: at the clinic a patient with gender `Other` and
otherwise valid fields fails validation on `gender` and is answered 400 with
no row added; the same patient with gender `Otro` is created. -/
theorem gender_other_rejected :
    patientCreateErrors demoLib (bodyOf (patientOfGender "Other")) =
      [("gender", .str "Other")] ∧
    (createPatient demoLib (requestOf 1 "" (patientOfGender "Other")) clinic).1.status = 400 ∧
    (createPatient demoLib (requestOf 1 "" (patientOfGender "Other")) clinic).2.patients =
      clinic.patients ∧
    (createPatient demoLib (requestOf 1 "" (patientOfGender "Otro")) clinic).1 =
      patientCreated 2 :=
  ⟨rfl, by decide, by decide, rfl⟩

/-- C17 at the clinic: a patient with gender `Otro` and document type `TI`
passes validation, one with gender `Other` is answered 400. -/
theorem patient_enums_validated_witness :
    patientCreateErrors demoLib (bodyOf (patientOfGender "Otro")) = [] ∧
    ("TI" ∈ ["CC", "CE", "TI", "PASAPORTE", "OTRO"] ∧ "Otro" ∈ ["M", "F", "Otro"]) ∧
    (createPatientHandler demoLib (requestOf 1 "" (patientOfGender "Other")) clinic).1.status =
      400 :=
  ⟨(patient_enums_validated demoLib (requestOf 1 "" (patientOfGender "Otro")) clinic).2.1
      rfl rfl rfl rfl rfl rfl,
   ⟨((patient_enums_validated demoLib (requestOf 1 "" (patientOfGender "Otro")) clinic).1
      rfl).1 "TI" rfl,
    ((patient_enums_validated demoLib (requestOf 1 "" (patientOfGender "Otro")) clinic).1
      rfl).2 "Otro" rfl⟩,
   congrArg (fun r => r.1.status)
    ((patient_enums_validated demoLib (requestOf 1 "" (patientOfGender "Other")) clinic).2.2
      "Other" rfl (by decide)).2⟩

/-- C18. On a store no other session touches, a request with a string
password and an email not yet registered whose row the store accepts: both
`POST /api/users/create-initial` (validation passed) and `POST /api/users`
(validation passed, requester an administrator) answer 201 with the body
`{ message, userId }` only, add exactly the row, and send as INSERT the one
whose third parameter is `bcrypt.hash` of the submitted password; the stored
password is that hash, hence not the submitted string whenever the hash of a
string differs from it. -/
theorem password_stored_hashed (lib : Lib) (req : Req) (db : Db) (pw : String) (row : User)
    (hquiet : db.sched = [])
    (hfresh : ∀ u ∈ db.users, some u.email ≠ sqlText (userEmail lib req))
    (hpass : req.body "password" = .str pw)
    (hrow : userRow lib req pw db.nextUserId db.clock = some row)
    (henum : row.role ∈ usersRoleEnum) :
    (userCreateErrors lib initialRoles req.body = [] →
      (createInitial lib req db).1 =
        ⟨201, .obj [("message", .str "Usuario creado exitosamente"),
          ("userId", .num db.nextUserId)]⟩ ∧
      (createInitial lib req db).2.users = db.users ++ [row] ∧
      issued db (createInitial lib req db).2 = [userPrecheck lib req, userInsert lib req pw]) ∧
    (∀ admin, userCreateErrors lib adminRoles req.body = [] → req.user = some admin →
      db.storedRole admin = some "admin" →
      (createUser lib req db).1 =
        ⟨201, .obj [("message", .str "Usuario creado exitosamente"),
          ("userId", .num db.nextUserId)]⟩ ∧
      (createUser lib req db).2.users = db.users ++ [row] ∧
      issued db (createUser lib req db).2 =
        [.selectRoleById (.num admin), userPrecheck lib req, userInsert lib req pw]) ∧
    (userInsert lib req pw).params.get? 2 = some (.str (lib.bcryptHash pw)) ∧
    row.password = lib.bcryptHash pw ∧
    (lib.bcryptHash pw ≠ pw → row.password ≠ pw) := by
  have hpwd : row.password = lib.bcryptHash pw := by
    have h := (newUser_facts _ _ _ _ _ _ row hrow).2.1
    simp only [sqlText, Option.some.injEq] at h
    exact h.symm
  refine ⟨?_, ?_, rfl, hpwd, fun h => by rw [hpwd]; exact h⟩
  · intro hvalid
    have hmain : createInitial lib req db = insertNewUser lib
        (fun msg => ⟨500, errorDetails "Error creando usuario" msg⟩) req db := by
      unfold createInitial
      unfold initialRoles at hvalid
      simp only [hvalid, List.isEmpty_nil, Bool.not_true, Bool.false_eq_true, if_false]
    rw [hmain, insertNewUser_fresh lib _ req db pw row hquiet hfresh hpass hrow henum]
    refine ⟨rfl, rfl, ?_⟩
    exact issued_of_log _ _ _ rfl
  · intro admin hvalid huser hrole
    have hmain : createUserHandler lib req (db.logged (.selectRoleById (.num admin))) =
        insertNewUser lib (fun _ => ⟨500, errorBody "Error creando usuario"⟩) req
          (db.logged (.selectRoleById (.num admin))) := by
      unfold createUserHandler
      unfold adminRoles at hvalid
      simp only [hvalid, List.isEmpty_nil, Bool.not_true, Bool.false_eq_true, if_false]
    unfold createUser
    rw [guarded_next ["admin"] (createUserHandler lib) req db _
      (authorize_pass_of_quiet ["admin"] req db admin "admin" hquiet huser hrole (by simp)),
      hmain,
      insertNewUser_fresh lib _ req (db.logged (.selectRoleById (.num admin))) pw row
        (by simpa using hquiet) (by simpa using hfresh) hpass (by simpa using hrow)
        (by simpa using henum)]
    refine ⟨rfl, rfl, ?_⟩
    exact issued_of_log _ _ _ (by simp [userPrecheck, userInsert, userEmail])

/-- C18 at the clinic: Eva is registered with password `segura1` through
either route. -/
theorem password_stored_hashed_witness :
    (createInitial demoLib (publicRequest (userFields "eva@ips.co")) clinic).1 =
      ⟨201, .obj [("message", .str "Usuario creado exitosamente"), ("userId", .num 4)]⟩ ∧
    (createInitial demoLib (publicRequest (userFields "eva@ips.co")) clinic).2.users =
      clinic.users ++ [⟨4, "Eva", "eva@ips.co", "$2a$10$segura1", "doctor", true, 1000⟩] ∧
    (createUser demoLib (requestOf 1 "" (userFields "eva@ips.co")) clinic).2.users =
      clinic.users ++ [⟨4, "Eva", "eva@ips.co", "$2a$10$segura1", "doctor", true, 1000⟩] ∧
    (⟨4, "Eva", "eva@ips.co", "$2a$10$segura1", "doctor", true, 1000⟩ : User).password ≠ "segura1" :=
  ⟨((password_stored_hashed demoLib (publicRequest (userFields "eva@ips.co")) clinic "segura1"
      ⟨4, "Eva", "eva@ips.co", "$2a$10$segura1", "doctor", true, 1000⟩ rfl (by decide) rfl rfl
      (by decide)).1 rfl).1,
   ((password_stored_hashed demoLib (publicRequest (userFields "eva@ips.co")) clinic "segura1"
      ⟨4, "Eva", "eva@ips.co", "$2a$10$segura1", "doctor", true, 1000⟩ rfl (by decide) rfl rfl
      (by decide)).1 rfl).2.1,
   ((password_stored_hashed demoLib (requestOf 1 "" (userFields "eva@ips.co")) clinic "segura1"
      ⟨4, "Eva", "eva@ips.co", "$2a$10$segura1", "doctor", true, 1000⟩ rfl (by decide) rfl rfl
      (by decide)).2.1 1 rfl rfl rfl).2.1,
   (password_stored_hashed demoLib (publicRequest (userFields "eva@ips.co")) clinic "segura1"
      ⟨4, "Eva", "eva@ips.co", "$2a$10$segura1", "doctor", true, 1000⟩ rfl (by decide) rfl rfl
      (by decide)).2.2.2.2 (by decide)⟩

/-- C19, failing input: in production with no `CORS_ORIGIN`, the origin
`https://myapp.railway.app` is refused: the entry `https://*.railway.app` is
matched as the substring `https://.railway.app`, which only an origin with
nothing between `//` and `.railway.app` contains. A request without origin is
allowed whatever the environment, and outside production every origin is. -/
theorem railway_origin_refused_in_production :
    corsAllows production none (some "https://myapp.railway.app") = false ∧
    originMatches "https://myapp.railway.app" "https://*.railway.app" = false ∧
    corsAllows production none (some "https://.railway.app") = true ∧
    (∀ (env : Env) (corsOrigin : Option String), corsAllows env corsOrigin none = true) ∧
    (∀ (env : Env) (corsOrigin origin : Option String),
      env.NODE_ENV ≠ some "production" → corsAllows env corsOrigin origin = true) := by
  refine ⟨by decide, by decide, by decide, fun _ _ => rfl, ?_⟩
  intro env corsOrigin origin h
  cases origin with
  | none => rfl
  | some o => simp [corsAllows, h]

/-- C20, failing input: `nurse` is in the role list of the validation chain of
`POST /api/users/create-initial` and not in the role ENUM of table `users`.
At the clinic a user with role `nurse` passes validation, the INSERT is sent
and the store rejects it: the answer is 500 and no user is added. The role
list of `POST /api/users` and `PUT /api/users/:id` is within the ENUM. -/
theorem nurse_passes_validation_not_schema :
    "nurse" ∈ initialRoles ∧ "nurse" ∉ usersRoleEnum ∧
    (∀ role ∈ adminRoles, role ∈ usersRoleEnum) ∧
    userCreateErrors demoLib initialRoles (bodyOf nurseFields) = [] ∧
    (createInitial demoLib (publicRequest nurseFields) clinic).1 =
      ⟨500, errorDetails "Error creando usuario" "Incorrect value for column role"⟩ ∧
    (createInitial demoLib (publicRequest nurseFields) clinic).2.users = clinic.users ∧
    issued clinic (createInitial demoLib (publicRequest nurseFields) clinic).2 =
      [.selectUserIdByEmail (.str "eva@ips.co"),
        .insertUser (.str "Eva") (.str "eva@ips.co") (.str "$2a$10$segura1") (.str "nurse")] :=
  ⟨by decide, by decide, by decide, rfl, rfl, by decide, rfl⟩

/-- C21, as the code has it: the handlers of `PUT /api/users/:id` and
`DELETE /api/users/:id` never answer 404. On a store no other session touches,
for an administrator and an id no user row has, the soft delete answers 200
`Usuario desactivado exitosamente`, and the update answers 200 `Usuario
actualizado exitosamente` for every body that passes validation and from which
the handler collects at least one assignment; both leave the three tables as
they were. The handler collects no assignment exactly when the sanitized name,
the sanitized email and the role are falsy and `is_active` is undefined. -/
theorem user_routes_never_not_found (lib : Lib) (req : Req) (db : Db) :
    (updateUserHandler lib req db).1.status ≠ 404 ∧
    (deleteUserHandler req db).1.status ≠ 404 ∧
    ((userUpdateOf lib req).1 = [] ↔
      ((lib.sanitizeOptional lib.trim (req.body "name")).truthy = false ∧
       (lib.sanitizeOptional lib.normalizeEmail (req.body "email")).truthy = false ∧
       (req.body "role").truthy = false ∧ (req.body "is_active").isUndefined = true)) ∧
    (∀ admin, db.sched = [] → req.user = some admin → db.storedRole admin = some "admin" →
      (∀ u ∈ db.users, some u.id ≠ sqlId (.str req.paramId)) →
      ((deleteUser req db).1 = ⟨200, messageBody "Usuario desactivado exitosamente"⟩ ∧
       (deleteUser req db).2.users = db.users ∧
       (deleteUser req db).2.patients = db.patients ∧
       (deleteUser req db).2.histories = db.histories) ∧
      (userUpdateErrors lib req.body = [] → (userUpdateOf lib req).1 ≠ [] →
        (updateUser lib req db).1 = ⟨200, messageBody "Usuario actualizado exitosamente"⟩ ∧
        (updateUser lib req db).2.users = db.users ∧
        (updateUser lib req db).2.patients = db.patients ∧
        (updateUser lib req db).2.histories = db.histories)) := by
  refine ⟨?_, ?_, userUpdateSet_nil _ _ _ _, ?_⟩
  · have h := updateUserHandler_status lib req db
    intro h404
    rw [h404] at h
    simp at h
  · have h := deleteUserHandler_status req db
    intro h404
    rw [h404] at h
    simp at h
  · intro admin hquiet huser hrole habsent
    refine ⟨⟨?_, deleteUser_absent req db admin hquiet huser hrole habsent, ?_, ?_⟩, ?_⟩
    · rw [deleteUser_of_quiet req db admin hquiet huser hrole]
    · rw [deleteUser_of_quiet req db admin hquiet huser hrole]
    · rw [deleteUser_of_quiet req db admin hquiet huser hrole]
    · intro hvalid hsome
      unfold updateUser
      rw [guarded_next ["admin"] (updateUserHandler lib) req db _
        (authorize_pass_of_quiet ["admin"] req db admin "admin" hquiet huser hrole (by simp)),
        updateUserHandler_absent lib req (db.logged (.selectRoleById (.num admin)))
          (by simpa using hquiet) hvalid hsome (by simpa using habsent)]
      exact ⟨rfl, rfl, rfl, rfl⟩

/-- C21, counterexample: a body whose only field is a name made of blanks
passes validation and defines an updatable field, yet the update of the absent
user 99 is answered 400 `No hay campos para actualizar`, not 200: the name is
trimmed to the empty string before the handler tests it. -/
theorem blank_name_update_answers_400 :
    userUpdateErrors tidyLib (bodyOf [("name", .str "   ")]) = [] ∧
    definedFields (bodyOf [("name", .str "   ")]) ["name", "email", "role", "is_active"] =
      ["name"] ∧
    (∀ u ∈ clinic.users, some u.id ≠ sqlId (.str "99")) ∧
    (updateUser tidyLib (requestOf 1 "99" [("name", .str "   ")]) clinic).1.status = 400 ∧
    (updateUser tidyLib (requestOf 1 "99" [("name", .str "   ")]) clinic).1.body =
      errorBody "No hay campos para actualizar" :=
  ⟨rfl, by decide, by decide, by decide, rfl⟩

/-- C21 at the clinic: Ana deactivates, and then changes the role of, user 99,
who does not exist. -/
theorem user_routes_never_not_found_witness :
    ((deleteUser (requestOf 1 "99" []) clinic).1 =
        ⟨200, messageBody "Usuario desactivado exitosamente"⟩ ∧
      (deleteUser (requestOf 1 "99" []) clinic).2.users = clinic.users ∧
      (deleteUser (requestOf 1 "99" []) clinic).2.patients = clinic.patients ∧
      (deleteUser (requestOf 1 "99" []) clinic).2.histories = clinic.histories) ∧
    ((updateUser demoLib (requestOf 1 "99" [("role", .str "doctor")]) clinic).1 =
        ⟨200, messageBody "Usuario actualizado exitosamente"⟩ ∧
      (updateUser demoLib (requestOf 1 "99" [("role", .str "doctor")]) clinic).2.users =
        clinic.users ∧
      (updateUser demoLib (requestOf 1 "99" [("role", .str "doctor")]) clinic).2.patients =
        clinic.patients ∧
      (updateUser demoLib (requestOf 1 "99" [("role", .str "doctor")]) clinic).2.histories =
        clinic.histories) :=
  ⟨((user_routes_never_not_found demoLib (requestOf 1 "99" []) clinic).2.2.2 1 rfl rfl rfl
      (by decide)).1,
   ((user_routes_never_not_found demoLib (requestOf 1 "99" [("role", .str "doctor")])
      clinic).2.2.2 1 rfl rfl rfl (by decide)).2 rfl (by decide)⟩

end IpsFulano
